import Mathlib

/-!
# UART line-protocol decoder of `AzureIoT/main.c`

A shallow embedding of the character-at-a-time decoder in `UartEventHandler`
(`src/AzureIoT/AzureIoT/main.c`, lines 343-573) together with the globals it
works on (lines 251-290).

Conventions of the embedding:

* a byte is a `Nat` (the code point; `receiveBuffer` holds `uint8_t`), written as a
  numeric literal with the character in a comment;
* a C `char` array is a `List Nat` of the array's size; `buf[i] = v` is
  `List.set buf i v` and `buf[i]` is `List.getD buf i 0`.  A write at an index
  outside the list leaves the list unchanged (in C it is undefined behaviour);
* the C `int` counters are `Nat`: they only ever count up from `0` and are
  compared with `0` and `1`;
* every `Send...` call of the dispatch chain is recorded as an `Action`
  carrying the C string found at the pointer that is passed.

Besides the decoder, the file embeds the text each `Send...` function formats
(`payload`, lines 972-1416) and the poll-period logic of `SetupAzureClient`
(lines 769-819).
-/

namespace KoliadaSphere

/-- The bytes of a string literal. -/
def bytes (s : String) : List Nat := s.toList.map Char.toNat

/-- The C string stored in a buffer: the bytes before the first NUL
(read no further than the end of the buffer). -/
def cstr (buf : List Nat) : List Nat := buf.takeWhile (fun x => x ≠ 0)

/-- The loop `for (l = 0; l < n; l++) dst[l] = src[l];` (lines 400-402, 427-429). -/
def copyBytes : Nat → List Nat → List Nat → List Nat
  | 0, dst, _ => dst
  | n + 1, dst, src => (copyBytes n dst src).set n (src.getD n 0)

/-- The calls the dispatch chain can make (lines 484-532), each with the C
string at its argument. -/
inductive Action where
  | SendDoorState (v : List Nat)
  | SendDoorBattery (v : List Nat)
  | SendRoomTemperature (v : List Nat)
  | SendRoomHumidity (v : List Nat)
  | SendRoomPressure (v : List Nat)
  | SendServerTemperature (v : List Nat)
  | SendServerHumidity (v : List Nat)
  | SendServerPressure (v : List Nat)
  | SendOutsideTemperature (v : List Nat)
  | SendOutsideHumidity (v : List Nat)
  | SendOutsidePressure (v : List Nat)
  | SendOutsideBattery (v : List Nat)
  | SendServerBattery (v : List Nat)
  | SendRoomBattery (v : List Nat)
  | SendTrackerBattery (v : List Nat)
  | SendInOffice (v : List Nat)
  deriving DecidableEq, Repr

/-- The decoder globals of `main.c`, lines 251-290 (`messageout` and `a` are
never used by the decoder and are left out). -/
structure State where
  message : List Nat
  value : List Nat
  name : List Nat
  value2 : List Nat
  name2 : List Nat
  messagestart : Nat
  matchleft : Nat
  matchright : Nat
  e : Nat
  D : Nat
  gotobracket : Bool
  gotoname : Bool
  recordstart : Bool
  recordnamestart : Bool
  valuestart : Nat
  namestart : Nat
  evalue1 : List Nat
  evalue2 : List Nat
  evalue3 : List Nat
  got1 : Nat
  got2 : Nat
  evalue1start : Nat
  evalue2start : Nat
  evalue3start : Nat
  b : Nat
  button : Nat
  battery : Nat
  buttondata : List Nat
  S : Nat
  door : Nat
  recordbatteryvalue : Nat
  batteryvalue : List Nat
  batterystart : Nat
  deriving DecidableEq, Repr

/-- The initial value of the globals: every array zero-filled, every counter
`0`, every flag `false`. -/
def init : State where
  message := List.replicate 100 0
  value := List.replicate 100 0
  name := List.replicate 100 0
  value2 := List.replicate 20 0
  name2 := List.replicate 20 0
  messagestart := 0
  matchleft := 0
  matchright := 0
  e := 0
  D := 0
  gotobracket := false
  gotoname := false
  recordstart := false
  recordnamestart := false
  valuestart := 0
  namestart := 0
  evalue1 := List.replicate 5 0
  evalue2 := List.replicate 5 0
  evalue3 := List.replicate 5 0
  got1 := 0
  got2 := 0
  evalue1start := 0
  evalue2start := 0
  evalue3start := 0
  b := 0
  button := 0
  battery := 0
  buttondata := List.replicate 1 0
  S := 0
  door := 0
  recordbatteryvalue := 0
  batteryvalue := List.replicate 5 0
  batterystart := 0

/-- Lines 347-350: `"ba"` sets the battery flag. -/
def batteryLatch (s : State) (c : Nat) : State :=
  if s.b > 0 ∧ c = 97 /- 'a' -/ then { s with battery := 1, b := 0 } else s

/-- Lines 351-354: a byte of the battery value is stored. -/
def batteryStore (s : State) (c : Nat) : State :=
  if s.recordbatteryvalue > 0 ∧ c ≠ 125 /- '}' -/ then
    { s with batteryvalue := s.batteryvalue.set s.batterystart c,
             batterystart := s.batterystart + 1 }
  else s

/-- Lines 355-358: `':'` starts the capture of the battery value. -/
def batteryOpen (s : State) (c : Nat) : State :=
  if s.battery > 0 ∧ c = 58 /- ':' -/ then
    { s with recordbatteryvalue := s.recordbatteryvalue + 1 }
  else s

/-- Lines 360-363: `'}'` ends the capture of the battery value. -/
def batteryClose (s : State) (c : Nat) : State :=
  if s.recordbatteryvalue > 0 ∧ c = 125 /- '}' -/ then
    { s with recordbatteryvalue := 0, batterystart := 0 }
  else s

/-- Lines 365-370: `"bu"` sets the button latch. -/
def buttonLatch (s : State) (c : Nat) : State :=
  if s.b > 0 ∧ c = 117 /- 'u' -/ then { s with button := 1, b := 0 } else s

/-- Lines 371-377: a `'t'` while `S > 0` sets the door latch; `S` is cleared
either way. -/
def doorLatch (s : State) (c : Nat) : State :=
  if s.S > 0 ∧ c = 116 /- 't' -/ then { s with door := 1, S := 0 }
  else { s with S := 0 }

/-- Lines 378-380. -/
def doorOne (s : State) (c : Nat) : State :=
  if s.door = 1 ∧ c = 49 /- '1' -/ then { s with buttondata := s.buttondata.set 0 49 }
  else s

/-- Lines 381-383. -/
def doorZero (s : State) (c : Nat) : State :=
  if s.door = 1 ∧ c = 48 /- '0' -/ then { s with buttondata := s.buttondata.set 0 48 }
  else s

/-- Lines 385-387. -/
def buttonOne (s : State) (c : Nat) : State :=
  if s.button = 1 ∧ c = 49 /- '1' -/ then { s with buttondata := s.buttondata.set 0 49 }
  else s

/-- Lines 388-390. -/
def buttonZero (s : State) (c : Nat) : State :=
  if s.button = 1 ∧ c = 48 /- '0' -/ then { s with buttondata := s.buttondata.set 0 48 }
  else s

/-- Lines 392-393: the `D` latch falls back when the byte is not `'0'`. -/
def nameMiss (s : State) (c : Nat) : State :=
  if s.D > 0 ∧ c ≠ 48 /- '0' -/ then { s with D := 0 } else s

/-- Lines 394-397: `'0'` while `D > 0` arms the identifier trigger. -/
def nameLatch (s : State) (c : Nat) : State :=
  if s.D > 0 ∧ c = 48 /- '0' -/ then { s with gotoname := true, D := 0 } else s

/-- Lines 398-406: after four captured bytes the identifier is moved to
`name2` and the capture ends. -/
def nameCommit (s : State) : State :=
  if s.namestart ≥ 4 then
    { s with recordnamestart := false,
             name2 := copyBytes 19 s.name2 s.name,
             namestart := 0,
             name := List.replicate 100 0 }
  else s

/-- Lines 408-411: a byte of the identifier is stored. -/
def nameStore (s : State) (c : Nat) : State :=
  if s.recordnamestart then
    { s with name := s.name.set s.namestart c, namestart := s.namestart + 1 }
  else s

/-- Lines 413-416: `'5'` after the trigger starts the identifier capture. -/
def nameOpen (s : State) (c : Nat) : State :=
  if s.gotoname ∧ c = 53 /- '5' -/ then
    { s with recordnamestart := true, gotoname := false }
  else s

/-- Lines 418-419: the `e` latch falls back when the byte is not `'V'`. -/
def valueMiss (s : State) (c : Nat) : State :=
  if s.e > 0 ∧ c ≠ 86 /- 'V' -/ then { s with e := 0 } else s

/-- Lines 420-423: `'V'` while `e > 0` arms the bracket trigger. -/
def valueLatch (s : State) (c : Nat) : State :=
  if s.e > 0 ∧ c = 86 /- 'V' -/ then { s with gotobracket := true, e := 0 } else s

/-- Lines 425-432: `']'` ends the bracket capture and moves the captured text
to `value2`. -/
def valueCommit (s : State) (c : Nat) : State :=
  if s.recordstart ∧ c = 93 /- ']' -/ then
    { s with recordstart := false,
             value2 := copyBytes 19 s.value2 s.value,
             valuestart := 0,
             value := List.replicate 100 0 }
  else s

/-- Lines 433-436: a byte of the bracketed value is stored. -/
def valueStore (s : State) (c : Nat) : State :=
  if s.recordstart then
    { s with value := s.value.set s.valuestart c, valuestart := s.valuestart + 1 }
  else s

/-- Lines 438-440: the second comma. -/
def commaTwo (s : State) (c : Nat) : State :=
  if c = 44 /- ',' -/ ∧ s.got1 = 1 ∧ s.recordstart then { s with got2 := 1 } else s

/-- Lines 441-443: the first comma. -/
def commaOne (s : State) (c : Nat) : State :=
  if c = 44 /- ',' -/ ∧ s.got1 = 0 ∧ s.recordstart then { s with got1 := 1 } else s

/-- Lines 444-449: a byte of the first sub-value. -/
def evalue1Store (s : State) (c : Nat) : State :=
  if s.got1 = 0 ∧ s.got2 = 0 ∧ s.recordstart ∧ c ≠ 44 then
    { s with evalue1 := if s.evalue1start < 2 then s.evalue1.set s.evalue1start c
                        else s.evalue1,
             evalue1start := s.evalue1start + 1 }
  else s

/-- Lines 450-455: a byte of the second sub-value. -/
def evalue2Store (s : State) (c : Nat) : State :=
  if s.got1 = 1 ∧ s.got2 = 0 ∧ s.recordstart ∧ c ≠ 44 then
    { s with evalue2 := if s.evalue2start < 2 then s.evalue2.set s.evalue2start c
                        else s.evalue2,
             evalue2start := s.evalue2start + 1 }
  else s

/-- Lines 456-462: a byte of the third sub-value. -/
def evalue3Store (s : State) (c : Nat) : State :=
  if s.got1 = 1 ∧ s.got2 = 1 ∧ s.recordstart ∧ c ≠ 44 then
    { s with evalue3 := if s.evalue3start < 3 then s.evalue3.set s.evalue3start c
                        else s.evalue3,
             evalue3start := s.evalue3start + 1 }
  else s

/-- Lines 464-468: `'['` after the trigger starts the bracket capture. -/
def valueOpen (s : State) (c : Nat) : State :=
  if s.gotobracket ∧ c = 91 /- '[' -/ then
    { s with recordstart := true, gotobracket := false }
  else s

/-- Lines 347-363: the battery latch and the battery-value capture. -/
def batteryPart (s : State) (c : Nat) : State :=
  batteryClose (batteryOpen (batteryStore (batteryLatch s c) c) c) c

/-- Lines 365-390: the button and door latches and the button/door value. -/
def buttonPart (s : State) (c : Nat) : State :=
  buttonZero (buttonOne (doorZero (doorOne (doorLatch (buttonLatch s c) c) c) c) c) c

/-- Lines 392-416: the `D0...5` latch and the capture of the node identifier. -/
def namePart (s : State) (c : Nat) : State :=
  nameOpen (nameStore (nameCommit (nameLatch (nameMiss s c) c)) c) c

/-- Lines 418-468: the `eV[` latch, the capture of the bracketed value and of
its three comma-separated sub-values. -/
def valuePart (s : State) (c : Nat) : State :=
  valueOpen (evalue3Store (evalue2Store (evalue1Store (commaOne (commaTwo
    (valueStore (valueCommit (valueLatch (valueMiss s c) c) c) c) c) c) c) c) c) c

/-- Lines 347-468: everything the loop body does with a byte before the
`switch`. -/
def latch (s : State) (c : Nat) : State :=
  valuePart (namePart (buttonPart (batteryPart s c) c) c) c

/-- Lines 493-500: what the third branch of the dispatch chain does instead
of publishing. -/
def clearSubValues (s : State) : State :=
  { s with got1 := 0, got2 := 0, evalue1start := 0, evalue2start := 0,
           evalue3start := 0,
           value2 := List.replicate 20 0, name2 := List.replicate 20 0 }

/-- Lines 484-532: the dispatch chain, evaluated when a message completes.
Returns the state (only the third branch changes it) and the calls made. -/
def dispatch (s : State) : State × List Action :=
  if s.name2.getD 3 0 = 56 /- '8' -/ ∧ s.value2.getD 0 0 ≠ 48 /- '0' -/ ∧ s.door = 1 then
    (s, [Action.SendDoorState (cstr s.buttondata)])
  else if s.name2.getD 3 0 = 56 ∧ s.value2.getD 0 0 ≠ 48 ∧ s.battery = 1 then
    (s, [Action.SendDoorBattery (cstr s.batteryvalue)])
  else if s.name2.getD 3 0 = 56 then
    (clearSubValues s, [])
  else if s.name2.getD 3 0 = 52 /- '4' -/ ∧ s.value2.getD 0 0 ≠ 48 ∧ s.battery = 0 then
    (s, [Action.SendRoomTemperature (cstr s.evalue1),
         Action.SendRoomHumidity (cstr s.evalue2),
         Action.SendRoomPressure (cstr s.evalue3)])
  else if s.name2.getD 3 0 = 51 /- '3' -/ ∧ s.value2.getD 0 0 ≠ 48 ∧ s.battery = 0 then
    (s, [Action.SendServerTemperature (cstr s.evalue1),
         Action.SendServerHumidity (cstr s.evalue2),
         Action.SendServerPressure (cstr s.evalue3)])
  else if s.name2.getD 3 0 = 54 /- '6' -/ ∧ s.value2.getD 0 0 ≠ 48 ∧ s.battery = 0 then
    (s, [Action.SendOutsideTemperature (cstr s.evalue1),
         Action.SendOutsideHumidity (cstr s.evalue2),
         Action.SendOutsidePressure (cstr s.evalue3)])
  else if s.name2.getD 3 0 = 54 ∧ s.value2.getD 0 0 ≠ 48 ∧ s.battery = 1 then
    (s, [Action.SendOutsideBattery (cstr s.batteryvalue)])
  else if s.name2.getD 3 0 = 51 ∧ s.value2.getD 0 0 ≠ 48 ∧ s.battery = 1 then
    (s, [Action.SendServerBattery (cstr s.batteryvalue)])
  else if s.name2.getD 3 0 = 52 ∧ s.value2.getD 0 0 ≠ 48 ∧ s.battery = 1 then
    (s, [Action.SendRoomBattery (cstr s.batteryvalue)])
  else if s.name2.getD 3 0 = 50 /- '2' -/ ∧ s.value2.getD 0 0 ≠ 48 ∧ s.battery = 1 then
    (s, [Action.SendTrackerBattery (cstr s.batteryvalue),
         Action.SendInOffice (cstr s.evalue1)])
  else (s, [])

/-- Lines 533-554: what is reset after the dispatch chain. -/
def resetMessage (s : State) : State :=
  { s with recordbatteryvalue := 0, batterystart := 0, S := 0, door := 0,
           battery := 0, button := 0, got1 := 0, got2 := 0,
           evalue1start := 0, evalue2start := 0, evalue3start := 0,
           batteryvalue := List.replicate 5 0,
           value2 := List.replicate 20 0, name2 := List.replicate 20 0,
           message := List.replicate 100 0,
           messagestart := 0, matchleft := 0, matchright := 0 }

/-- Lines 478-479: the state in which the test `matchleft == matchright` and the
dispatch chain are evaluated, once the `switch` has taken `case '}'`. -/
def closeBrace (s : State) : State :=
  { s with matchright := s.matchright + 1,
           message := s.message.set s.messagestart 125 }

/-- The `default:` label (lines 565-568), where the cases `'b'`, `'e'`, `'D'`
and `'S'` fall through to. -/
def appendRaw (s : State) (c : Nat) : State :=
  { s with message := s.message.set s.messagestart c,
           messagestart := s.messagestart + 1 }

/-- Lines 470-569: the `switch` on the byte. -/
def switchByte (s : State) (c : Nat) : State × List Action :=
  if c = 123 /- '{' -/ then
    ({ s with matchleft := s.matchleft + 1,
              message := s.message.set 0 c,
              messagestart := 1 }, [])
  else if c = 125 /- '}' -/ then
    if (closeBrace s).matchleft = (closeBrace s).matchright then
      (resetMessage (dispatch (closeBrace s)).1, (dispatch (closeBrace s)).2)
    else (closeBrace s, [])
  else if c = 98 /- 'b' -/ then
    (appendRaw { s with b := s.b + 1, e := s.e + 1, D := s.D + 1, S := s.S + 1 } c, [])
  else if c = 101 /- 'e' -/ then
    (appendRaw { s with e := s.e + 1, D := s.D + 1, S := s.S + 1 } c, [])
  else if c = 68 /- 'D' -/ then
    (appendRaw { s with D := s.D + 1, S := s.S + 1 } c, [])
  else if c = 83 /- 'S' -/ then
    (appendRaw { s with S := s.S + 1 } c, [])
  else (appendRaw s c, [])

/-- One iteration of the loop body (lines 345-570) on byte `c`. -/
def step (s : State) (c : Nat) : State × List Action :=
  switchByte (latch s c) c

/-- The `for` loop of lines 345-570 over the bytes of one chunk: the final
state and the calls made, in order. -/
def decode (s : State) : List Nat → State × List Action
  | [] => (s, [])
  | c :: cs =>
    ((decode (step s c).1 cs).1, (step s c).2 ++ (decode (step s c).1 cs).2)

/-- The state in which the dispatch chain runs when the byte `'}'` is
processed in state `s`. -/
def atClose (s : State) : State := closeBrace (latch s 125)

/-- The byte `'}'` processed in state `s` completes a message: it makes the
open-count equal to the close-count. -/
def completes (s : State) : Prop := (atClose s).matchleft = (atClose s).matchright

instance (s : State) : Decidable (completes s) := by
  unfold completes; infer_instance

/-- An ASCII decimal digit, `'0'` to `'9'`. -/
def isDigit (c : Nat) : Prop := 48 ≤ c ∧ c ≤ 57

instance (c : Nat) : Decidable (isDigit c) := by
  unfold isDigit; infer_instance

/-- The message `{D051234,eV[12,45,990]}` of a class-`'4'` (room) node. -/
def roomMessage : List Nat := bytes "\x7bD051234,eV[12,45,990]\x7d"

/-- The message `{D051234,eV[5,6,7]}`: same node, shorter sub-values. -/
def shortMessage : List Nat := bytes "\x7bD051234,eV[5,6,7]\x7d"

/-- The state before the closing brace of `{D051234,eV[02,45,990]}`, whose
bracket value starts with `'0'`. -/
def gateState : State := (decode init (bytes "\x7bD051234,eV[02,45,990]")).1

/-- The state before the closing brace of a class-`'8'` message in which both
the `St` (door) and the `ba` (battery) triggers fired. -/
def doorBatteryState : State := (decode init (bytes "\x7bD051238,eV[1]St1ba:9")).1

/-- The state before the closing brace of a telemetry message of node class
`cls` (a digit character). -/
def telemetryState (cls : Nat) : State :=
  (decode init (bytes "\x7bD05123" ++ [cls] ++ bytes ",eV[12,45,990]")).1

/-- The state before the closing brace of a battery message of node class
`cls` (a digit character). -/
def batteryState (cls : Nat) : State :=
  (decode init (bytes "\x7bD05123" ++ [cls] ++ bytes ",eV[1]ba:3.1")).1

/-- The fields the sub-value capture of lines 438-462 reads and writes. -/
structure SubValues where
  recordstart : Bool
  got1 : Nat
  got2 : Nat
  evalue1 : List Nat
  evalue1start : Nat
  evalue2 : List Nat
  evalue2start : Nat
  evalue3 : List Nat
  evalue3start : Nat

/-- The sub-value fields of a state. -/
def subValues (s : State) : SubValues :=
  { recordstart := s.recordstart, got1 := s.got1, got2 := s.got2,
    evalue1 := s.evalue1, evalue1start := s.evalue1start,
    evalue2 := s.evalue2, evalue2start := s.evalue2start,
    evalue3 := s.evalue3, evalue3start := s.evalue3start }

/-- The guarded store `if (start < cap) buf[start] = c;` repeated over the bytes
`w`, the cursor advancing by one each time (lines 445-448, 451-454, 457-461). -/
def fill (cap : Nat) : List Nat → Nat → List Nat → List Nat
  | buf, _, [] => buf
  | buf, start, c :: cs => fill cap (if start < cap then buf.set start c else buf) (start + 1) cs

/-- The state after `{D051234,eV[` from the initial state: inside a message,
bracket capture just opened, sub-value buffers empty, cursors at `0`. -/
def bracketOpenState : State := (decode init (bytes "\x7bD051234,eV[")).1

/-- The unguarded store `buf[start] = c; start++;` repeated over the bytes `w`
(lines 352-353, 434-435). -/
def storeAll : List Nat → Nat → List Nat → List Nat
  | buf, _, [] => buf
  | buf, start, c :: cs => storeAll (buf.set start c) (start + 1) cs

/-- The state after `{ba` from the initial state: inside a message, battery
flag set, battery capture idle, battery buffer empty. -/
def batteryFlagState : State := (decode init (bytes "\x7bba")).1

/-- The call `snprintf(eventBuffer, size, template, value)` for a template with
one `%s`, split into the text before and after it: the formatted text, cut to
`size - 1` bytes. -/
def snprintf (size : Nat) (before value after : List Nat) : List Nat :=
  (before ++ value ++ after).take (size - 1)

/-- The text each `Send...` function hands to `IoTHubMessage_CreateFromString`
(lines 972-1416): its template formatted into the 100-byte `eventBuffer`.
`SendInOffice` formats its template, which has no `%s`, without the value. -/
def payload : Action → List Nat
  | .SendDoorState v => snprintf 100 (bytes "\x7b \"DoorState\": \"") v (bytes "\"\x7d")
  | .SendInOffice _ => snprintf 100 (bytes "\x7b \"inOffice\": \"1\"\x7d") [] []
  | .SendDoorBattery v => snprintf 100 (bytes "\x7b \"DoorBat\": \"") v (bytes "\"\x7d")
  | .SendTrackerBattery v => snprintf 100 (bytes "\x7b \"TrackerBat\": \"") v (bytes "\"\x7d")
  | .SendOutsideBattery v => snprintf 100 (bytes "\x7b \"OutsideBat\": \"") v (bytes "\"\x7d")
  | .SendServerBattery v => snprintf 100 (bytes "\x7b \"ServerBat\": \"") v (bytes "\"\x7d")
  | .SendRoomBattery v => snprintf 100 (bytes "\x7b \"RoomBat\": \"") v (bytes "\"\x7d")
  | .SendOutsidePressure v => snprintf 100 (bytes "\x7b \"OutsidePres\": \"") v (bytes "\"\x7d")
  | .SendServerPressure v => snprintf 100 (bytes "\x7b \"ServerPres\": \"") v (bytes "\"\x7d")
  | .SendRoomPressure v => snprintf 100 (bytes "\x7b \"RoomPres\": \"") v (bytes "\"\x7d")
  | .SendOutsideHumidity v => snprintf 100 (bytes "\x7b \"OutsideHumi\": \"") v (bytes "\"\x7d")
  | .SendServerHumidity v => snprintf 100 (bytes "\x7b \"ServerHumi\": \"") v (bytes "\"\x7d")
  | .SendRoomHumidity v => snprintf 100 (bytes "\x7b \"RoomHumi\": \"") v (bytes "\"\x7d")
  | .SendOutsideTemperature v =>
    snprintf 100 (bytes "\x7b \"OutsideTemp\": \"") v (bytes "\"\x7d")
  | .SendServerTemperature v => snprintf 100 (bytes "\x7b \"ServerTemp\": \"") v (bytes "\"\x7d")
  | .SendRoomTemperature v => snprintf 100 (bytes "\x7b \"RoomTemp\": \"") v (bytes "\"\x7d")

/-- The telemetry key of each publish action, as its template spells it. -/
def Action.key : Action → List Nat
  | .SendDoorState _ => bytes "DoorState"
  | .SendInOffice _ => bytes "inOffice"
  | .SendDoorBattery _ => bytes "DoorBat"
  | .SendTrackerBattery _ => bytes "TrackerBat"
  | .SendOutsideBattery _ => bytes "OutsideBat"
  | .SendServerBattery _ => bytes "ServerBat"
  | .SendRoomBattery _ => bytes "RoomBat"
  | .SendOutsidePressure _ => bytes "OutsidePres"
  | .SendServerPressure _ => bytes "ServerPres"
  | .SendRoomPressure _ => bytes "RoomPres"
  | .SendOutsideHumidity _ => bytes "OutsideHumi"
  | .SendServerHumidity _ => bytes "ServerHumi"
  | .SendRoomHumidity _ => bytes "RoomHumi"
  | .SendOutsideTemperature _ => bytes "OutsideTemp"
  | .SendServerTemperature _ => bytes "ServerTemp"
  | .SendRoomTemperature _ => bytes "RoomTemp"

/-- The value a publish action is called with. -/
def Action.value : Action → List Nat
  | .SendDoorState v => v
  | .SendInOffice v => v
  | .SendDoorBattery v => v
  | .SendTrackerBattery v => v
  | .SendOutsideBattery v => v
  | .SendServerBattery v => v
  | .SendRoomBattery v => v
  | .SendOutsidePressure v => v
  | .SendServerPressure v => v
  | .SendRoomPressure v => v
  | .SendOutsideHumidity v => v
  | .SendServerHumidity v => v
  | .SendRoomHumidity v => v
  | .SendOutsideTemperature v => v
  | .SendServerTemperature v => v
  | .SendRoomTemperature v => v

/-- The single-field JSON text `{ "key": "value"}`. -/
def jsonField (key value : List Nat) : List Nat :=
  bytes "\x7b \"" ++ key ++ bytes "\": \"" ++ value ++ bytes "\"\x7d"

/-- The state after `{ba:12345` from the initial state: five bytes of battery
value captured, the 5-byte battery buffer full. -/
def batteryFullState : State := (decode init (bytes "\x7bba:12345")).1

/-- The globals `SetupAzureClient` works on (lines 62, 127). -/
structure AzureClient where
  azureIoTPollPeriodSeconds : Int
  iothubAuthenticated : Bool
deriving DecidableEq, Repr

/-- Line 123. -/
def AzureIoTDefaultPollPeriodSeconds : Int := 5

/-- Line 124. -/
def AzureIoTMinReconnectPeriodSeconds : Int := 60

/-- Line 125. -/
def AzureIoTMaxReconnectPeriodSeconds : Int := 10 * 60

/-- Lines 785-793: the poll period after a failed provisioning attempt. The C
`int` is an `Int` here: from the default period the product `period * 2` is at
most 1200, far from the range of overflow. -/
def backoff (period : Int) : Int :=
  if period = AzureIoTDefaultPollPeriodSeconds then AzureIoTMinReconnectPeriodSeconds
  else if period * 2 > AzureIoTMaxReconnectPeriodSeconds then AzureIoTMaxReconnectPeriodSeconds
  else period * 2

/-- The function `SetupAzureClient` (lines 769-819) on its globals; `provOk` is
the outcome of the provisioning call (`provResult.result ==
AZURE_SPHERE_PROV_RESULT_OK`). -/
def SetupAzureClient (provOk : Bool) (s : AzureClient) : AzureClient :=
  if provOk = false then
    { s with azureIoTPollPeriodSeconds := backoff s.azureIoTPollPeriodSeconds }
  else
    { azureIoTPollPeriodSeconds := AzureIoTDefaultPollPeriodSeconds,
      iothubAuthenticated := true }

/-- The globals after `n` calls of `SetupAzureClient` whose provisioning fails. -/
def failedAttempts : Nat → AzureClient → AzureClient
  | 0, s => s
  | n + 1, s => SetupAzureClient false (failedAttempts n s)

/-- The globals once `InitPeripheralsAndHandlers` has set the default poll
period (line 674), before any connection. -/
def azureStart : AzureClient :=
  { azureIoTPollPeriodSeconds := AzureIoTDefaultPollPeriodSeconds,
    iothubAuthenticated := false }

/-- The bytes of a sequence of messages `{ body }`, one after the other. -/
def messages : List (List Nat) → List Nat
  | [] => []
  | b :: bs => [123] ++ b ++ [125] ++ messages bs

/-- The state before the closing brace of `{D051234,`: a class-`'4'` message
without a bracketed value. -/
def noValueState : State := (decode init (bytes "\x7bD051234,")).1

/-- The state before the closing brace of `{D051238,eV[1]bu`: a class-`'8'`
message in which only the button trigger fired. -/
def buttonOnlyState : State := (decode init (bytes "\x7bD051238,eV[1]bu")).1

/-! ## Helper lemmas -/

theorem decode_nil (s : State) : decode s [] = (s, []) := rfl

theorem decode_cons (s : State) (c : Nat) (cs : List Nat) :
    decode s (c :: cs) =
      ((decode (step s c).1 cs).1, (step s c).2 ++ (decode (step s c).1 cs).2) := rfl

/-- Decoding a concatenation is decoding the first part and resuming with the
second part from the state reached. -/
theorem decode_append (s : State) (xs ys : List Nat) :
    decode s (xs ++ ys) =
      ((decode (decode s xs).1 ys).1, (decode s xs).2 ++ (decode (decode s xs).1 ys).2) := by
  induction xs generalizing s with
  | nil => simp [decode_nil]
  | cons c cs ih => simp [decode_cons, ih, List.append_assoc]

/-- When the byte `'}'` completes a message, the calls made while it is
processed are those of the dispatch chain in the state `atClose s`. -/
theorem step_close_actions (s : State) (h : completes s) :
    (step s 125).2 = (dispatch (atClose s)).2 := by
  unfold completes atClose at h
  unfold step switchByte atClose
  rw [if_neg (by decide), if_pos rfl, if_pos h]

/-- When the byte `'}'` completes a message, the state it leaves is the reset
of the state the dispatch chain returns. -/
theorem step_close_state (s : State) (h : completes s) :
    (step s 125).1 = resetMessage (dispatch (atClose s)).1 := by
  unfold completes atClose at h
  unfold step switchByte atClose
  rw [if_neg (by decide), if_pos rfl, if_pos h]

theorem fst_ite {α β : Type} (c : Prop) [Decidable c] (x : α) (a : β) (r : α × β)
    (h : r.1 = x) : (if c then (x, a) else r).1 = x := by
  split
  · rfl
  · exact h

/-- The dispatch chain returns the state unchanged, or with the fields of its
third branch cleared. -/
theorem dispatch_fst (s : State) :
    (dispatch s).1 = s ∨ (dispatch s).1 = clearSubValues s := by
  unfold dispatch
  by_cases h1 : s.name2.getD 3 0 = 56 ∧ s.value2.getD 0 0 ≠ 48 ∧ s.door = 1
  · rw [if_pos h1]; exact Or.inl rfl
  rw [if_neg h1]
  by_cases h2 : s.name2.getD 3 0 = 56 ∧ s.value2.getD 0 0 ≠ 48 ∧ s.battery = 1
  · rw [if_pos h2]; exact Or.inl rfl
  rw [if_neg h2]
  by_cases h3 : s.name2.getD 3 0 = 56
  · rw [if_pos h3]; exact Or.inr rfl
  rw [if_neg h3]
  left
  repeat apply fst_ite
  rfl

/-! ## Every statement of the loop body as a parallel assignment -/

theorem batteryLatch_eq (s : State) (c : Nat) :
    batteryLatch s c =
      { s with battery := if s.b > 0 ∧ c = 97 then 1 else s.battery,
               b := if s.b > 0 ∧ c = 97 then 0 else s.b } := by
  unfold batteryLatch; split
  · rename_i h; simp only [if_pos h]
  · rename_i h; simp only [if_neg h]

theorem batteryStore_eq (s : State) (c : Nat) :
    batteryStore s c =
      { s with batteryvalue := if s.recordbatteryvalue > 0 ∧ c ≠ 125 then
                 s.batteryvalue.set s.batterystart c else s.batteryvalue,
               batterystart := if s.recordbatteryvalue > 0 ∧ c ≠ 125 then
                 s.batterystart + 1 else s.batterystart } := by
  unfold batteryStore; split
  · rename_i h; simp only [if_pos h]
  · rename_i h; simp only [if_neg h]

theorem batteryOpen_eq (s : State) (c : Nat) :
    batteryOpen s c =
      { s with recordbatteryvalue := if s.battery > 0 ∧ c = 58 then
                 s.recordbatteryvalue + 1 else s.recordbatteryvalue } := by
  unfold batteryOpen; split
  · rename_i h; simp only [if_pos h]
  · rename_i h; simp only [if_neg h]

theorem batteryClose_eq (s : State) (c : Nat) :
    batteryClose s c =
      { s with recordbatteryvalue := if s.recordbatteryvalue > 0 ∧ c = 125 then 0
                 else s.recordbatteryvalue,
               batterystart := if s.recordbatteryvalue > 0 ∧ c = 125 then 0
                 else s.batterystart } := by
  unfold batteryClose; split
  · rename_i h; simp only [if_pos h]
  · rename_i h; simp only [if_neg h]

theorem buttonLatch_eq (s : State) (c : Nat) :
    buttonLatch s c =
      { s with button := if s.b > 0 ∧ c = 117 then 1 else s.button,
               b := if s.b > 0 ∧ c = 117 then 0 else s.b } := by
  unfold buttonLatch; split
  · rename_i h; simp only [if_pos h]
  · rename_i h; simp only [if_neg h]

theorem doorLatch_eq (s : State) (c : Nat) :
    doorLatch s c =
      { s with door := if s.S > 0 ∧ c = 116 then 1 else s.door, S := 0 } := by
  unfold doorLatch; split
  · rename_i h; simp only [if_pos h]
  · rename_i h; simp only [if_neg h]

theorem doorOne_eq (s : State) (c : Nat) :
    doorOne s c =
      { s with buttondata := if s.door = 1 ∧ c = 49 then s.buttondata.set 0 49
                 else s.buttondata } := by
  unfold doorOne; split
  · rename_i h; simp only [if_pos h]
  · rename_i h; simp only [if_neg h]

theorem doorZero_eq (s : State) (c : Nat) :
    doorZero s c =
      { s with buttondata := if s.door = 1 ∧ c = 48 then s.buttondata.set 0 48
                 else s.buttondata } := by
  unfold doorZero; split
  · rename_i h; simp only [if_pos h]
  · rename_i h; simp only [if_neg h]

theorem buttonOne_eq (s : State) (c : Nat) :
    buttonOne s c =
      { s with buttondata := if s.button = 1 ∧ c = 49 then s.buttondata.set 0 49
                 else s.buttondata } := by
  unfold buttonOne; split
  · rename_i h; simp only [if_pos h]
  · rename_i h; simp only [if_neg h]

theorem buttonZero_eq (s : State) (c : Nat) :
    buttonZero s c =
      { s with buttondata := if s.button = 1 ∧ c = 48 then s.buttondata.set 0 48
                 else s.buttondata } := by
  unfold buttonZero; split
  · rename_i h; simp only [if_pos h]
  · rename_i h; simp only [if_neg h]

theorem nameMiss_eq (s : State) (c : Nat) :
    nameMiss s c = { s with D := if s.D > 0 ∧ c ≠ 48 then 0 else s.D } := by
  unfold nameMiss; split
  · rename_i h; simp only [if_pos h]
  · rename_i h; simp only [if_neg h]

theorem nameLatch_eq (s : State) (c : Nat) :
    nameLatch s c =
      { s with gotoname := if s.D > 0 ∧ c = 48 then true else s.gotoname,
               D := if s.D > 0 ∧ c = 48 then 0 else s.D } := by
  unfold nameLatch; split
  · rename_i h; simp only [if_pos h]
  · rename_i h; simp only [if_neg h]

theorem nameCommit_eq (s : State) :
    nameCommit s =
      { s with recordnamestart := if s.namestart ≥ 4 then false else s.recordnamestart,
               name2 := if s.namestart ≥ 4 then copyBytes 19 s.name2 s.name else s.name2,
               namestart := if s.namestart ≥ 4 then 0 else s.namestart,
               name := if s.namestart ≥ 4 then List.replicate 100 0 else s.name } := by
  unfold nameCommit; split
  · rename_i h; simp only [if_pos h]
  · rename_i h; simp only [if_neg h]

theorem nameStore_eq (s : State) (c : Nat) :
    nameStore s c =
      { s with name := if s.recordnamestart then s.name.set s.namestart c else s.name,
               namestart := if s.recordnamestart then s.namestart + 1 else s.namestart } := by
  unfold nameStore; split
  · rename_i h; simp only [if_pos h]
  · rename_i h; simp only [if_neg h]

theorem nameOpen_eq (s : State) (c : Nat) :
    nameOpen s c =
      { s with recordnamestart := if s.gotoname ∧ c = 53 then true else s.recordnamestart,
               gotoname := if s.gotoname ∧ c = 53 then false else s.gotoname } := by
  unfold nameOpen; split
  · rename_i h; simp only [if_pos h]
  · rename_i h; simp only [if_neg h]

theorem valueMiss_eq (s : State) (c : Nat) :
    valueMiss s c = { s with e := if s.e > 0 ∧ c ≠ 86 then 0 else s.e } := by
  unfold valueMiss; split
  · rename_i h; simp only [if_pos h]
  · rename_i h; simp only [if_neg h]

theorem valueLatch_eq (s : State) (c : Nat) :
    valueLatch s c =
      { s with gotobracket := if s.e > 0 ∧ c = 86 then true else s.gotobracket,
               e := if s.e > 0 ∧ c = 86 then 0 else s.e } := by
  unfold valueLatch; split
  · rename_i h; simp only [if_pos h]
  · rename_i h; simp only [if_neg h]

theorem valueCommit_eq (s : State) (c : Nat) :
    valueCommit s c =
      { s with recordstart := if s.recordstart ∧ c = 93 then false else s.recordstart,
               value2 := if s.recordstart ∧ c = 93 then copyBytes 19 s.value2 s.value
                 else s.value2,
               valuestart := if s.recordstart ∧ c = 93 then 0 else s.valuestart,
               value := if s.recordstart ∧ c = 93 then List.replicate 100 0 else s.value } := by
  unfold valueCommit; split
  · rename_i h; simp only [if_pos h]
  · rename_i h; simp only [if_neg h]

theorem valueStore_eq (s : State) (c : Nat) :
    valueStore s c =
      { s with value := if s.recordstart then s.value.set s.valuestart c else s.value,
               valuestart := if s.recordstart then s.valuestart + 1 else s.valuestart } := by
  unfold valueStore; split
  · rename_i h; simp only [if_pos h]
  · rename_i h; simp only [if_neg h]

theorem commaTwo_eq (s : State) (c : Nat) :
    commaTwo s c =
      { s with got2 := if c = 44 ∧ s.got1 = 1 ∧ s.recordstart then 1 else s.got2 } := by
  unfold commaTwo; split
  · rename_i h; simp only [if_pos h]
  · rename_i h; simp only [if_neg h]

theorem commaOne_eq (s : State) (c : Nat) :
    commaOne s c =
      { s with got1 := if c = 44 ∧ s.got1 = 0 ∧ s.recordstart then 1 else s.got1 } := by
  unfold commaOne; split
  · rename_i h; simp only [if_pos h]
  · rename_i h; simp only [if_neg h]

theorem evalue1Store_eq (s : State) (c : Nat) :
    evalue1Store s c =
      { s with evalue1 := if s.got1 = 0 ∧ s.got2 = 0 ∧ s.recordstart ∧ c ≠ 44 then
                 (if s.evalue1start < 2 then s.evalue1.set s.evalue1start c else s.evalue1)
                 else s.evalue1,
               evalue1start := if s.got1 = 0 ∧ s.got2 = 0 ∧ s.recordstart ∧ c ≠ 44 then
                 s.evalue1start + 1 else s.evalue1start } := by
  unfold evalue1Store; split
  · rename_i h; simp only [if_pos h]
  · rename_i h; simp only [if_neg h]

theorem evalue2Store_eq (s : State) (c : Nat) :
    evalue2Store s c =
      { s with evalue2 := if s.got1 = 1 ∧ s.got2 = 0 ∧ s.recordstart ∧ c ≠ 44 then
                 (if s.evalue2start < 2 then s.evalue2.set s.evalue2start c else s.evalue2)
                 else s.evalue2,
               evalue2start := if s.got1 = 1 ∧ s.got2 = 0 ∧ s.recordstart ∧ c ≠ 44 then
                 s.evalue2start + 1 else s.evalue2start } := by
  unfold evalue2Store; split
  · rename_i h; simp only [if_pos h]
  · rename_i h; simp only [if_neg h]

theorem evalue3Store_eq (s : State) (c : Nat) :
    evalue3Store s c =
      { s with evalue3 := if s.got1 = 1 ∧ s.got2 = 1 ∧ s.recordstart ∧ c ≠ 44 then
                 (if s.evalue3start < 3 then s.evalue3.set s.evalue3start c else s.evalue3)
                 else s.evalue3,
               evalue3start := if s.got1 = 1 ∧ s.got2 = 1 ∧ s.recordstart ∧ c ≠ 44 then
                 s.evalue3start + 1 else s.evalue3start } := by
  unfold evalue3Store; split
  · rename_i h; simp only [if_pos h]
  · rename_i h; simp only [if_neg h]

theorem valueOpen_eq (s : State) (c : Nat) :
    valueOpen s c =
      { s with recordstart := if s.gotobracket ∧ c = 91 then true else s.recordstart,
               gotobracket := if s.gotobracket ∧ c = 91 then false else s.gotobracket } := by
  unfold valueOpen; split
  · rename_i h; simp only [if_pos h]
  · rename_i h; simp only [if_neg h]

/-! ## The fields after the statements before the `switch` -/

/-- The statements before the `switch` do not touch the framing counters and the raw
message buffer. -/
theorem latch_framing (s : State) (c : Nat) :
    (latch s c).matchleft = s.matchleft ∧ (latch s c).matchright = s.matchright ∧
      (latch s c).messagestart = s.messagestart ∧ (latch s c).message = s.message := by
  simp only [latch, batteryPart, buttonPart, namePart, valuePart, batteryLatch_eq,
    batteryStore_eq, batteryOpen_eq, batteryClose_eq, buttonLatch_eq, doorLatch_eq, doorOne_eq,
    doorZero_eq, buttonOne_eq, buttonZero_eq, nameMiss_eq, nameLatch_eq, nameCommit_eq,
    nameStore_eq, nameOpen_eq, valueMiss_eq, valueLatch_eq, valueCommit_eq, valueStore_eq,
    commaTwo_eq, commaOne_eq, evalue1Store_eq, evalue2Store_eq, evalue3Store_eq, valueOpen_eq]
  exact ⟨trivial, trivial, trivial, trivial⟩

theorem latch_battery (s : State) (c : Nat) :
    (latch s c).battery = if s.b > 0 ∧ c = 97 then 1 else s.battery := by
  simp only [latch, batteryPart, buttonPart, namePart, valuePart, batteryLatch_eq,
    batteryStore_eq, batteryOpen_eq, batteryClose_eq, buttonLatch_eq, doorLatch_eq, doorOne_eq,
    doorZero_eq, buttonOne_eq, buttonZero_eq, nameMiss_eq, nameLatch_eq, nameCommit_eq,
    nameStore_eq, nameOpen_eq, valueMiss_eq, valueLatch_eq, valueCommit_eq, valueStore_eq,
    commaTwo_eq, commaOne_eq, evalue1Store_eq, evalue2Store_eq, evalue3Store_eq, valueOpen_eq]

theorem latch_b (s : State) (c : Nat) :
    (latch s c).b = if s.b > 0 ∧ (c = 97 ∨ c = 117) then 0 else s.b := by
  simp only [latch, batteryPart, buttonPart, namePart, valuePart, batteryLatch_eq,
    batteryStore_eq, batteryOpen_eq, batteryClose_eq, buttonLatch_eq, doorLatch_eq, doorOne_eq,
    doorZero_eq, buttonOne_eq, buttonZero_eq, nameMiss_eq, nameLatch_eq, nameCommit_eq,
    nameStore_eq, nameOpen_eq, valueMiss_eq, valueLatch_eq, valueCommit_eq, valueStore_eq,
    commaTwo_eq, commaOne_eq, evalue1Store_eq, evalue2Store_eq, evalue3Store_eq, valueOpen_eq]
  by_cases h1 : s.b > 0 <;>
    by_cases h2 : c = 97 <;>
    by_cases h3 : c = 117 <;>
    simp [h1, h2, h3]

theorem latch_recordbatteryvalue (s : State) (c : Nat) :
    (latch s c).recordbatteryvalue =
      if c = 125 then 0
      else if s.battery > 0 ∧ c = 58 then s.recordbatteryvalue + 1 else s.recordbatteryvalue := by
  simp only [latch, batteryPart, buttonPart, namePart, valuePart, batteryLatch_eq,
    batteryStore_eq, batteryOpen_eq, batteryClose_eq, buttonLatch_eq, doorLatch_eq, doorOne_eq,
    doorZero_eq, buttonOne_eq, buttonZero_eq, nameMiss_eq, nameLatch_eq, nameCommit_eq,
    nameStore_eq, nameOpen_eq, valueMiss_eq, valueLatch_eq, valueCommit_eq, valueStore_eq,
    commaTwo_eq, commaOne_eq, evalue1Store_eq, evalue2Store_eq, evalue3Store_eq, valueOpen_eq]
  by_cases h1 : c = 125 <;>
    by_cases h2 : c = 58 <;>
    by_cases h3 : c = 97 <;>
    by_cases h4 : s.battery > 0 <;>
    by_cases h5 : s.b > 0 <;>
    by_cases h6 : s.recordbatteryvalue > 0 <;>
    simp [h1, h2, h3, h4, h5, h6] <;> omega

theorem latch_batteryvalue (s : State) (c : Nat) :
    (latch s c).batteryvalue =
      if s.recordbatteryvalue > 0 ∧ c ≠ 125 then s.batteryvalue.set s.batterystart c
      else s.batteryvalue := by
  simp only [latch, batteryPart, buttonPart, namePart, valuePart, batteryLatch_eq,
    batteryStore_eq, batteryOpen_eq, batteryClose_eq, buttonLatch_eq, doorLatch_eq, doorOne_eq,
    doorZero_eq, buttonOne_eq, buttonZero_eq, nameMiss_eq, nameLatch_eq, nameCommit_eq,
    nameStore_eq, nameOpen_eq, valueMiss_eq, valueLatch_eq, valueCommit_eq, valueStore_eq,
    commaTwo_eq, commaOne_eq, evalue1Store_eq, evalue2Store_eq, evalue3Store_eq, valueOpen_eq]

theorem latch_batterystart (s : State) (c : Nat) :
    (latch s c).batterystart =
      if c = 125 then (if s.recordbatteryvalue > 0 then 0 else s.batterystart)
      else if s.recordbatteryvalue > 0 then s.batterystart + 1 else s.batterystart := by
  simp only [latch, batteryPart, buttonPart, namePart, valuePart, batteryLatch_eq,
    batteryStore_eq, batteryOpen_eq, batteryClose_eq, buttonLatch_eq, doorLatch_eq, doorOne_eq,
    doorZero_eq, buttonOne_eq, buttonZero_eq, nameMiss_eq, nameLatch_eq, nameCommit_eq,
    nameStore_eq, nameOpen_eq, valueMiss_eq, valueLatch_eq, valueCommit_eq, valueStore_eq,
    commaTwo_eq, commaOne_eq, evalue1Store_eq, evalue2Store_eq, evalue3Store_eq, valueOpen_eq]
  by_cases h1 : c = 125 <;>
    by_cases h2 : c = 58 <;>
    by_cases h3 : c = 97 <;>
    by_cases h4 : s.battery > 0 <;>
    by_cases h5 : s.b > 0 <;>
    by_cases h6 : s.recordbatteryvalue > 0 <;>
    simp [h1, h2, h3, h4, h5, h6]

theorem latch_S (s : State) (c : Nat) :
    (latch s c).S = 0 := by
  simp only [latch, batteryPart, buttonPart, namePart, valuePart, batteryLatch_eq,
    batteryStore_eq, batteryOpen_eq, batteryClose_eq, buttonLatch_eq, doorLatch_eq, doorOne_eq,
    doorZero_eq, buttonOne_eq, buttonZero_eq, nameMiss_eq, nameLatch_eq, nameCommit_eq,
    nameStore_eq, nameOpen_eq, valueMiss_eq, valueLatch_eq, valueCommit_eq, valueStore_eq,
    commaTwo_eq, commaOne_eq, evalue1Store_eq, evalue2Store_eq, evalue3Store_eq, valueOpen_eq]

theorem latch_door (s : State) (c : Nat) :
    (latch s c).door = if s.S > 0 ∧ c = 116 then 1 else s.door := by
  simp only [latch, batteryPart, buttonPart, namePart, valuePart, batteryLatch_eq,
    batteryStore_eq, batteryOpen_eq, batteryClose_eq, buttonLatch_eq, doorLatch_eq, doorOne_eq,
    doorZero_eq, buttonOne_eq, buttonZero_eq, nameMiss_eq, nameLatch_eq, nameCommit_eq,
    nameStore_eq, nameOpen_eq, valueMiss_eq, valueLatch_eq, valueCommit_eq, valueStore_eq,
    commaTwo_eq, commaOne_eq, evalue1Store_eq, evalue2Store_eq, evalue3Store_eq, valueOpen_eq]

theorem latch_D (s : State) (c : Nat) :
    (latch s c).D = 0 := by
  simp only [latch, batteryPart, buttonPart, namePart, valuePart, batteryLatch_eq,
    batteryStore_eq, batteryOpen_eq, batteryClose_eq, buttonLatch_eq, doorLatch_eq, doorOne_eq,
    doorZero_eq, buttonOne_eq, buttonZero_eq, nameMiss_eq, nameLatch_eq, nameCommit_eq,
    nameStore_eq, nameOpen_eq, valueMiss_eq, valueLatch_eq, valueCommit_eq, valueStore_eq,
    commaTwo_eq, commaOne_eq, evalue1Store_eq, evalue2Store_eq, evalue3Store_eq, valueOpen_eq]
  by_cases h1 : s.D > 0 <;>
    by_cases h2 : c = 48 <;>
    simp [h1, h2] <;> omega

theorem latch_e (s : State) (c : Nat) :
    (latch s c).e = 0 := by
  simp only [latch, batteryPart, buttonPart, namePart, valuePart, batteryLatch_eq,
    batteryStore_eq, batteryOpen_eq, batteryClose_eq, buttonLatch_eq, doorLatch_eq, doorOne_eq,
    doorZero_eq, buttonOne_eq, buttonZero_eq, nameMiss_eq, nameLatch_eq, nameCommit_eq,
    nameStore_eq, nameOpen_eq, valueMiss_eq, valueLatch_eq, valueCommit_eq, valueStore_eq,
    commaTwo_eq, commaOne_eq, evalue1Store_eq, evalue2Store_eq, evalue3Store_eq, valueOpen_eq]
  by_cases h1 : s.e > 0 <;>
    by_cases h2 : c = 86 <;>
    simp [h1, h2] <;> omega

theorem latch_gotoname (s : State) (c : Nat) :
    (latch s c).gotoname =
      if s.gotoname = true ∧ c = 53 then false
      else if s.D > 0 ∧ c = 48 then true else s.gotoname := by
  simp only [latch, batteryPart, buttonPart, namePart, valuePart, batteryLatch_eq,
    batteryStore_eq, batteryOpen_eq, batteryClose_eq, buttonLatch_eq, doorLatch_eq, doorOne_eq,
    doorZero_eq, buttonOne_eq, buttonZero_eq, nameMiss_eq, nameLatch_eq, nameCommit_eq,
    nameStore_eq, nameOpen_eq, valueMiss_eq, valueLatch_eq, valueCommit_eq, valueStore_eq,
    commaTwo_eq, commaOne_eq, evalue1Store_eq, evalue2Store_eq, evalue3Store_eq, valueOpen_eq]
  by_cases h1 : s.gotoname = true <;>
    by_cases h2 : c = 53 <;>
    by_cases h3 : c = 48 <;>
    by_cases h4 : s.D > 0 <;>
    simp [h1, h2, h3, h4]

theorem latch_recordnamestart (s : State) (c : Nat) :
    (latch s c).recordnamestart =
      if s.gotoname = true ∧ c = 53 then true
      else if s.namestart ≥ 4 then false else s.recordnamestart := by
  simp only [latch, batteryPart, buttonPart, namePart, valuePart, batteryLatch_eq,
    batteryStore_eq, batteryOpen_eq, batteryClose_eq, buttonLatch_eq, doorLatch_eq, doorOne_eq,
    doorZero_eq, buttonOne_eq, buttonZero_eq, nameMiss_eq, nameLatch_eq, nameCommit_eq,
    nameStore_eq, nameOpen_eq, valueMiss_eq, valueLatch_eq, valueCommit_eq, valueStore_eq,
    commaTwo_eq, commaOne_eq, evalue1Store_eq, evalue2Store_eq, evalue3Store_eq, valueOpen_eq]
  by_cases h1 : s.gotoname = true <;>
    by_cases h2 : c = 53 <;>
    by_cases h3 : c = 48 <;>
    by_cases h4 : s.D > 0 <;>
    by_cases h5 : s.namestart ≥ 4 <;>
    simp [h1, h2, h3, h4, h5]

theorem latch_namestart (s : State) (c : Nat) :
    (latch s c).namestart =
      if s.namestart ≥ 4 then 0
      else if s.recordnamestart = true then s.namestart + 1 else s.namestart := by
  simp only [latch, batteryPart, buttonPart, namePart, valuePart, batteryLatch_eq,
    batteryStore_eq, batteryOpen_eq, batteryClose_eq, buttonLatch_eq, doorLatch_eq, doorOne_eq,
    doorZero_eq, buttonOne_eq, buttonZero_eq, nameMiss_eq, nameLatch_eq, nameCommit_eq,
    nameStore_eq, nameOpen_eq, valueMiss_eq, valueLatch_eq, valueCommit_eq, valueStore_eq,
    commaTwo_eq, commaOne_eq, evalue1Store_eq, evalue2Store_eq, evalue3Store_eq, valueOpen_eq]
  by_cases h1 : s.namestart ≥ 4 <;>
    by_cases h2 : s.recordnamestart = true <;>
    simp [h1, h2]

theorem latch_name (s : State) (c : Nat) :
    (latch s c).name =
      if s.namestart ≥ 4 then List.replicate 100 0
      else if s.recordnamestart = true then s.name.set s.namestart c else s.name := by
  simp only [latch, batteryPart, buttonPart, namePart, valuePart, batteryLatch_eq,
    batteryStore_eq, batteryOpen_eq, batteryClose_eq, buttonLatch_eq, doorLatch_eq, doorOne_eq,
    doorZero_eq, buttonOne_eq, buttonZero_eq, nameMiss_eq, nameLatch_eq, nameCommit_eq,
    nameStore_eq, nameOpen_eq, valueMiss_eq, valueLatch_eq, valueCommit_eq, valueStore_eq,
    commaTwo_eq, commaOne_eq, evalue1Store_eq, evalue2Store_eq, evalue3Store_eq, valueOpen_eq]
  by_cases h1 : s.namestart ≥ 4 <;>
    by_cases h2 : s.recordnamestart = true <;>
    simp [h1, h2]

theorem latch_name2 (s : State) (c : Nat) :
    (latch s c).name2 = if s.namestart ≥ 4 then copyBytes 19 s.name2 s.name else s.name2 := by
  simp only [latch, batteryPart, buttonPart, namePart, valuePart, batteryLatch_eq,
    batteryStore_eq, batteryOpen_eq, batteryClose_eq, buttonLatch_eq, doorLatch_eq, doorOne_eq,
    doorZero_eq, buttonOne_eq, buttonZero_eq, nameMiss_eq, nameLatch_eq, nameCommit_eq,
    nameStore_eq, nameOpen_eq, valueMiss_eq, valueLatch_eq, valueCommit_eq, valueStore_eq,
    commaTwo_eq, commaOne_eq, evalue1Store_eq, evalue2Store_eq, evalue3Store_eq, valueOpen_eq]

theorem latch_gotobracket (s : State) (c : Nat) :
    (latch s c).gotobracket =
      if s.gotobracket = true ∧ c = 91 then false
      else if s.e > 0 ∧ c = 86 then true else s.gotobracket := by
  simp only [latch, batteryPart, buttonPart, namePart, valuePart, batteryLatch_eq,
    batteryStore_eq, batteryOpen_eq, batteryClose_eq, buttonLatch_eq, doorLatch_eq, doorOne_eq,
    doorZero_eq, buttonOne_eq, buttonZero_eq, nameMiss_eq, nameLatch_eq, nameCommit_eq,
    nameStore_eq, nameOpen_eq, valueMiss_eq, valueLatch_eq, valueCommit_eq, valueStore_eq,
    commaTwo_eq, commaOne_eq, evalue1Store_eq, evalue2Store_eq, evalue3Store_eq, valueOpen_eq]
  by_cases h1 : s.gotobracket = true <;>
    by_cases h2 : c = 91 <;>
    by_cases h3 : c = 86 <;>
    by_cases h4 : s.e > 0 <;>
    simp [h1, h2, h3, h4]

theorem latch_recordstart (s : State) (c : Nat) :
    (latch s c).recordstart =
      if s.gotobracket = true ∧ c = 91 then true
      else if c = 93 then false else s.recordstart := by
  simp only [latch, batteryPart, buttonPart, namePart, valuePart, batteryLatch_eq,
    batteryStore_eq, batteryOpen_eq, batteryClose_eq, buttonLatch_eq, doorLatch_eq, doorOne_eq,
    doorZero_eq, buttonOne_eq, buttonZero_eq, nameMiss_eq, nameLatch_eq, nameCommit_eq,
    nameStore_eq, nameOpen_eq, valueMiss_eq, valueLatch_eq, valueCommit_eq, valueStore_eq,
    commaTwo_eq, commaOne_eq, evalue1Store_eq, evalue2Store_eq, evalue3Store_eq, valueOpen_eq]
  by_cases h1 : s.gotobracket = true <;>
    by_cases h2 : c = 91 <;>
    by_cases h3 : c = 86 <;>
    by_cases h4 : c = 93 <;>
    by_cases h5 : s.e > 0 <;>
    by_cases h6 : s.recordstart = true <;>
    simp [h1, h2, h3, h4, h5, h6]

theorem latch_value2 (s : State) (c : Nat) :
    (latch s c).value2 =
      if s.recordstart = true ∧ c = 93 then copyBytes 19 s.value2 s.value else s.value2 := by
  simp only [latch, batteryPart, buttonPart, namePart, valuePart, batteryLatch_eq,
    batteryStore_eq, batteryOpen_eq, batteryClose_eq, buttonLatch_eq, doorLatch_eq, doorOne_eq,
    doorZero_eq, buttonOne_eq, buttonZero_eq, nameMiss_eq, nameLatch_eq, nameCommit_eq,
    nameStore_eq, nameOpen_eq, valueMiss_eq, valueLatch_eq, valueCommit_eq, valueStore_eq,
    commaTwo_eq, commaOne_eq, evalue1Store_eq, evalue2Store_eq, evalue3Store_eq, valueOpen_eq]

theorem latch_value (s : State) (c : Nat) :
    (latch s c).value =
      if s.recordstart = true then
        (if c = 93 then List.replicate 100 0 else s.value.set s.valuestart c)
      else s.value := by
  simp only [latch, batteryPart, buttonPart, namePart, valuePart, batteryLatch_eq,
    batteryStore_eq, batteryOpen_eq, batteryClose_eq, buttonLatch_eq, doorLatch_eq, doorOne_eq,
    doorZero_eq, buttonOne_eq, buttonZero_eq, nameMiss_eq, nameLatch_eq, nameCommit_eq,
    nameStore_eq, nameOpen_eq, valueMiss_eq, valueLatch_eq, valueCommit_eq, valueStore_eq,
    commaTwo_eq, commaOne_eq, evalue1Store_eq, evalue2Store_eq, evalue3Store_eq, valueOpen_eq]
  by_cases h1 : s.recordstart = true <;>
    by_cases h2 : c = 93 <;>
    simp [h1, h2]

theorem latch_valuestart (s : State) (c : Nat) :
    (latch s c).valuestart =
      if s.recordstart = true then (if c = 93 then 0 else s.valuestart + 1)
      else s.valuestart := by
  simp only [latch, batteryPart, buttonPart, namePart, valuePart, batteryLatch_eq,
    batteryStore_eq, batteryOpen_eq, batteryClose_eq, buttonLatch_eq, doorLatch_eq, doorOne_eq,
    doorZero_eq, buttonOne_eq, buttonZero_eq, nameMiss_eq, nameLatch_eq, nameCommit_eq,
    nameStore_eq, nameOpen_eq, valueMiss_eq, valueLatch_eq, valueCommit_eq, valueStore_eq,
    commaTwo_eq, commaOne_eq, evalue1Store_eq, evalue2Store_eq, evalue3Store_eq, valueOpen_eq]
  by_cases h1 : s.recordstart = true <;>
    by_cases h2 : c = 93 <;>
    simp [h1, h2]

theorem latch_got (s : State) (c : Nat) :
    (latch s c).got1 =
        (if c = 44 ∧ s.got1 = 0 ∧ s.recordstart = true then 1 else s.got1) ∧
      (latch s c).got2 =
        (if c = 44 ∧ s.got1 = 1 ∧ s.recordstart = true then 1 else s.got2) := by
  simp only [latch, batteryPart, buttonPart, namePart, valuePart, batteryLatch_eq,
    batteryStore_eq, batteryOpen_eq, batteryClose_eq, buttonLatch_eq, doorLatch_eq, doorOne_eq,
    doorZero_eq, buttonOne_eq, buttonZero_eq, nameMiss_eq, nameLatch_eq, nameCommit_eq,
    nameStore_eq, nameOpen_eq, valueMiss_eq, valueLatch_eq, valueCommit_eq, valueStore_eq,
    commaTwo_eq, commaOne_eq, evalue1Store_eq, evalue2Store_eq, evalue3Store_eq, valueOpen_eq]
  by_cases h1 : c = 44 <;>
    by_cases h2 : c = 93 <;>
    by_cases h3 : s.got1 = 0 <;>
    by_cases h4 : s.got1 = 1 <;>
    by_cases h5 : s.recordstart = true <;>
    simp [h1, h2, h3, h4, h5]

/-- The sub-value buffers and cursors are left alone while the bracket capture is
inactive, and by a comma or a closing bracket. -/
theorem latch_evalue_idle (s : State) (c : Nat) :
    s.recordstart = false ∨ c = 44 ∨ c = 93 →
      (latch s c).evalue1 = s.evalue1 ∧ (latch s c).evalue1start = s.evalue1start ∧
      (latch s c).evalue2 = s.evalue2 ∧ (latch s c).evalue2start = s.evalue2start ∧
      (latch s c).evalue3 = s.evalue3 ∧ (latch s c).evalue3start = s.evalue3start := by
  simp only [latch, batteryPart, buttonPart, namePart, valuePart, batteryLatch_eq,
    batteryStore_eq, batteryOpen_eq, batteryClose_eq, buttonLatch_eq, doorLatch_eq, doorOne_eq,
    doorZero_eq, buttonOne_eq, buttonZero_eq, nameMiss_eq, nameLatch_eq, nameCommit_eq,
    nameStore_eq, nameOpen_eq, valueMiss_eq, valueLatch_eq, valueCommit_eq, valueStore_eq,
    commaTwo_eq, commaOne_eq, evalue1Store_eq, evalue2Store_eq, evalue3Store_eq, valueOpen_eq]
  intro h
  by_cases h1 : c = 44 <;> by_cases h2 : c = 93 <;> by_cases h3 : s.recordstart = true <;>
    simp_all

/-- The statements before the `switch` leave `evalue1` alone or store the byte, which
is then not a comma, at the cursor. -/
theorem latch_evalue1_cases (s : State) (c : Nat) :
    (latch s c).evalue1 = s.evalue1 ∨
      (c ≠ 44 ∧ (latch s c).evalue1 = s.evalue1.set s.evalue1start c) := by
  simp only [latch, batteryPart, buttonPart, namePart, valuePart, batteryLatch_eq,
    batteryStore_eq, batteryOpen_eq, batteryClose_eq, buttonLatch_eq, doorLatch_eq, doorOne_eq,
    doorZero_eq, buttonOne_eq, buttonZero_eq, nameMiss_eq, nameLatch_eq, nameCommit_eq,
    nameStore_eq, nameOpen_eq, valueMiss_eq, valueLatch_eq, valueCommit_eq, valueStore_eq,
    commaTwo_eq, commaOne_eq, evalue1Store_eq, evalue2Store_eq, evalue3Store_eq, valueOpen_eq]
  by_cases h1 : c = 44 <;>
    by_cases h2 : c = 93 <;>
    by_cases h3 : s.got1 = 0 <;>
    by_cases h4 : s.got1 = 1 <;>
    by_cases h5 : s.got2 = 0 <;>
    by_cases h6 : s.got2 = 1 <;>
    by_cases h7 : s.recordstart = true <;>
    by_cases h8 : s.evalue1start < 2 <;>
    simp [h1, h2, h3, h4, h5, h6, h7, h8]

/-- The statements before the `switch` leave `evalue2` alone or store the byte, which
is then not a comma, at the cursor. -/
theorem latch_evalue2_cases (s : State) (c : Nat) :
    (latch s c).evalue2 = s.evalue2 ∨
      (c ≠ 44 ∧ (latch s c).evalue2 = s.evalue2.set s.evalue2start c) := by
  simp only [latch, batteryPart, buttonPart, namePart, valuePart, batteryLatch_eq,
    batteryStore_eq, batteryOpen_eq, batteryClose_eq, buttonLatch_eq, doorLatch_eq, doorOne_eq,
    doorZero_eq, buttonOne_eq, buttonZero_eq, nameMiss_eq, nameLatch_eq, nameCommit_eq,
    nameStore_eq, nameOpen_eq, valueMiss_eq, valueLatch_eq, valueCommit_eq, valueStore_eq,
    commaTwo_eq, commaOne_eq, evalue1Store_eq, evalue2Store_eq, evalue3Store_eq, valueOpen_eq]
  by_cases h1 : c = 44 <;>
    by_cases h2 : c = 93 <;>
    by_cases h3 : s.got1 = 0 <;>
    by_cases h4 : s.got1 = 1 <;>
    by_cases h5 : s.got2 = 0 <;>
    by_cases h6 : s.got2 = 1 <;>
    by_cases h7 : s.recordstart = true <;>
    by_cases h8 : s.evalue2start < 2 <;>
    simp [h1, h2, h3, h4, h5, h6, h7, h8]

/-- The statements before the `switch` leave `evalue3` alone or store the byte, which
is then not a comma, at the cursor. -/
theorem latch_evalue3_cases (s : State) (c : Nat) :
    (latch s c).evalue3 = s.evalue3 ∨
      (c ≠ 44 ∧ (latch s c).evalue3 = s.evalue3.set s.evalue3start c) := by
  simp only [latch, batteryPart, buttonPart, namePart, valuePart, batteryLatch_eq,
    batteryStore_eq, batteryOpen_eq, batteryClose_eq, buttonLatch_eq, doorLatch_eq, doorOne_eq,
    doorZero_eq, buttonOne_eq, buttonZero_eq, nameMiss_eq, nameLatch_eq, nameCommit_eq,
    nameStore_eq, nameOpen_eq, valueMiss_eq, valueLatch_eq, valueCommit_eq, valueStore_eq,
    commaTwo_eq, commaOne_eq, evalue1Store_eq, evalue2Store_eq, evalue3Store_eq, valueOpen_eq]
  by_cases h1 : c = 44 <;>
    by_cases h2 : c = 93 <;>
    by_cases h3 : s.got1 = 0 <;>
    by_cases h4 : s.got1 = 1 <;>
    by_cases h5 : s.got2 = 0 <;>
    by_cases h6 : s.got2 = 1 <;>
    by_cases h7 : s.recordstart = true <;>
    by_cases h8 : s.evalue3start < 3 <;>
    simp [h1, h2, h3, h4, h5, h6, h7, h8]

/-! ## The `switch` and the whole loop iteration -/

/-- The `switch` on a byte other than `'}'`, as a parallel assignment. -/
theorem switchByte_fst_of_ne (s : State) (c : Nat) (h : c ≠ 125) :
    (switchByte s c).1 =
      { s with matchleft := if c = 123 then s.matchleft + 1 else s.matchleft,
               message := if c = 123 then s.message.set 0 c
                 else s.message.set s.messagestart c,
               messagestart := if c = 123 then 1 else s.messagestart + 1,
               b := if c = 98 then s.b + 1 else s.b,
               e := if c = 98 ∨ c = 101 then s.e + 1 else s.e,
               D := if c = 98 ∨ c = 101 ∨ c = 68 then s.D + 1 else s.D,
               S := if c = 98 ∨ c = 101 ∨ c = 68 ∨ c = 83 then s.S + 1 else s.S } := by
  unfold switchByte appendRaw
  by_cases h1 : c = 123 <;> by_cases h2 : c = 98 <;> by_cases h3 : c = 101 <;>
    by_cases h4 : c = 68 <;> by_cases h5 : c = 83 <;> simp [h, h1, h2, h3, h4, h5]

/-- One loop iteration on a byte other than `'}'`, as a parallel assignment on
top of the statements before the `switch`. -/
theorem step_fst_of_ne (s : State) (c : Nat) (h : c ≠ 125) :
    (step s c).1 =
      { latch s c with
        matchleft := if c = 123 then s.matchleft + 1 else s.matchleft,
        message := if c = 123 then s.message.set 0 c else s.message.set s.messagestart c,
        messagestart := if c = 123 then 1 else s.messagestart + 1,
        b := if c = 98 then (latch s c).b + 1 else (latch s c).b,
        e := if c = 98 ∨ c = 101 then 1 else 0,
        D := if c = 98 ∨ c = 101 ∨ c = 68 then 1 else 0,
        S := if c = 98 ∨ c = 101 ∨ c = 68 ∨ c = 83 then 1 else 0 } := by
  unfold step
  rw [switchByte_fst_of_ne _ _ h]
  obtain ⟨f1, f2, f3, f4⟩ := latch_framing s c
  simp only [f1, f2, f3, f4, latch_e, latch_D, latch_S, Nat.zero_add]

/-- A byte other than `'}'` publishes nothing. -/
theorem step_snd_of_ne (s : State) (c : Nat) (h : c ≠ 125) : (step s c).2 = [] := by
  unfold step switchByte
  split_ifs <;> rfl

/-- A `'}'` that does not make the counters equal only counts and is stored. -/
theorem step_close_of_not_completes (s : State) (h : ¬ completes s) :
    step s 125 = (atClose s, []) := by
  unfold completes atClose at h
  unfold step switchByte atClose
  rw [if_neg (by decide), if_pos rfl, if_neg h]

/-- Bytes without a `'}'` publish nothing. -/
theorem decode_snd_of_not_mem (w : List Nat) :
    ∀ s : State, 125 ∉ w → (decode s w).2 = [] := by
  induction w with
  | nil => intro s _; rfl
  | cons c cs ih =>
    intro s h
    rw [decode_cons]
    simp only []
    rw [step_snd_of_ne s c (fun hc => h (hc ▸ List.mem_cons_self _ _)),
      ih _ (fun hc => h (List.mem_cons_of_mem _ hc))]
    rfl

/-- The fields that neither the `switch` nor the reset after a completed
message writes: after a loop iteration they are as the statements before the
`switch` left them, whatever the byte. -/
theorem step_untouched (s : State) (c : Nat) :
    (step s c).1.value = (latch s c).value ∧
    (step s c).1.name = (latch s c).name ∧
    (step s c).1.gotobracket = (latch s c).gotobracket ∧
    (step s c).1.gotoname = (latch s c).gotoname ∧
    (step s c).1.recordstart = (latch s c).recordstart ∧
    (step s c).1.recordnamestart = (latch s c).recordnamestart ∧
    (step s c).1.valuestart = (latch s c).valuestart ∧
    (step s c).1.namestart = (latch s c).namestart ∧
    (step s c).1.evalue1 = (latch s c).evalue1 ∧
    (step s c).1.evalue2 = (latch s c).evalue2 ∧
    (step s c).1.evalue3 = (latch s c).evalue3 ∧
    (step s c).1.buttondata = (latch s c).buttondata := by
  by_cases h : c = 125
  · subst h
    by_cases hc : completes s
    · rw [step_close_state s hc]
      simp only [resetMessage]
      rcases dispatch_fst (atClose s) with hd | hd <;> rw [hd] <;>
        simp only [clearSubValues, atClose, closeBrace, and_self]
    · rw [step_close_of_not_completes s hc]
      simp only [atClose, closeBrace, and_self]
  · rw [step_fst_of_ne s c h]
    simp only [and_self]

/-- The fields a byte other than `'}'` leaves as the statements before the
`switch` computed them (all but the framing counters, the raw message buffer
and the four cascade counters). -/
theorem step_fields_of_ne (s : State) (c : Nat) (h : c ≠ 125) :
    (step s c).1.value2 = (latch s c).value2 ∧
    (step s c).1.name2 = (latch s c).name2 ∧
    (step s c).1.got1 = (latch s c).got1 ∧
    (step s c).1.got2 = (latch s c).got2 ∧
    (step s c).1.evalue1start = (latch s c).evalue1start ∧
    (step s c).1.evalue2start = (latch s c).evalue2start ∧
    (step s c).1.evalue3start = (latch s c).evalue3start ∧
    (step s c).1.button = (latch s c).button ∧
    (step s c).1.battery = (latch s c).battery ∧
    (step s c).1.door = (latch s c).door ∧
    (step s c).1.recordbatteryvalue = (latch s c).recordbatteryvalue ∧
    (step s c).1.batteryvalue = (latch s c).batteryvalue ∧
    (step s c).1.batterystart = (latch s c).batterystart ∧
    (step s c).1.matchright = s.matchright ∧
    (step s c).1.matchleft = (if c = 123 then s.matchleft + 1 else s.matchleft) ∧
    (step s c).1.b = (if c = 98 then (latch s c).b + 1 else (latch s c).b) ∧
    (step s c).1.e = (if c = 98 ∨ c = 101 then 1 else 0) ∧
    (step s c).1.D = (if c = 98 ∨ c = 101 ∨ c = 68 then 1 else 0) ∧
    (step s c).1.S = (if c = 98 ∨ c = 101 ∨ c = 68 ∨ c = 83 then 1 else 0) := by
  rw [step_fst_of_ne s c h]
  simp only [(latch_framing s c).2.1, and_self]

/-- The fields of the state in which the dispatch chain runs are those the
statements before the `switch` computed, but for the close counter and the raw
message buffer. -/
theorem atClose_fields (s : State) :
    (atClose s).name2 = (latch s 125).name2 ∧
    (atClose s).value2 = (latch s 125).value2 ∧
    (atClose s).battery = (latch s 125).battery ∧
    (atClose s).door = (latch s 125).door ∧
    (atClose s).buttondata = (latch s 125).buttondata ∧
    (atClose s).batteryvalue = (latch s 125).batteryvalue ∧
    (atClose s).evalue1 = (latch s 125).evalue1 ∧
    (atClose s).evalue2 = (latch s 125).evalue2 ∧
    (atClose s).evalue3 = (latch s 125).evalue3 ∧
    (atClose s).matchleft = s.matchleft ∧
    (atClose s).matchright = s.matchright + 1 := by
  simp only [atClose, closeBrace, (latch_framing s 125).1, (latch_framing s 125).2.1, and_self]

theorem dispatch_e_D (s : State) : (dispatch s).1.e = s.e ∧ (dispatch s).1.D = s.D := by
  rcases dispatch_fst s with h | h <;> rw [h] <;> exact ⟨rfl, rfl⟩

theorem atClose_e_D (s : State) :
    (atClose s).e = (latch s 125).e ∧ (atClose s).D = (latch s 125).D := by
  simp only [atClose, closeBrace, and_self]

/-! ## The sub-value fields through one loop iteration -/

theorem subValues_batteryLatch (s : State) (c : Nat) :
    subValues (batteryLatch s c) = subValues s := by
  unfold batteryLatch; split <;> rfl

theorem subValues_batteryStore (s : State) (c : Nat) :
    subValues (batteryStore s c) = subValues s := by
  unfold batteryStore; split <;> rfl

theorem subValues_batteryOpen (s : State) (c : Nat) :
    subValues (batteryOpen s c) = subValues s := by
  unfold batteryOpen; split <;> rfl

theorem subValues_batteryClose (s : State) (c : Nat) :
    subValues (batteryClose s c) = subValues s := by
  unfold batteryClose; split <;> rfl

theorem subValues_buttonLatch (s : State) (c : Nat) :
    subValues (buttonLatch s c) = subValues s := by
  unfold buttonLatch; split <;> rfl

theorem subValues_doorLatch (s : State) (c : Nat) :
    subValues (doorLatch s c) = subValues s := by
  unfold doorLatch; split <;> rfl

theorem subValues_doorOne (s : State) (c : Nat) :
    subValues (doorOne s c) = subValues s := by
  unfold doorOne; split <;> rfl

theorem subValues_doorZero (s : State) (c : Nat) :
    subValues (doorZero s c) = subValues s := by
  unfold doorZero; split <;> rfl

theorem subValues_buttonOne (s : State) (c : Nat) :
    subValues (buttonOne s c) = subValues s := by
  unfold buttonOne; split <;> rfl

theorem subValues_buttonZero (s : State) (c : Nat) :
    subValues (buttonZero s c) = subValues s := by
  unfold buttonZero; split <;> rfl

theorem subValues_nameMiss (s : State) (c : Nat) :
    subValues (nameMiss s c) = subValues s := by
  unfold nameMiss; split <;> rfl

theorem subValues_nameLatch (s : State) (c : Nat) :
    subValues (nameLatch s c) = subValues s := by
  unfold nameLatch; split <;> rfl

theorem subValues_nameCommit (s : State) :
    subValues (nameCommit s) = subValues s := by
  unfold nameCommit; split <;> rfl

theorem subValues_nameStore (s : State) (c : Nat) :
    subValues (nameStore s c) = subValues s := by
  unfold nameStore; split <;> rfl

theorem subValues_nameOpen (s : State) (c : Nat) :
    subValues (nameOpen s c) = subValues s := by
  unfold nameOpen; split <;> rfl

theorem subValues_valueMiss (s : State) (c : Nat) :
    subValues (valueMiss s c) = subValues s := by
  unfold valueMiss; split <;> rfl

theorem subValues_valueLatch (s : State) (c : Nat) :
    subValues (valueLatch s c) = subValues s := by
  unfold valueLatch; split <;> rfl

theorem subValues_valueStore (s : State) (c : Nat) :
    subValues (valueStore s c) = subValues s := by
  unfold valueStore; split <;> rfl

/-- A byte other than `']'` leaves the bracket capture open. -/
theorem valueCommit_of_ne (s : State) (c : Nat) (h : c ≠ 93) : valueCommit s c = s := by
  unfold valueCommit
  rw [if_neg (fun hh => h hh.2)]

theorem commaTwo_of_ne (s : State) (c : Nat) (h : c ≠ 44) : commaTwo s c = s := by
  unfold commaTwo
  rw [if_neg (fun hh => h hh.1)]

theorem commaOne_of_ne (s : State) (c : Nat) (h : c ≠ 44) : commaOne s c = s := by
  unfold commaOne
  rw [if_neg (fun hh => h hh.1)]

/-- The statements before the sub-value capture leave the sub-value fields as
they are, when the byte is neither `']'` nor `','`. -/
theorem subValues_before_stores (s : State) (c : Nat) (h93 : c ≠ 93) (h44 : c ≠ 44) :
    subValues (commaOne (commaTwo (valueStore (valueCommit (valueLatch (valueMiss
      (namePart (buttonPart (batteryPart s c) c) c) c) c) c) c) c) c) = subValues s := by
  rw [commaOne_of_ne _ _ h44, commaTwo_of_ne _ _ h44, subValues_valueStore,
    valueCommit_of_ne _ _ h93, subValues_valueLatch, subValues_valueMiss]
  unfold namePart buttonPart batteryPart
  rw [subValues_nameOpen, subValues_nameStore, subValues_nameCommit, subValues_nameLatch,
    subValues_nameMiss, subValues_buttonZero, subValues_buttonOne, subValues_doorZero,
    subValues_doorOne, subValues_doorLatch, subValues_buttonLatch, subValues_batteryClose,
    subValues_batteryOpen, subValues_batteryStore, subValues_batteryLatch]

/-- The three stores and the bracket opening, on the sub-value fields, while
the bracket capture is active and the byte is not a comma. -/
theorem subValues_stores (t : State) (c : Nat) (hr : t.recordstart = true) (h44 : c ≠ 44) :
    subValues (valueOpen (evalue3Store (evalue2Store (evalue1Store t c) c) c) c) =
      if t.got1 = 0 ∧ t.got2 = 0 then
        { subValues t with
          evalue1 := if t.evalue1start < 2 then t.evalue1.set t.evalue1start c else t.evalue1,
          evalue1start := t.evalue1start + 1 }
      else if t.got1 = 1 ∧ t.got2 = 0 then
        { subValues t with
          evalue2 := if t.evalue2start < 2 then t.evalue2.set t.evalue2start c else t.evalue2,
          evalue2start := t.evalue2start + 1 }
      else if t.got1 = 1 ∧ t.got2 = 1 then
        { subValues t with
          evalue3 := if t.evalue3start < 3 then t.evalue3.set t.evalue3start c else t.evalue3,
          evalue3start := t.evalue3start + 1 }
      else subValues t := by
  by_cases h1 : t.got1 = 0 <;> by_cases h2 : t.got2 = 0 <;>
    by_cases h3 : t.got1 = 1 <;> by_cases h4 : t.got2 = 1 <;>
    simp [evalue1Store, evalue2Store, evalue3Store, valueOpen, subValues, hr, h44, h1, h2,
      h3, h4] <;>
    first
    | omega
    | (split <;> simp_all)

/-- The `switch` leaves the sub-value fields alone unless the byte is `'}'`. -/
theorem subValues_switchByte (s : State) (c : Nat) (h : c ≠ 125) :
    subValues (switchByte s c).1 = subValues s := by
  unfold switchByte
  split_ifs <;> rfl

/-- One loop iteration on the sub-value fields, for a byte that is none of
`','`, `']'`, `'}'`, while the bracket capture is active. -/
theorem subValues_step (s : State) (c : Nat) (hr : s.recordstart = true)
    (h44 : c ≠ 44) (h93 : c ≠ 93) (h125 : c ≠ 125) :
    subValues (step s c).1 =
      if s.got1 = 0 ∧ s.got2 = 0 then
        { subValues s with
          evalue1 := if s.evalue1start < 2 then s.evalue1.set s.evalue1start c else s.evalue1,
          evalue1start := s.evalue1start + 1 }
      else if s.got1 = 1 ∧ s.got2 = 0 then
        { subValues s with
          evalue2 := if s.evalue2start < 2 then s.evalue2.set s.evalue2start c else s.evalue2,
          evalue2start := s.evalue2start + 1 }
      else if s.got1 = 1 ∧ s.got2 = 1 then
        { subValues s with
          evalue3 := if s.evalue3start < 3 then s.evalue3.set s.evalue3start c else s.evalue3,
          evalue3start := s.evalue3start + 1 }
      else subValues s := by
  have hb := subValues_before_stores s c h93 h44
  have hrec : (commaOne (commaTwo (valueStore (valueCommit (valueLatch (valueMiss
      (namePart (buttonPart (batteryPart s c) c) c) c) c) c) c) c) c).recordstart = true := by
    have := congrArg SubValues.recordstart hb
    simpa [subValues, hr] using this
  unfold step
  rw [subValues_switchByte _ _ h125]
  unfold latch valuePart
  rw [subValues_stores _ c hrec h44]
  have e1 := congrArg SubValues.got1 hb
  have e2 := congrArg SubValues.got2 hb
  have e3 := congrArg SubValues.evalue1 hb
  have e4 := congrArg SubValues.evalue1start hb
  have e5 := congrArg SubValues.evalue2 hb
  have e6 := congrArg SubValues.evalue2start hb
  have e7 := congrArg SubValues.evalue3 hb
  have e8 := congrArg SubValues.evalue3start hb
  simp only [subValues] at e1 e2 e3 e4 e5 e6 e7 e8
  rw [hb, e1, e2, e3, e4, e5, e6, e7, e8]

theorem step_recordstart (s : State) (c : Nat) (hr : s.recordstart = true)
    (h44 : c ≠ 44) (h93 : c ≠ 93) (h125 : c ≠ 125) :
    (step s c).1.recordstart = true ∧ (step s c).1.got1 = s.got1 ∧
      (step s c).1.got2 = s.got2 := by
  have h := subValues_step s c hr h44 h93 h125
  have a := congrArg SubValues.recordstart h
  have b := congrArg SubValues.got1 h
  have d := congrArg SubValues.got2 h
  simp only [subValues] at a b d
  refine ⟨?_, ?_, ?_⟩
  · rw [a]; split_ifs <;> exact hr
  · rw [b]; split_ifs <;> rfl
  · rw [d]; split_ifs <;> rfl

/-- The sub-value fields after a run of bytes none of which is `','`, `']'` or
`'}'`, while the bracket capture is active: the segment selected by the comma
counters is filled, everything else is as before. -/
theorem subValues_decode (w : List Nat) :
    ∀ s : State, s.recordstart = true → (∀ c ∈ w, c ≠ 44 ∧ c ≠ 93 ∧ c ≠ 125) →
    subValues (decode s w).1 =
      if s.got1 = 0 ∧ s.got2 = 0 then
        { subValues s with
          evalue1 := fill 2 s.evalue1 s.evalue1start w,
          evalue1start := s.evalue1start + w.length }
      else if s.got1 = 1 ∧ s.got2 = 0 then
        { subValues s with
          evalue2 := fill 2 s.evalue2 s.evalue2start w,
          evalue2start := s.evalue2start + w.length }
      else if s.got1 = 1 ∧ s.got2 = 1 then
        { subValues s with
          evalue3 := fill 3 s.evalue3 s.evalue3start w,
          evalue3start := s.evalue3start + w.length }
      else subValues s := by
  induction w with
  | nil =>
    intro s _ _
    simp only [decode_nil, fill, List.length_nil, Nat.add_zero]
    split_ifs <;> rfl
  | cons c cs ih =>
    intro s hr hw
    have hc := hw c (List.mem_cons_self c cs)
    have hcs : ∀ x ∈ cs, x ≠ 44 ∧ x ≠ 93 ∧ x ≠ 125 :=
      fun x hx => hw x (List.mem_cons_of_mem c hx)
    have hs := subValues_step s c hr hc.1 hc.2.1 hc.2.2
    obtain ⟨hr', h1', h2'⟩ := step_recordstart s c hr hc.1 hc.2.1 hc.2.2
    have e3 := congrArg SubValues.evalue1 hs
    have e4 := congrArg SubValues.evalue1start hs
    have e5 := congrArg SubValues.evalue2 hs
    have e6 := congrArg SubValues.evalue2start hs
    have e7 := congrArg SubValues.evalue3 hs
    have e8 := congrArg SubValues.evalue3start hs
    simp only [subValues] at e3 e4 e5 e6 e7 e8
    rw [decode_cons]
    simp only []
    rw [ih (step s c).1 hr' hcs, h1', h2']
    by_cases g1 : s.got1 = 0 ∧ s.got2 = 0
    · simp only [g1, and_self, if_true] at e3 e4 e5 e6 e7 e8 ⊢
      simp [subValues, fill, e3, e4, e5, e6, e7, e8, hr, hr', h1', h2', g1, Nat.add_assoc,
        Nat.add_comm 1]
    · by_cases g2 : s.got1 = 1 ∧ s.got2 = 0
      · simp only [g1, g2, and_self, if_true, if_false] at e3 e4 e5 e6 e7 e8 ⊢
        simp [subValues, fill, e3, e4, e5, e6, e7, e8, hr, hr', h1', h2', g2, Nat.add_assoc,
          Nat.add_comm 1]
      · by_cases g3 : s.got1 = 1 ∧ s.got2 = 1
        · simp only [g1, g2, g3, and_self, if_true, if_false] at e3 e4 e5 e6 e7 e8 ⊢
          simp [subValues, fill, e3, e4, e5, e6, e7, e8, hr, hr', h1', h2', g3, Nat.add_assoc,
            Nat.add_comm 1]
        · simp only [g1, g2, g3, if_false] at e3 e4 e5 e6 e7 e8 ⊢
          simp [subValues, e3, e4, e5, e6, e7, e8, hr, hr', h1', h2']

theorem fill_of_le (cap : Nat) (w : List Nat) :
    ∀ (buf : List Nat) (start : Nat), cap ≤ start → fill cap buf start w = buf := by
  induction w with
  | nil => intro buf start _; rfl
  | cons c cs ih =>
    intro buf start h
    unfold fill
    rw [if_neg (by omega), ih buf (start + 1) (by omega)]

/-- Filling an empty 5-byte buffer of capacity 2 keeps the first two bytes. -/
theorem fill_two (w : List Nat) :
    fill 2 (List.replicate 5 0) 0 w = w.take 2 ++ List.replicate (5 - min w.length 2) 0 := by
  rcases w with _ | ⟨a, _ | ⟨b, t⟩⟩
  · rfl
  · rfl
  · simp only [fill]
    rw [fill_of_le 2 t _ _ (by omega)]
    simp [List.replicate]

/-- Filling an empty 5-byte buffer of capacity 3 keeps the first three bytes. -/
theorem fill_three (w : List Nat) :
    fill 3 (List.replicate 5 0) 0 w = w.take 3 ++ List.replicate (5 - min w.length 3) 0 := by
  rcases w with _ | ⟨a, _ | ⟨b, _ | ⟨d, t⟩⟩⟩
  · rfl
  · rfl
  · rfl
  · simp only [fill]
    rw [fill_of_le 3 t _ _ (by omega)]
    simp [List.replicate]

/-! ## Segmentation of the bracketed value -/

/-- A comma while the bracket capture is active advances the comma counters
and stores nothing. -/
theorem subValues_step_comma (s : State) (hr : s.recordstart = true) :
    subValues (step s 44).1 =
      { subValues s with got1 := if s.got1 = 0 then 1 else s.got1,
                         got2 := if s.got1 = 1 then 1 else s.got2 } := by
  obtain ⟨-, -, -, -, u5, -, -, -, u9, u10, u11, -⟩ := step_untouched s 44
  obtain ⟨-, -, f3, f4, f5, f6, f7, -⟩ := step_fields_of_ne s 44 (by decide)
  obtain ⟨g1, g2⟩ := latch_got s 44
  obtain ⟨i1, i2, i3, i4, i5, i6⟩ := latch_evalue_idle s 44 (Or.inr (Or.inl rfl))
  have hrs : (latch s 44).recordstart = true := by
    rw [latch_recordstart, hr]; simp
  simp only [subValues, u5, u9, u10, u11, f3, f4, f5, f6, f7, g1, g2, i1, i2, i3, i4, i5, i6,
    hrs, hr, and_true, true_and]

/-- The first segment: with both comma counters clear, bytes free of `','`,
`']'` and `'}'` fill `evalue1` and leave the rest of the sub-value fields. -/
theorem segment_first (s : State) (x : List Nat) (hr : s.recordstart = true)
    (g1 : s.got1 = 0) (g2 : s.got2 = 0) (hx : ∀ c ∈ x, c ≠ 44 ∧ c ≠ 93 ∧ c ≠ 125) :
    subValues (decode s x).1 =
      { subValues s with evalue1 := fill 2 s.evalue1 s.evalue1start x,
                         evalue1start := s.evalue1start + x.length } := by
  rw [subValues_decode x s hr hx, if_pos ⟨g1, g2⟩]

/-- The second segment: after the first comma the bytes fill `evalue2`. -/
theorem segment_second (s : State) (y : List Nat) (hr : s.recordstart = true)
    (g1 : s.got1 = 1) (g2 : s.got2 = 0) (hy : ∀ c ∈ y, c ≠ 44 ∧ c ≠ 93 ∧ c ≠ 125) :
    subValues (decode s y).1 =
      { subValues s with evalue2 := fill 2 s.evalue2 s.evalue2start y,
                         evalue2start := s.evalue2start + y.length } := by
  rw [subValues_decode y s hr hy, if_neg (by omega), if_pos ⟨g1, g2⟩]

/-- The third segment: after the second comma the bytes fill `evalue3`. -/
theorem segment_third (s : State) (z : List Nat) (hr : s.recordstart = true)
    (g1 : s.got1 = 1) (g2 : s.got2 = 1) (hz : ∀ c ∈ z, c ≠ 44 ∧ c ≠ 93 ∧ c ≠ 125) :
    subValues (decode s z).1 =
      { subValues s with evalue3 := fill 3 s.evalue3 s.evalue3start z,
                         evalue3start := s.evalue3start + z.length } := by
  rw [subValues_decode z s hr hz, if_neg (by omega), if_neg (by omega), if_pos ⟨g1, g2⟩]

theorem fill_two_short (x : List Nat) (h : x.length ≤ 2) :
    fill 2 (List.replicate 5 0) 0 x = x ++ List.replicate (5 - x.length) 0 := by
  rw [fill_two, List.take_of_length_le h, Nat.min_eq_left h]

theorem fill_three_short (z : List Nat) (h : z.length ≤ 3) :
    fill 3 (List.replicate 5 0) 0 z = z ++ List.replicate (5 - z.length) 0 := by
  rw [fill_three, List.take_of_length_le h, Nat.min_eq_left h]

/-- The three segments `x , y , z` of a bracketed value, from empty sub-value
buffers: the sub-value fields after them. -/
theorem subValues_segments (s : State) (x y z : List Nat) (hr : s.recordstart = true)
    (g1 : s.got1 = 0) (g2 : s.got2 = 0)
    (hx : ∀ c ∈ x, c ≠ 44 ∧ c ≠ 93 ∧ c ≠ 125) (hy : ∀ c ∈ y, c ≠ 44 ∧ c ≠ 93 ∧ c ≠ 125)
    (hz : ∀ c ∈ z, c ≠ 44 ∧ c ≠ 93 ∧ c ≠ 125) :
    subValues (decode s (x ++ [44] ++ y ++ [44] ++ z)).1 =
      { recordstart := true, got1 := 1, got2 := 1,
        evalue1 := fill 2 s.evalue1 s.evalue1start x,
        evalue1start := s.evalue1start + x.length,
        evalue2 := fill 2 s.evalue2 s.evalue2start y,
        evalue2start := s.evalue2start + y.length,
        evalue3 := fill 3 s.evalue3 s.evalue3start z,
        evalue3start := s.evalue3start + z.length } := by
  have a := segment_first s x hr g1 g2 hx
  have a' : (decode s x).1.recordstart = true ∧ (decode s x).1.got1 = 0 ∧
      (decode s x).1.got2 = 0 := by
    have r := congrArg SubValues.recordstart a
    have p := congrArg SubValues.got1 a
    have q := congrArg SubValues.got2 a
    simp only [subValues] at r p q
    exact ⟨r.trans hr, p.trans g1, q.trans g2⟩
  have b := subValues_step_comma (decode s x).1 a'.1
  rw [a'.2.1, a'.2.2, a] at b
  simp only [if_true, Nat.zero_ne_one, if_false] at b
  have b' : (step (decode s x).1 44).1.recordstart = true ∧
      (step (decode s x).1 44).1.got1 = 1 ∧ (step (decode s x).1 44).1.got2 = 0 := by
    have r := congrArg SubValues.recordstart b
    have p := congrArg SubValues.got1 b
    have q := congrArg SubValues.got2 b
    simp only [subValues] at r p q
    exact ⟨r.trans hr, p, q⟩
  have d := segment_second (step (decode s x).1 44).1 y b'.1 b'.2.1 b'.2.2 hy
  have d' : (decode (step (decode s x).1 44).1 y).1.recordstart = true ∧
      (decode (step (decode s x).1 44).1 y).1.got1 = 1 ∧
      (decode (step (decode s x).1 44).1 y).1.got2 = 0 := by
    have r := congrArg SubValues.recordstart d
    have p := congrArg SubValues.got1 d
    have q := congrArg SubValues.got2 d
    simp only [subValues] at r p q
    exact ⟨r.trans b'.1, p.trans b'.2.1, q.trans b'.2.2⟩
  have e := subValues_step_comma (decode (step (decode s x).1 44).1 y).1 d'.1
  rw [d'.2.1, d'.2.2] at e
  simp only [Nat.one_ne_zero, if_false, if_true] at e
  have e' : (step (decode (step (decode s x).1 44).1 y).1 44).1.recordstart = true ∧
      (step (decode (step (decode s x).1 44).1 y).1 44).1.got1 = 1 ∧
      (step (decode (step (decode s x).1 44).1 y).1 44).1.got2 = 1 := by
    have r := congrArg SubValues.recordstart e
    have p := congrArg SubValues.got1 e
    have q := congrArg SubValues.got2 e
    simp only [subValues] at r p q
    exact ⟨r.trans d'.1, p, q⟩
  have f := segment_third (step (decode (step (decode s x).1 44).1 y).1 44).1 z e'.1 e'.2.1
    e'.2.2 hz
  have hrun : (decode s (x ++ [44] ++ y ++ [44] ++ z)).1 =
      (decode (step (decode (step (decode s x).1 44).1 y).1 44).1 z).1 := by
    simp only [List.append_assoc, List.singleton_append, decode_append, decode_cons]
  rw [hrun, f, e, d]
  have b3 := congrArg SubValues.evalue2 b
  have b4 := congrArg SubValues.evalue2start b
  have b5 := congrArg SubValues.evalue3 b
  have b6 := congrArg SubValues.evalue3start b
  have b1 := congrArg SubValues.evalue1 b
  have b2 := congrArg SubValues.evalue1start b
  have d5 := congrArg SubValues.evalue3 d
  have d6 := congrArg SubValues.evalue3start d
  have e5 := congrArg SubValues.evalue3 e
  have e6 := congrArg SubValues.evalue3start e
  simp only [subValues] at b1 b2 b3 b4 b5 b6 d5 d6 e5 e6
  simp only [subValues, b1, b2, b3, b4, b5, b6, d5, d6, e5, e6]
  rw [b'.1]

/-- A byte found in a sub-value buffer after a loop iteration was there before
or is the byte just processed, which is then not a comma. -/
theorem step_evalue_mem (s : State) (c b : Nat) :
    (b ∈ (step s c).1.evalue1 → b ∈ s.evalue1 ∨ (b = c ∧ c ≠ 44)) ∧
    (b ∈ (step s c).1.evalue2 → b ∈ s.evalue2 ∨ (b = c ∧ c ≠ 44)) ∧
    (b ∈ (step s c).1.evalue3 → b ∈ s.evalue3 ∨ (b = c ∧ c ≠ 44)) := by
  obtain ⟨-, -, -, -, -, -, -, -, u9, u10, u11, -⟩ := step_untouched s c
  rw [u9, u10, u11]
  refine ⟨fun h => ?_, fun h => ?_, fun h => ?_⟩
  · rcases latch_evalue1_cases s c with e | ⟨hc, e⟩
    · rw [e] at h; exact Or.inl h
    · rw [e] at h
      rcases List.mem_or_eq_of_mem_set h with h | h
      · exact Or.inl h
      · exact Or.inr ⟨h, hc⟩
  · rcases latch_evalue2_cases s c with e | ⟨hc, e⟩
    · rw [e] at h; exact Or.inl h
    · rw [e] at h
      rcases List.mem_or_eq_of_mem_set h with h | h
      · exact Or.inl h
      · exact Or.inr ⟨h, hc⟩
  · rcases latch_evalue3_cases s c with e | ⟨hc, e⟩
    · rw [e] at h; exact Or.inl h
    · rw [e] at h
      rcases List.mem_or_eq_of_mem_set h with h | h
      · exact Or.inl h
      · exact Or.inr ⟨h, hc⟩

/-- No run of bytes puts a comma into a sub-value buffer. -/
theorem no_comma_decode (w : List Nat) :
    ∀ s : State, (44 ∉ s.evalue1 ∧ 44 ∉ s.evalue2 ∧ 44 ∉ s.evalue3) →
      (44 ∉ (decode s w).1.evalue1 ∧ 44 ∉ (decode s w).1.evalue2 ∧
        44 ∉ (decode s w).1.evalue3) := by
  induction w with
  | nil => intro s h; exact h
  | cons c cs ih =>
    intro s h
    rw [decode_cons]
    apply ih
    obtain ⟨m1, m2, m3⟩ := step_evalue_mem s c 44
    refine ⟨fun hm => ?_, fun hm => ?_, fun hm => ?_⟩
    · rcases m1 hm with k | ⟨k1, k2⟩
      · exact h.1 k
      · exact k2 k1.symm
    · rcases m2 hm with k | ⟨k1, k2⟩
      · exact h.2.1 k
      · exact k2 k1.symm
    · rcases m3 hm with k | ⟨k1, k2⟩
      · exact h.2.2 k
      · exact k2 k1.symm

/-! ## Capture of the node identifier -/

/-- After a loop iteration `name2` is what the statements before the `switch`
left, or all zero (after the reset of a completed message). -/
theorem step_name2 (s : State) (c : Nat) :
    (step s c).1.name2 = (latch s c).name2 ∨ (step s c).1.name2 = List.replicate 20 0 := by
  by_cases h : c = 125
  · subst h
    by_cases hc : completes s
    · right
      rw [step_close_state s hc]
      simp only [resetMessage]
    · left
      rw [step_close_of_not_completes s hc]
      exact (atClose_fields s).1
  · left
    exact (step_fields_of_ne s c h).2.1

/-- While the identifier trigger is armed and no identifier is being captured,
a byte other than `'5'` leaves it so, with `name` and `name2` still zero. -/
theorem armed_step (s : State) (c : Nat) (hc : c ≠ 53)
    (h : s.gotoname = true ∧ s.recordnamestart = false ∧ s.namestart = 0 ∧
      s.name = List.replicate 100 0 ∧ s.name2 = List.replicate 20 0) :
    (step s c).1.gotoname = true ∧ (step s c).1.recordnamestart = false ∧
      (step s c).1.namestart = 0 ∧ (step s c).1.name = List.replicate 100 0 ∧
      (step s c).1.name2 = List.replicate 20 0 := by
  obtain ⟨h1, h2, h3, h4, h5⟩ := h
  obtain ⟨-, e2, -, e4, -, e6, -, e8, -⟩ := step_untouched s c
  have n2 : (latch s c).name2 = List.replicate 20 0 := by
    rw [latch_name2, h3, h5]; rfl
  refine ⟨?_, ?_, ?_, ?_, ?_⟩
  · rw [e4, latch_gotoname, h1]; simp [hc]
  · rw [e6, latch_recordnamestart, h1, h2, h3]; simp [hc]
  · rw [e8, latch_namestart, h2, h3]; simp
  · rw [e2, latch_name, h2, h3, h4]; simp
  · rcases step_name2 s c with h | h
    · rw [h, n2]
    · exact h

theorem armed_decode (w : List Nat) :
    ∀ s : State, 53 ∉ w →
      (s.gotoname = true ∧ s.recordnamestart = false ∧ s.namestart = 0 ∧
        s.name = List.replicate 100 0 ∧ s.name2 = List.replicate 20 0) →
      ((decode s w).1.gotoname = true ∧ (decode s w).1.recordnamestart = false ∧
        (decode s w).1.namestart = 0 ∧ (decode s w).1.name = List.replicate 100 0 ∧
        (decode s w).1.name2 = List.replicate 20 0) := by
  induction w with
  | nil => intro s _ h; exact h
  | cons c cs ih =>
    intro s hw h
    rw [decode_cons]
    exact ih _ (fun hc => hw (List.mem_cons_of_mem _ hc))
      (armed_step s c (fun hc => hw (hc ▸ List.mem_cons_self _ _)) h)

/-- The byte `'5'` on an armed trigger starts the capture; the `'5'` itself is
not stored. -/
theorem capture_open (s : State)
    (h : s.gotoname = true ∧ s.recordnamestart = false ∧ s.namestart = 0 ∧
      s.name = List.replicate 100 0 ∧ s.name2 = List.replicate 20 0) :
    (step s 53).1.recordnamestart = true ∧ (step s 53).1.namestart = 0 ∧
      (step s 53).1.name = List.replicate 100 0 ∧
      (step s 53).1.name2 = List.replicate 20 0 := by
  obtain ⟨h1, h2, h3, h4, h5⟩ := h
  obtain ⟨-, e2, -, -, -, e6, -, e8, -⟩ := step_untouched s 53
  refine ⟨?_, ?_, ?_, ?_⟩
  · rw [e6, latch_recordnamestart, h1]; simp
  · rw [e8, latch_namestart, h2, h3]; simp
  · rw [e2, latch_name, h2, h3, h4]; simp
  · rw [(step_fields_of_ne s 53 (by decide)).2.1, latch_name2, h3, h5]; rfl

/-- While an identifier is being captured and fewer than four bytes have been
stored, any byte is stored at the cursor. -/
theorem capture_store (s : State) (c : Nat) (hr : s.recordnamestart = true)
    (hk : s.namestart < 4) (h2 : s.name2 = List.replicate 20 0) :
    (step s c).1.recordnamestart = true ∧ (step s c).1.namestart = s.namestart + 1 ∧
      (step s c).1.name = s.name.set s.namestart c ∧
      (step s c).1.name2 = List.replicate 20 0 := by
  obtain ⟨-, e2, -, -, -, e6, -, e8, -⟩ := step_untouched s c
  have hk' : ¬ s.namestart ≥ 4 := by omega
  have n2 : (latch s c).name2 = List.replicate 20 0 := by
    rw [latch_name2, if_neg hk', h2]
  refine ⟨?_, ?_, ?_, ?_⟩
  · rw [e6, latch_recordnamestart, if_neg hk', hr]; simp
  · rw [e8, latch_namestart, if_neg hk', hr]; simp
  · rw [e2, latch_name, if_neg hk', hr]; simp
  · rcases step_name2 s c with h | h
    · rw [h, n2]
    · exact h

/-- The byte after the fourth captured one, if not `'}'`, moves the identifier
to `name2`. -/
theorem capture_commit (s : State) (c : Nat) (hc : c ≠ 125) (hk : s.namestart = 4) :
    (step s c).1.name2 = copyBytes 19 s.name2 s.name := by
  rw [(step_fields_of_ne s c hc).2.1, latch_name2, hk]
  simp

theorem copyBytes_identifier (c1 c2 c3 c4 : Nat) :
    copyBytes 19 (List.replicate 20 0)
      (((((List.replicate 100 0).set 0 c1).set 1 c2).set 2 c3).set 3 c4) =
      [c1, c2, c3, c4] ++ List.replicate 16 0 := by
  simp [copyBytes, List.replicate]

/-! ## Capture of the battery value -/

/-- While the battery value is being captured, a byte other than `'}'` is
stored at the cursor and the capture stays active. -/
theorem battery_store (s : State) (c : Nat) (hc : c ≠ 125)
    (hr : s.recordbatteryvalue > 0) :
    (step s c).1.recordbatteryvalue > 0 ∧
      (step s c).1.batteryvalue = s.batteryvalue.set s.batterystart c ∧
      (step s c).1.batterystart = s.batterystart + 1 := by
  obtain ⟨-, -, -, -, -, -, -, -, -, -, e1, e2, e3, -⟩ := step_fields_of_ne s c hc
  refine ⟨?_, ?_, ?_⟩
  · rw [e1, latch_recordbatteryvalue, if_neg hc]
    split_ifs <;> omega
  · rw [e2, latch_batteryvalue, if_pos ⟨hr, hc⟩]
  · rw [e3, latch_batterystart, if_neg hc, if_pos hr]

theorem battery_store_decode (w : List Nat) :
    ∀ s : State, 125 ∉ w → s.recordbatteryvalue > 0 →
      (decode s w).1.recordbatteryvalue > 0 ∧
      (decode s w).1.batteryvalue = storeAll s.batteryvalue s.batterystart w ∧
      (decode s w).1.batterystart = s.batterystart + w.length := by
  induction w with
  | nil => intro s _ h; exact ⟨h, rfl, rfl⟩
  | cons c cs ih =>
    intro s hw hr
    obtain ⟨a1, a2, a3⟩ :=
      battery_store s c (fun hc => hw (hc ▸ List.mem_cons_self _ _)) hr
    obtain ⟨b1, b2, b3⟩ := ih (step s c).1 (fun hc => hw (List.mem_cons_of_mem _ hc)) a1
    rw [decode_cons]
    refine ⟨b1, ?_, ?_⟩
    · rw [b2, a2, a3]; rfl
    · rw [b3, a3, List.length_cons]; omega

/-- The byte `':'` with the battery flag set starts the capture; the `':'`
itself is not stored. -/
theorem battery_open (s : State) (hb : s.battery > 0) (h0 : s.recordbatteryvalue = 0) :
    (step s 58).1.recordbatteryvalue > 0 ∧ (step s 58).1.batteryvalue = s.batteryvalue ∧
      (step s 58).1.batterystart = s.batterystart := by
  obtain ⟨-, -, -, -, -, -, -, -, -, -, e1, e2, e3, -⟩ := step_fields_of_ne s 58 (by decide)
  refine ⟨?_, ?_, ?_⟩
  · rw [e1, latch_recordbatteryvalue]; simp [hb]
  · rw [e2, latch_batteryvalue, h0]; simp
  · rw [e3, latch_batterystart, h0]; simp

theorem storeAll_short (t : List Nat) (h : t.length ≤ 4) :
    storeAll (List.replicate 5 0) 0 t = t ++ List.replicate (5 - t.length) 0 := by
  rcases t with _ | ⟨a, _ | ⟨b, _ | ⟨c, _ | ⟨d, _ | ⟨e, t⟩⟩⟩⟩⟩
  · rfl
  · rfl
  · rfl
  · rfl
  · rfl
  · simp at h

/-! ## Opening of the value field and framing -/

/-- Once armed, the bracket trigger stays armed over every byte but `'['`. -/
theorem gotobracket_step (s : State) (c : Nat) (hc : c ≠ 91) (h : s.gotobracket = true) :
    (step s c).1.gotobracket = true := by
  rw [(step_untouched s c).2.2.1, latch_gotobracket, h]
  simp [hc]

theorem gotobracket_decode (w : List Nat) :
    ∀ s : State, 91 ∉ w → s.gotobracket = true → (decode s w).1.gotobracket = true := by
  induction w with
  | nil => intro s _ h; exact h
  | cons c cs ih =>
    intro s hw h
    rw [decode_cons]
    exact ih _ (fun hc => hw (List.mem_cons_of_mem _ hc))
      (gotobracket_step s c (fun hc => hw (hc ▸ List.mem_cons_self _ _)) h)

/-- A `'V'` while `e > 0` arms the bracket trigger. -/
theorem gotobracket_arm (s : State) (h : s.e > 0) : (step s 86).1.gotobracket = true := by
  rw [(step_untouched s 86).2.2.1, latch_gotobracket]
  simp [h]

/-- A `'['` on an armed trigger starts the bracket capture. -/
theorem recordstart_open (s : State) (h : s.gotobracket = true) :
    (step s 91).1.recordstart = true := by
  rw [(step_untouched s 91).2.2.2.2.1, latch_recordstart, h]
  simp

/-- The bracket capture, once active, stays active over every byte but `']'`. -/
theorem recordstart_step (s : State) (c : Nat) (hc : c ≠ 93) (h : s.recordstart = true) :
    (step s c).1.recordstart = true := by
  rw [(step_untouched s c).2.2.2.2.1, latch_recordstart, h]
  simp [hc]

theorem recordstart_decode (w : List Nat) :
    ∀ s : State, 93 ∉ w → s.recordstart = true → (decode s w).1.recordstart = true := by
  induction w with
  | nil => intro s _ h; exact h
  | cons c cs ih =>
    intro s hw h
    rw [decode_cons]
    exact ih _ (fun hc => hw (List.mem_cons_of_mem _ hc))
      (recordstart_step s c (fun hc => hw (hc ▸ List.mem_cons_self _ _)) h)

/-- After `eV[`, from any state, the bracket capture is active. -/
theorem recordstart_after_trigger (s : State) :
    (decode s (bytes "eV[")).1.recordstart = true := by
  have hb : bytes "eV[" = [101, 86, 91] := by decide
  rw [hb]
  simp only [decode_cons, decode_nil]
  apply recordstart_open
  apply gotobracket_arm
  rw [(step_fields_of_ne s 101 (by decide)).2.2.2.2.2.2.2.2.2.2.2.2.2.2.2.2.1]
  simp

/-- Bytes other than `'{'` and `'}'` leave the open and close counters alone. -/
theorem counters_decode (w : List Nat) :
    ∀ s : State, 123 ∉ w → 125 ∉ w →
      (decode s w).1.matchleft = s.matchleft ∧ (decode s w).1.matchright = s.matchright := by
  induction w with
  | nil => intro s _ _; exact ⟨rfl, rfl⟩
  | cons c cs ih =>
    intro s h1 h2
    have hc1 : c ≠ 123 := fun hc => h1 (hc ▸ List.mem_cons_self _ _)
    have hc2 : c ≠ 125 := fun hc => h2 (hc ▸ List.mem_cons_self _ _)
    obtain ⟨a1, a2⟩ := ih (step s c).1 (fun hc => h1 (List.mem_cons_of_mem _ hc))
      (fun hc => h2 (List.mem_cons_of_mem _ hc))
    obtain ⟨-, -, -, -, -, -, -, -, -, -, -, -, -, e1, e2, -⟩ := step_fields_of_ne s c hc2
    rw [decode_cons]
    refine ⟨?_, ?_⟩
    · rw [a1, e2, if_neg hc1]
    · rw [a2, e1]

/-! ## The door/button value -/

/-- With `b` and the battery flag at `0`, a byte other than `'b'` and `'}'`
leaves them at `0`. -/
theorem battery_idle_step (s : State) (c : Nat) (h98 : c ≠ 98) (h125 : c ≠ 125)
    (h : s.b = 0 ∧ s.battery = 0) : (step s c).1.b = 0 ∧ (step s c).1.battery = 0 := by
  obtain ⟨-, -, -, -, -, -, -, -, e1, -, -, -, -, -, -, e2, -⟩ := step_fields_of_ne s c h125
  refine ⟨?_, ?_⟩
  · rw [e2, if_neg h98, latch_b, h.1]; simp
  · rw [e1, latch_battery, h.1, h.2]; simp

theorem battery_idle_decode (w : List Nat) :
    ∀ s : State, 98 ∉ w → 125 ∉ w → (s.b = 0 ∧ s.battery = 0) →
      ((decode s w).1.b = 0 ∧ (decode s w).1.battery = 0) := by
  induction w with
  | nil => intro s _ _ h; exact h
  | cons c cs ih =>
    intro s h1 h2 h
    rw [decode_cons]
    exact ih _ (fun hc => h1 (List.mem_cons_of_mem _ hc))
      (fun hc => h2 (List.mem_cons_of_mem _ hc))
      (battery_idle_step s c (fun hc => h1 (hc ▸ List.mem_cons_self _ _))
        (fun hc => h2 (hc ▸ List.mem_cons_self _ _)) h)

/-- While the bracket capture is inactive, a byte other than `'}'` changes
neither the bracketed value nor the sub-value fields, but for the capture flag
itself. -/
theorem value_idle_step (s : State) (c : Nat) (h125 : c ≠ 125) (h : s.recordstart = false) :
    (step s c).1.value = s.value ∧ (step s c).1.valuestart = s.valuestart ∧
    (step s c).1.value2 = s.value2 ∧
    subValues (step s c).1 = { subValues s with recordstart := (step s c).1.recordstart } := by
  obtain ⟨u1, -, -, -, -, -, u7, -, u9, u10, u11, -⟩ := step_untouched s c
  obtain ⟨f1, -, f3, f4, f5, f6, f7, -⟩ := step_fields_of_ne s c h125
  obtain ⟨g1, g2⟩ := latch_got s c
  obtain ⟨i1, i2, i3, i4, i5, i6⟩ := latch_evalue_idle s c (Or.inl h)
  refine ⟨?_, ?_, ?_, ?_⟩
  · rw [u1, latch_value, h]; simp
  · rw [u7, latch_valuestart, h]; simp
  · rw [f1, latch_value2, h]; simp
  · simp only [subValues, u9, u10, u11, f3, f4, f5, f6, f7, g1, g2, i1, i2, i3, i4, i5, i6, h,
      Bool.false_eq_true, and_false, if_false]

/-- While the bracket capture is inactive, a byte other than `'['` leaves it
inactive. -/
theorem recordstart_idle_step (s : State) (c : Nat) (h91 : c ≠ 91)
    (h : s.recordstart = false) : (step s c).1.recordstart = false := by
  rw [(step_untouched s c).2.2.2.2.1, latch_recordstart, h]
  simp [h91]

theorem value_idle_decode (w : List Nat) :
    ∀ s : State, 91 ∉ w → 125 ∉ w → s.recordstart = false →
      (decode s w).1.recordstart = false ∧ (decode s w).1.value = s.value ∧
      (decode s w).1.valuestart = s.valuestart ∧ (decode s w).1.value2 = s.value2 ∧
      subValues (decode s w).1 = subValues s := by
  induction w with
  | nil => intro s _ _ h; exact ⟨h, rfl, rfl, rfl, rfl⟩
  | cons c cs ih =>
    intro s h1 h2 h
    have hr := recordstart_idle_step s c (fun hc => h1 (hc ▸ List.mem_cons_self _ _)) h
    obtain ⟨a1, a2, a3, a4⟩ :=
      value_idle_step s c (fun hc => h2 (hc ▸ List.mem_cons_self _ _)) h
    obtain ⟨b1, b2, b3, b4, b5⟩ := ih (step s c).1 (fun hc => h1 (List.mem_cons_of_mem _ hc))
      (fun hc => h2 (List.mem_cons_of_mem _ hc)) hr
    rw [decode_cons]
    refine ⟨b1, b2.trans a1, b3.trans a2, b4.trans a3, ?_⟩
    rw [b5, a4, hr]
    simp only [subValues, h]

/-- While the bracket capture is active, a byte other than `']'` is stored in
`value` at the cursor. -/
theorem value_store_step (s : State) (c : Nat) (h93 : c ≠ 93) (h : s.recordstart = true) :
    (step s c).1.value = s.value.set s.valuestart c ∧
      (step s c).1.valuestart = s.valuestart + 1 := by
  obtain ⟨u1, -, -, -, -, -, u7, -⟩ := step_untouched s c
  refine ⟨?_, ?_⟩
  · rw [u1, latch_value, h]; simp [h93]
  · rw [u7, latch_valuestart, h]; simp [h93]

/-- A byte other than `']'` and `'}'` leaves `value2` as it is. -/
theorem value2_step (s : State) (c : Nat) (h93 : c ≠ 93) (h125 : c ≠ 125) :
    (step s c).1.value2 = s.value2 := by
  rw [(step_fields_of_ne s c h125).1, latch_value2]
  simp [h93]

theorem value_store_decode (w : List Nat) :
    ∀ s : State, 93 ∉ w → 125 ∉ w → s.recordstart = true →
      (decode s w).1.value = storeAll s.value s.valuestart w ∧
      (decode s w).1.valuestart = s.valuestart + w.length ∧
      (decode s w).1.value2 = s.value2 := by
  induction w with
  | nil => intro s _ _ _; exact ⟨rfl, rfl, rfl⟩
  | cons c cs ih =>
    intro s h1 h2 h
    have hc1 : c ≠ 93 := fun hc => h1 (hc ▸ List.mem_cons_self _ _)
    have hc2 : c ≠ 125 := fun hc => h2 (hc ▸ List.mem_cons_self _ _)
    obtain ⟨a1, a2⟩ := value_store_step s c hc1 h
    obtain ⟨b1, b2, b3⟩ := ih (step s c).1 (fun hc => h1 (List.mem_cons_of_mem _ hc))
      (fun hc => h2 (List.mem_cons_of_mem _ hc)) (recordstart_step s c hc1 h)
    rw [decode_cons]
    refine ⟨?_, ?_, ?_⟩
    · rw [b1, a1, a2]; rfl
    · rw [b2, a2, List.length_cons]; omega
    · rw [b3, value2_step s c hc1 hc2]

/-- The byte `']'` while the bracket capture is active moves the captured text
to `value2` and ends the capture; the sub-value buffers stay. -/
theorem value_commit_step (s : State) (h : s.recordstart = true) :
    (step s 93).1.value2 = copyBytes 19 s.value2 s.value ∧
    (step s 93).1.recordstart = false ∧
    (step s 93).1.evalue1 = s.evalue1 ∧ (step s 93).1.evalue2 = s.evalue2 ∧
    (step s 93).1.evalue3 = s.evalue3 := by
  obtain ⟨-, -, -, -, u5, -, -, -, u9, u10, u11, -⟩ := step_untouched s 93
  obtain ⟨i1, -, i3, -, i5, -⟩ := latch_evalue_idle s 93 (Or.inr (Or.inr rfl))
  refine ⟨?_, ?_, u9.trans i1, u10.trans i3, u11.trans i5⟩
  · rw [(step_fields_of_ne s 93 (by decide)).1, latch_value2, h]; simp
  · rw [u5, latch_recordstart]; simp

/-- The byte `'['` on an armed trigger, the bracket capture being inactive:
the capture starts, nothing has been stored yet. -/
theorem bracket_open_step (s : State) (hg : s.gotobracket = true)
    (h : s.recordstart = false) :
    (step s 91).1.value = s.value ∧ (step s 91).1.valuestart = s.valuestart ∧
    (step s 91).1.value2 = s.value2 ∧
    subValues (step s 91).1 = { subValues s with recordstart := true } := by
  obtain ⟨a1, a2, a3, a4⟩ := value_idle_step s 91 (by decide) h
  rw [recordstart_open s hg] at a4
  exact ⟨a1, a2, a3, a4⟩

/-- With no identifier capture under way and the identifier trigger not armed,
a byte other than `'}'` that is not a `'0'` right after `'b'`, `'e'` or `'D'`
leaves the identifier fields as they are. -/
theorem name_idle_step (s : State) (c : Nat) (h125 : c ≠ 125) (hD : s.D = 0 ∨ c ≠ 48)
    (h : s.gotoname = false ∧ s.recordnamestart = false ∧ s.namestart = 0) :
    ((step s c).1.gotoname = false ∧ (step s c).1.recordnamestart = false ∧
      (step s c).1.namestart = 0) ∧ (step s c).1.name2 = s.name2 := by
  obtain ⟨h1, h2, h3⟩ := h
  obtain ⟨-, -, -, u4, -, u6, -, u8, -⟩ := step_untouched s c
  have hD' : ¬ (s.D > 0 ∧ c = 48) := by
    rcases hD with k | k
    · omega
    · exact fun hh => k hh.2
  refine ⟨⟨?_, ?_, ?_⟩, ?_⟩
  · rw [u4, latch_gotoname, h1, if_neg hD']; simp
  · rw [u6, latch_recordnamestart, h1, h2, h3]; simp
  · rw [u8, latch_namestart, h2, h3]; simp
  · rw [(step_fields_of_ne s c h125).2.1, latch_name2, h3]; simp

theorem name_idle_decode (w : List Nat) :
    ∀ s : State, (∀ c ∈ w, c ≠ 98 ∧ c ≠ 101 ∧ c ≠ 68 ∧ c ≠ 125) → s.D = 0 →
      (s.gotoname = false ∧ s.recordnamestart = false ∧ s.namestart = 0) →
      ((decode s w).1.gotoname = false ∧ (decode s w).1.recordnamestart = false ∧
        (decode s w).1.namestart = 0) ∧ (decode s w).1.name2 = s.name2 ∧
      (decode s w).1.D = 0 := by
  induction w with
  | nil => intro s _ hD h; exact ⟨h, rfl, hD⟩
  | cons c cs ih =>
    intro s hw hD h
    obtain ⟨k1, k2, k3, k4⟩ := hw c (List.mem_cons_self _ _)
    obtain ⟨a1, a2⟩ := name_idle_step s c k4 (Or.inl hD) h
    have aD : (step s c).1.D = 0 := by
      rw [(step_fields_of_ne s c k4).2.2.2.2.2.2.2.2.2.2.2.2.2.2.2.2.2.1]
      simp [k1, k2, k3]
    obtain ⟨b1, b2, b3⟩ := ih (step s c).1 (fun x hx => hw x (List.mem_cons_of_mem _ hx)) aD a1
    rw [decode_cons]
    exact ⟨b1, b2.trans a2, b3⟩

/-- During the capture of an identifier, with the identifier trigger not
armed, a byte that cannot arm it leaves it not armed. -/
theorem gotoname_false_step (s : State) (c : Nat) (hD : s.D = 0 ∨ c ≠ 48)
    (h : s.gotoname = false) : (step s c).1.gotoname = false := by
  have hD' : ¬ (s.D > 0 ∧ c = 48) := by
    rcases hD with k | k
    · omega
    · exact fun hh => k hh.2
  rw [(step_untouched s c).2.2.2.1, latch_gotoname, h, if_neg hD']
  simp

theorem storeAll_getD_of_lt (w : List Nat) :
    ∀ (buf : List Nat) (start i : Nat), i < start →
      (storeAll buf start w).getD i 0 = buf.getD i 0 := by
  induction w with
  | nil => intro buf start i _; rfl
  | cons c cs ih =>
    intro buf start i h
    unfold storeAll
    rw [ih _ _ _ (by omega)]
    simp only [List.getD_eq_getElem?_getD]
    rw [List.getElem?_set_ne (by omega)]

theorem storeAll_getD_zero (a : Nat) (t : List Nat) :
    (storeAll (List.replicate 100 0) 0 (a :: t)).getD 0 0 = a := by
  unfold storeAll
  rw [storeAll_getD_of_lt t _ _ 0 (by omega)]
  rfl

theorem copyBytes_getD_zero (src : List Nat) :
    (copyBytes 19 (List.replicate 20 0) src).getD 0 0 = src.getD 0 0 := by
  simp [copyBytes, List.replicate]

theorem cstr_append_zeros (v : List Nat) (k : Nat) (h : ∀ c ∈ v, c ≠ 0) :
    cstr (v ++ List.replicate k 0) = v := by
  unfold cstr
  induction v with
  | nil => cases k <;> simp [List.replicate]
  | cons a t ih =>
    have ha : a ≠ 0 := h a (List.mem_cons_self _ _)
    simp only [List.cons_append, List.takeWhile_cons, ha, ne_eq, not_false_eq_true,
      decide_True, if_true]
    rw [ih (fun c hc => h c (List.mem_cons_of_mem _ hc))]

/-! ## The run of a room message -/

theorem digit_not_mem (v : List Nat) (hv : ∀ c ∈ v, isDigit c) (x : Nat)
    (hx : x < 48 ∨ 57 < x) : x ∉ v := by
  intro h
  have hd := hv x h
  unfold isDigit at hd
  omega

theorem decode_append_fst (s : State) (xs ys : List Nat) :
    (decode s (xs ++ ys)).1 = (decode (decode s xs).1 ys).1 := by
  rw [decode_append]

/-- One digit of the identifier, during its capture. -/
theorem capture_digit (s : State) (c : Nat) (hc : isDigit c)
    (h : s.recordnamestart = true ∧ s.name2 = List.replicate 20 0 ∧ s.gotoname = false ∧
      s.D = 0) (hk : s.namestart < 4) :
    ((step s c).1.recordnamestart = true ∧ (step s c).1.name2 = List.replicate 20 0 ∧
      (step s c).1.gotoname = false ∧ (step s c).1.D = 0) ∧
    (step s c).1.namestart = s.namestart + 1 ∧
    (step s c).1.name = s.name.set s.namestart c := by
  obtain ⟨h1, h2, h3, h4⟩ := h
  obtain ⟨a1, a2, a3, a4⟩ := capture_store s c h1 hk h2
  unfold isDigit at hc
  refine ⟨⟨a1, a4, gotoname_false_step s c (Or.inl h4) h3, ?_⟩, a2, a3⟩
  rw [(step_fields_of_ne s c (by omega)).2.2.2.2.2.2.2.2.2.2.2.2.2.2.2.2.2.1]
  have k1 : c ≠ 98 := by omega
  have k2 : c ≠ 101 := by omega
  have k3 : c ≠ 68 := by omega
  simp [k1, k2, k3]

/-- The comma after a four-byte identifier moves it to `name2` and ends the
capture. -/
theorem capture_comma (s : State)
    (h : s.recordnamestart = true ∧ s.name2 = List.replicate 20 0 ∧ s.gotoname = false ∧
      s.D = 0) (hk : s.namestart = 4) :
    ((step s 44).1.gotoname = false ∧ (step s 44).1.recordnamestart = false ∧
      (step s 44).1.namestart = 0) ∧
    (step s 44).1.name2 = copyBytes 19 (List.replicate 20 0) s.name ∧
    (step s 44).1.D = 0 := by
  obtain ⟨h1, h2, h3, h4⟩ := h
  obtain ⟨-, -, -, -, -, u6, -, u8, -⟩ := step_untouched s 44
  refine ⟨⟨gotoname_false_step s 44 (Or.inl h4) h3, ?_, ?_⟩, ?_, ?_⟩
  · rw [u6, latch_recordnamestart, h3, hk]; simp
  · rw [u8, latch_namestart, hk]; simp
  · rw [capture_commit s 44 (by decide) hk, h2]
  · rw [(step_fields_of_ne s 44 (by decide)).2.2.2.2.2.2.2.2.2.2.2.2.2.2.2.2.2.1]
    simp

/-- The identifier fields after `{D05 i1 i2 i3 4,`. -/
theorem room_identifier (i1 i2 i3 : Nat) (hi1 : isDigit i1) (hi2 : isDigit i2)
    (hi3 : isDigit i3) :
    ((decode init ([123, 68, 48, 53] ++ [i1, i2, i3, 52, 44])).1.gotoname = false ∧
      (decode init ([123, 68, 48, 53] ++ [i1, i2, i3, 52, 44])).1.recordnamestart = false ∧
      (decode init ([123, 68, 48, 53] ++ [i1, i2, i3, 52, 44])).1.namestart = 0) ∧
    (decode init ([123, 68, 48, 53] ++ [i1, i2, i3, 52, 44])).1.name2 =
      [i1, i2, i3, 52] ++ List.replicate 16 0 ∧
    (decode init ([123, 68, 48, 53] ++ [i1, i2, i3, 52, 44])).1.D = 0 := by
  have h0 : ((decode init [123, 68, 48, 53]).1.recordnamestart = true ∧
      (decode init [123, 68, 48, 53]).1.name2 = List.replicate 20 0 ∧
      (decode init [123, 68, 48, 53]).1.gotoname = false ∧
      (decode init [123, 68, 48, 53]).1.D = 0) ∧
      (decode init [123, 68, 48, 53]).1.namestart = 0 ∧
      (decode init [123, 68, 48, 53]).1.name = List.replicate 100 0 := by decide!
  obtain ⟨s0, hs0⟩ : ∃ s, s = (decode init [123, 68, 48, 53]).1 := ⟨_, rfl⟩
  rw [decode_append_fst, ← hs0]
  rw [← hs0] at h0
  obtain ⟨a, ak, an⟩ := h0
  obtain ⟨b, bk, bn⟩ := capture_digit s0 i1 hi1 a (by omega)
  obtain ⟨d, dk, dn⟩ := capture_digit _ i2 hi2 b (by omega)
  obtain ⟨e, ek, en⟩ := capture_digit _ i3 hi3 d (by omega)
  obtain ⟨f, fk, fn⟩ := capture_digit _ 52 (by decide) e (by omega)
  obtain ⟨g, gn, gD⟩ := capture_comma _ f (by omega)
  simp only [decode_cons, decode_nil]
  refine ⟨g, ?_, gD⟩
  rw [gn, fn, en, dn, bn, an, ek, dk, bk, ak]
  exact copyBytes_identifier i1 i2 i3 52

/-- The identifier fields stay as they are over `eV[`, digits, commas and
`']'`, once the capture is over. -/
theorem room_identifier_kept (s : State) (w : List Nat)
    (hw : ∀ c ∈ w, c ≠ 98 ∧ c ≠ 101 ∧ c ≠ 68 ∧ c ≠ 125)
    (h : s.gotoname = false ∧ s.recordnamestart = false ∧ s.namestart = 0) (hD : s.D = 0) :
    ((decode s ([101, 86, 91] ++ w)).1.gotoname = false ∧
      (decode s ([101, 86, 91] ++ w)).1.recordnamestart = false ∧
      (decode s ([101, 86, 91] ++ w)).1.namestart = 0) ∧
    (decode s ([101, 86, 91] ++ w)).1.name2 = s.name2 := by
  obtain ⟨a, an⟩ := name_idle_step s 101 (by decide) (Or.inl hD) h
  obtain ⟨b, bn⟩ := name_idle_step _ 86 (by decide) (Or.inr (by decide)) a
  obtain ⟨d, dn⟩ := name_idle_step _ 91 (by decide) (Or.inr (by decide)) b
  have dD : (step (step (step s 101).1 86).1 91).1.D = 0 := by
    rw [(step_fields_of_ne _ 91 (by decide)).2.2.2.2.2.2.2.2.2.2.2.2.2.2.2.2.2.1]
    simp
  obtain ⟨e, en, -⟩ := name_idle_decode w _ hw dD d
  rw [decode_append_fst]
  simp only [decode_cons, decode_nil]
  exact ⟨e, by rw [en, dn, bn, an]⟩

/-- The bracketed value fields when the bracket opens: after bytes without
`'['` and `'}'` from the initial state, then `eV[`. -/
theorem room_bracket_open (w : List Nat) (h1 : 91 ∉ w) (h2 : 125 ∉ w) :
    (decode init (w ++ [101, 86, 91])).1.value = List.replicate 100 0 ∧
    (decode init (w ++ [101, 86, 91])).1.valuestart = 0 ∧
    (decode init (w ++ [101, 86, 91])).1.value2 = List.replicate 20 0 ∧
    subValues (decode init (w ++ [101, 86, 91])).1 =
      { subValues init with recordstart := true } := by
  have hw : 91 ∉ w ++ [101, 86] := by
    intro h
    rcases List.mem_append.1 h with h | h
    · exact h1 h
    · revert h; decide
  have hw' : 125 ∉ w ++ [101, 86] := by
    intro h
    rcases List.mem_append.1 h with h | h
    · exact h2 h
    · revert h; decide
  obtain ⟨a1, a2, a3, a4, a5⟩ := value_idle_decode (w ++ [101, 86]) init hw hw' rfl
  have hg : (decode init (w ++ [101, 86])).1.gotobracket = true := by
    rw [decode_append_fst]
    simp only [decode_cons, decode_nil]
    apply gotobracket_arm
    rw [(step_fields_of_ne _ 101 (by decide)).2.2.2.2.2.2.2.2.2.2.2.2.2.2.2.2.1]
    simp
  obtain ⟨b1, b2, b3, b4⟩ := bracket_open_step _ hg a1
  have hl : w ++ [101, 86, 91] = (w ++ [101, 86]) ++ [91] := by simp
  rw [hl, decode_append_fst]
  simp only [decode_cons, decode_nil]
  refine ⟨b1.trans a2, b2.trans a3, b3.trans a4, ?_⟩
  rw [b4, a5]

/-- The bracketed value fields after the three segments and the `']'`, from a
state in which the bracket has just opened on empty buffers. -/
theorem room_bracket_close (s : State) (a : Nat) (t y z : List Nat)
    (hx : ∀ c ∈ a :: t, c ≠ 44 ∧ c ≠ 93 ∧ c ≠ 125)
    (hy : ∀ c ∈ y, c ≠ 44 ∧ c ≠ 93 ∧ c ≠ 125) (hz : ∀ c ∈ z, c ≠ 44 ∧ c ≠ 93 ∧ c ≠ 125)
    (hv : s.value = List.replicate 100 0) (hk : s.valuestart = 0)
    (h2 : s.value2 = List.replicate 20 0)
    (hs : subValues s = { subValues init with recordstart := true }) :
    (decode s ((a :: t) ++ [44] ++ y ++ [44] ++ z ++ [93])).1.recordstart = false ∧
    (decode s ((a :: t) ++ [44] ++ y ++ [44] ++ z ++ [93])).1.value2.getD 0 0 = a ∧
    (decode s ((a :: t) ++ [44] ++ y ++ [44] ++ z ++ [93])).1.evalue1 =
      fill 2 (List.replicate 5 0) 0 (a :: t) ∧
    (decode s ((a :: t) ++ [44] ++ y ++ [44] ++ z ++ [93])).1.evalue2 =
      fill 2 (List.replicate 5 0) 0 y ∧
    (decode s ((a :: t) ++ [44] ++ y ++ [44] ++ z ++ [93])).1.evalue3 =
      fill 3 (List.replicate 5 0) 0 z := by
  have r : s.recordstart = true := congrArg SubValues.recordstart hs
  have g1 : s.got1 = 0 := congrArg SubValues.got1 hs
  have g2 : s.got2 = 0 := congrArg SubValues.got2 hs
  have e1 : s.evalue1 = List.replicate 5 0 := congrArg SubValues.evalue1 hs
  have e2 : s.evalue2 = List.replicate 5 0 := congrArg SubValues.evalue2 hs
  have e3 : s.evalue3 = List.replicate 5 0 := congrArg SubValues.evalue3 hs
  have k1 : s.evalue1start = 0 := congrArg SubValues.evalue1start hs
  have k2 : s.evalue2start = 0 := congrArg SubValues.evalue2start hs
  have k3 : s.evalue3start = 0 := congrArg SubValues.evalue3start hs
  have hseg := subValues_segments s (a :: t) y z r g1 g2 hx hy hz
  have m93 : 93 ∉ (a :: t) ++ [44] ++ y ++ [44] ++ z := by
    intro h
    simp only [List.mem_append, List.mem_singleton] at h
    rcases h with (((h | h) | h) | h) | h
    · exact (hx 93 h).2.1 rfl
    · revert h; decide
    · exact (hy 93 h).2.1 rfl
    · revert h; decide
    · exact (hz 93 h).2.1 rfl
  have m125 : 125 ∉ (a :: t) ++ [44] ++ y ++ [44] ++ z := by
    intro h
    simp only [List.mem_append, List.mem_singleton] at h
    rcases h with (((h | h) | h) | h) | h
    · exact (hx 125 h).2.2 rfl
    · revert h; decide
    · exact (hy 125 h).2.2 rfl
    · revert h; decide
    · exact (hz 125 h).2.2 rfl
  obtain ⟨w1, -, w3⟩ := value_store_decode _ s m93 m125 r
  obtain ⟨s3, hs3⟩ : ∃ u, u = (decode s ((a :: t) ++ [44] ++ y ++ [44] ++ z)).1 := ⟨_, rfl⟩
  rw [← hs3] at hseg w1 w3
  obtain ⟨c1, c2, c3, c4, c5⟩ :=
    value_commit_step s3 (congrArg SubValues.recordstart hseg)
  have q1 : s3.evalue1 = fill 2 s.evalue1 s.evalue1start (a :: t) :=
    congrArg SubValues.evalue1 hseg
  have q2 : s3.evalue2 = fill 2 s.evalue2 s.evalue2start y := congrArg SubValues.evalue2 hseg
  have q3 : s3.evalue3 = fill 3 s.evalue3 s.evalue3start z := congrArg SubValues.evalue3 hseg
  rw [decode_append_fst, ← hs3]
  simp only [decode_cons, decode_nil]
  refine ⟨c2, ?_, ?_, ?_, ?_⟩
  · rw [c1, w3, h2, copyBytes_getD_zero, w1, hv, hk]
    exact storeAll_getD_zero a _
  · rw [c3, q1, e1, k1]
  · rw [c4, q2, e2, k2]
  · rw [c5, q3, e3, k3]

theorem not_mem_identifier (x i1 i2 i3 : Nat) (hx : x < 48 ∨ 57 < x)
    (hi1 : isDigit i1) (hi2 : isDigit i2) (hi3 : isDigit i3) (n : x ≠ 68 ∧ x ≠ 44) :
    x ∉ [68, 48, 53] ++ [i1, i2, i3, 52, 44] := by
  unfold isDigit at hi1 hi2 hi3
  intro h
  simp only [List.mem_append, List.mem_cons, List.mem_singleton, List.not_mem_nil,
    or_false] at h
  omega

theorem not_mem_bracketed (x : Nat) (v1 v2 v3 : List Nat) (hx : x < 48 ∨ 57 < x)
    (hv1 : ∀ c ∈ v1, isDigit c) (hv2 : ∀ c ∈ v2, isDigit c) (hv3 : ∀ c ∈ v3, isDigit c)
    (n : x ≠ 44 ∧ x ≠ 93) : x ∉ v1 ++ [44] ++ v2 ++ [44] ++ v3 ++ [93] := by
  intro h
  rcases List.mem_append.1 h with h | h
  · rcases List.mem_append.1 h with h | h
    · rcases List.mem_append.1 h with h | h
      · rcases List.mem_append.1 h with h | h
        · rcases List.mem_append.1 h with h | h
          · exact digit_not_mem v1 hv1 x hx h
          · exact n.1 (List.mem_singleton.1 h)
        · exact digit_not_mem v2 hv2 x hx h
      · exact n.1 (List.mem_singleton.1 h)
    · exact digit_not_mem v3 hv3 x hx h
  · exact n.2 (List.mem_singleton.1 h)

theorem not_mem_body (x i1 i2 i3 : Nat) (v1 v2 v3 : List Nat) (hx : x < 48 ∨ 57 < x)
    (hi1 : isDigit i1) (hi2 : isDigit i2) (hi3 : isDigit i3)
    (hv1 : ∀ c ∈ v1, isDigit c) (hv2 : ∀ c ∈ v2, isDigit c) (hv3 : ∀ c ∈ v3, isDigit c)
    (n : x ≠ 68 ∧ x ≠ 44 ∧ x ≠ 101 ∧ x ≠ 86 ∧ x ≠ 91 ∧ x ≠ 93) :
    x ∉ [68, 48, 53] ++ [i1, i2, i3, 52, 44] ++ [101, 86, 91] ++
      (v1 ++ [44] ++ v2 ++ [44] ++ v3 ++ [93]) := by
  intro h
  rcases List.mem_append.1 h with h | h
  · rcases List.mem_append.1 h with h | h
    · exact not_mem_identifier x i1 i2 i3 hx hi1 hi2 hi3 ⟨n.1, n.2.1⟩ h
    · simp only [List.mem_cons, List.mem_singleton, List.not_mem_nil, or_false] at h
      omega
  · exact not_mem_bracketed x v1 v2 v3 hx hv1 hv2 hv3 ⟨n.2.1, n.2.2.2.2.2⟩ h

/-- The state before the closing brace of a room message. -/
theorem room_before_close (i1 i2 i3 a : Nat) (t v2 v3 : List Nat)
    (hi1 : isDigit i1) (hi2 : isDigit i2) (hi3 : isDigit i3)
    (hv1 : ∀ c ∈ a :: t, isDigit c) (hv2 : ∀ c ∈ v2, isDigit c) (hv3 : ∀ c ∈ v3, isDigit c) :
    (decode init ([123, 68, 48, 53] ++ [i1, i2, i3, 52, 44] ++ [101, 86, 91] ++
      ((a :: t) ++ [44] ++ v2 ++ [44] ++ v3 ++ [93]))).2 = [] ∧
    completes (decode init ([123, 68, 48, 53] ++ [i1, i2, i3, 52, 44] ++ [101, 86, 91] ++
      ((a :: t) ++ [44] ++ v2 ++ [44] ++ v3 ++ [93]))).1 ∧
    (atClose (decode init ([123, 68, 48, 53] ++ [i1, i2, i3, 52, 44] ++ [101, 86, 91] ++
      ((a :: t) ++ [44] ++ v2 ++ [44] ++ v3 ++ [93]))).1).name2.getD 3 0 = 52 ∧
    (atClose (decode init ([123, 68, 48, 53] ++ [i1, i2, i3, 52, 44] ++ [101, 86, 91] ++
      ((a :: t) ++ [44] ++ v2 ++ [44] ++ v3 ++ [93]))).1).value2.getD 0 0 = a ∧
    (atClose (decode init ([123, 68, 48, 53] ++ [i1, i2, i3, 52, 44] ++ [101, 86, 91] ++
      ((a :: t) ++ [44] ++ v2 ++ [44] ++ v3 ++ [93]))).1).battery = 0 ∧
    (atClose (decode init ([123, 68, 48, 53] ++ [i1, i2, i3, 52, 44] ++ [101, 86, 91] ++
      ((a :: t) ++ [44] ++ v2 ++ [44] ++ v3 ++ [93]))).1).evalue1 =
        fill 2 (List.replicate 5 0) 0 (a :: t) ∧
    (atClose (decode init ([123, 68, 48, 53] ++ [i1, i2, i3, 52, 44] ++ [101, 86, 91] ++
      ((a :: t) ++ [44] ++ v2 ++ [44] ++ v3 ++ [93]))).1).evalue2 =
        fill 2 (List.replicate 5 0) 0 v2 ∧
    (atClose (decode init ([123, 68, 48, 53] ++ [i1, i2, i3, 52, 44] ++ [101, 86, 91] ++
      ((a :: t) ++ [44] ++ v2 ++ [44] ++ v3 ++ [93]))).1).evalue3 =
        fill 3 (List.replicate 5 0) 0 v3 := by
  have nb : ∀ x, x < 48 ∨ 57 < x → (x ≠ 68 ∧ x ≠ 44 ∧ x ≠ 101 ∧ x ≠ 86 ∧ x ≠ 91 ∧ x ≠ 93) →
      x ∉ [68, 48, 53] ++ [i1, i2, i3, 52, 44] ++ [101, 86, 91] ++
        ((a :: t) ++ [44] ++ v2 ++ [44] ++ v3 ++ [93]) :=
    fun x hx n => not_mem_body x i1 i2 i3 (a :: t) v2 v3 hx hi1 hi2 hi3 hv1 hv2 hv3 n
  have hall : ∀ x, x < 48 ∨ 57 < x →
      (x ≠ 68 ∧ x ≠ 44 ∧ x ≠ 101 ∧ x ≠ 86 ∧ x ≠ 91 ∧ x ≠ 93) → x ≠ 123 →
      x ∉ [123, 68, 48, 53] ++ [i1, i2, i3, 52, 44] ++ [101, 86, 91] ++
        ((a :: t) ++ [44] ++ v2 ++ [44] ++ v3 ++ [93]) := by
    intro x hx n n1 h
    rcases List.mem_cons.1 h with h | h
    · exact n1 h
    · exact nb x hx n h
  have head : ∀ x, x < 48 ∨ 57 < x → (x ≠ 68 ∧ x ≠ 44) → x ≠ 123 →
      x ∉ [123, 68, 48, 53] ++ [i1, i2, i3, 52, 44] := by
    intro x hx n n1 h
    rcases List.mem_cons.1 h with h | h
    · exact n1 h
    · exact not_mem_identifier x i1 i2 i3 hx hi1 hi2 hi3 n h
  have seg : ∀ (v : List Nat), (∀ c ∈ v, isDigit c) → ∀ c ∈ v, c ≠ 44 ∧ c ≠ 93 ∧ c ≠ 125 := by
    intro v hv c hc
    have hd := hv c hc
    unfold isDigit at hd
    omega
  -- identifier
  obtain ⟨n1, n2, n3⟩ := room_identifier i1 i2 i3 hi1 hi2 hi3
  have tame : ∀ c ∈ (a :: t) ++ [44] ++ v2 ++ [44] ++ v3 ++ [93],
      c ≠ 98 ∧ c ≠ 101 ∧ c ≠ 68 ∧ c ≠ 125 := by
    intro c hc
    refine ⟨?_, ?_, ?_, ?_⟩ <;> intro h <;> subst h <;>
      exact not_mem_bracketed _ (a :: t) v2 v3 (by omega) hv1 hv2 hv3
        ⟨by omega, by omega⟩ hc
  obtain ⟨n4, n5⟩ := room_identifier_kept _ _ tame n1 n3
  -- bracketed value
  obtain ⟨b1, b2, b3, b4⟩ := room_bracket_open ([123, 68, 48, 53] ++ [i1, i2, i3, 52, 44])
    (head 91 (by omega) ⟨by omega, by omega⟩ (by omega))
    (head 125 (by omega) ⟨by omega, by omega⟩ (by omega))
  obtain ⟨c1, c2, c3, c4, c5⟩ := room_bracket_close _ a t v2 v3 (seg _ hv1) (seg _ hv2)
    (seg _ hv3) b1 b2 b3 b4
  -- battery flag, counters, calls
  obtain ⟨e1, e2⟩ := battery_idle_decode _ init
    (hall 98 (by omega) (by omega) (by omega)) (hall 125 (by omega) (by omega) (by omega))
    ⟨rfl, rfl⟩
  have hact := decode_snd_of_not_mem _ init (hall 125 (by omega) (by omega) (by omega))
  have hcnt : (decode init ([123, 68, 48, 53] ++ [i1, i2, i3, 52, 44] ++ [101, 86, 91] ++
      ((a :: t) ++ [44] ++ v2 ++ [44] ++ v3 ++ [93]))).1.matchleft = 1 ∧
      (decode init ([123, 68, 48, 53] ++ [i1, i2, i3, 52, 44] ++ [101, 86, 91] ++
      ((a :: t) ++ [44] ++ v2 ++ [44] ++ v3 ++ [93]))).1.matchright = 0 := by
    have hs : (step init 123).1.matchleft = 1 ∧ (step init 123).1.matchright = 0 := by decide!
    have hl : [123, 68, 48, 53] ++ [i1, i2, i3, 52, 44] ++ [101, 86, 91] ++
        ((a :: t) ++ [44] ++ v2 ++ [44] ++ v3 ++ [93]) =
        123 :: ([68, 48, 53] ++ [i1, i2, i3, 52, 44] ++ [101, 86, 91] ++
        ((a :: t) ++ [44] ++ v2 ++ [44] ++ v3 ++ [93])) := rfl
    obtain ⟨k1, k2⟩ := counters_decode _ (step init 123).1
      (nb 123 (by omega) (by omega)) (nb 125 (by omega) (by omega))
    rw [hl, decode_cons]
    exact ⟨k1.trans hs.1, k2.trans hs.2⟩
  -- assemble at the state before the closing brace
  obtain ⟨s, hs⟩ : ∃ u, u = (decode init ([123, 68, 48, 53] ++ [i1, i2, i3, 52, 44] ++
      [101, 86, 91] ++ ((a :: t) ++ [44] ++ v2 ++ [44] ++ v3 ++ [93]))).1 := ⟨_, rfl⟩
  have ha : (decode init ([123, 68, 48, 53] ++ [i1, i2, i3, 52, 44] ++ [101, 86, 91] ++
      ((a :: t) ++ [44] ++ v2 ++ [44] ++ v3 ++ [93]))).1 =
      (decode (decode init ([123, 68, 48, 53] ++ [i1, i2, i3, 52, 44])).1
        ([101, 86, 91] ++ ((a :: t) ++ [44] ++ v2 ++ [44] ++ v3 ++ [93]))).1 := by
    rw [List.append_assoc, decode_append_fst]
  have hb : (decode init ([123, 68, 48, 53] ++ [i1, i2, i3, 52, 44] ++ [101, 86, 91] ++
      ((a :: t) ++ [44] ++ v2 ++ [44] ++ v3 ++ [93]))).1 =
      (decode (decode init ([123, 68, 48, 53] ++ [i1, i2, i3, 52, 44] ++ [101, 86, 91])).1
        ((a :: t) ++ [44] ++ v2 ++ [44] ++ v3 ++ [93])).1 := by
    rw [decode_append_fst]
  rw [← ha, ← hs] at n4 n5
  rw [← hb, ← hs] at c1 c2 c3 c4 c5
  rw [← hs] at e1 e2 hcnt
  rw [← hs]
  obtain ⟨f1, f2, f3, -, -, -, f7, f8, f9, f10, f11⟩ := atClose_fields s
  obtain ⟨i1', -, i3', -, i5', -⟩ := latch_evalue_idle s 125 (Or.inl c1)
  refine ⟨hact, ?_, ?_, ?_, ?_, ?_, ?_, ?_⟩
  · unfold completes
    rw [f10, f11, hcnt.1, hcnt.2]
  · rw [f1, latch_name2, n4.2.2, if_neg (by omega), n5, n2]
    rfl
  · rw [f2, latch_value2, c1]
    simpa using c2
  · rw [f3, latch_battery, e1, e2]
    simp
  · rw [f7, i1', c3]
  · rw [f8, i3', c4]
  · rw [f9, i5', c5]

/-! ## The payload text -/

/-- A formatted text of at most 99 bytes is not cut. -/
theorem snprintf_template (key v : List Nat) (h : key.length + v.length + 9 ≤ 99) :
    snprintf 100 (bytes "\x7b \"" ++ key ++ bytes "\": \"") v (bytes "\"\x7d") =
      jsonField key v := by
  have e1 : (bytes "\x7b \"").length = 3 := by decide
  have e2 : (bytes "\": \"").length = 4 := by decide
  have e3 : (bytes "\"\x7d").length = 2 := by decide
  unfold snprintf jsonField
  apply List.take_of_length_le
  simp only [List.length_append, e1, e2, e3]
  omega

/-- The payload of `SendInOffice` does not depend on the value given. -/
theorem payload_inOffice (v : List Nat) :
    payload (Action.SendInOffice v) = jsonField (bytes "inOffice") (bytes "1") := by
  have h : snprintf 100 (bytes "\x7b \"inOffice\": \"1\"\x7d") [] [] =
      jsonField (bytes "inOffice") (bytes "1") := by decide
  exact h

/-! ## The reconnect period -/

/-- A failed attempt from a period of `min (60 * m) 600` seconds, `m ≥ 1`,
leads to `min (60 * (2 * m)) 600` seconds. -/
theorem backoff_min (m : Int) (hm : 1 ≤ m) :
    backoff (min (60 * m) 600) = min (60 * (2 * m)) 600 := by
  unfold backoff AzureIoTDefaultPollPeriodSeconds AzureIoTMinReconnectPeriodSeconds
    AzureIoTMaxReconnectPeriodSeconds
  have h5 : min (60 * m) 600 ≠ 5 := by omega
  rw [if_neg h5]
  split <;> omega

theorem failedAttempts_succ (n : Nat) :
    (failedAttempts (n + 1) azureStart).azureIoTPollPeriodSeconds =
      min (60 * 2 ^ n) 600 := by
  induction n with
  | zero => decide
  | succ k ih =>
    have hp : (1 : Int) ≤ 2 ^ k := by exact_mod_cast Nat.one_le_two_pow
    have hs : (failedAttempts (k + 1 + 1) azureStart).azureIoTPollPeriodSeconds =
        backoff (failedAttempts (k + 1) azureStart).azureIoTPollPeriodSeconds := rfl
    rw [hs, ih, backoff_min _ hp, pow_succ, mul_comm ((2 : Int) ^ k) 2]

theorem failedAttempts_authenticated (n : Nat) :
    (failedAttempts n azureStart).iothubAuthenticated = false := by
  induction n with
  | zero => rfl
  | succ k ih => exact ih

/-! ## Framing after a stray closing brace -/

/-- A closing brace completes a message exactly when the open-count is one
more than the close-count before it. -/
theorem completes_iff (s : State) : completes s ↔ s.matchleft = s.matchright + 1 := by
  unfold completes
  rw [(atClose_fields s).2.2.2.2.2.2.2.2.2.1, (atClose_fields s).2.2.2.2.2.2.2.2.2.2]

/-- A closing brace that does not complete a message. -/
theorem stalled_close (s : State) (h : s.matchleft ≠ s.matchright + 1) :
    (step s 125).2 = [] ∧ (step s 125).1.matchleft = s.matchleft ∧
      (step s 125).1.matchright = s.matchright + 1 := by
  have hc : ¬ completes s := fun hc => h ((completes_iff s).1 hc)
  rw [step_close_of_not_completes s hc]
  exact ⟨rfl, (atClose_fields s).2.2.2.2.2.2.2.2.2.1, (atClose_fields s).2.2.2.2.2.2.2.2.2.2⟩

/-- One message `{ body }` with a brace-free body, read while the close-count
is one ahead of the open-count. -/
theorem stalled_message (s : State) (b : List Nat) (h : s.matchright = s.matchleft + 1)
    (h1 : 123 ∉ b) (h2 : 125 ∉ b) :
    ¬ completes (decode s ([123] ++ b)).1 ∧
    (decode s ([123] ++ b ++ [125])).2 = [] ∧
    (decode s ([123] ++ b ++ [125])).1.matchleft = s.matchleft + 1 ∧
    (decode s ([123] ++ b ++ [125])).1.matchright = s.matchright + 1 := by
  obtain ⟨f1, f2⟩ : (step s 123).1.matchright = s.matchright ∧
      (step s 123).1.matchleft = s.matchleft + 1 := by
    obtain ⟨-, -, -, -, -, -, -, -, -, -, -, -, -, a, b', -⟩ := step_fields_of_ne s 123 (by decide)
    exact ⟨a, by rw [b']; simp⟩
  obtain ⟨k1, k2⟩ := counters_decode b (step s 123).1 h1 h2
  have e0 : decode s ([123] ++ b) = ((decode (step s 123).1 b).1, []) := by
    rw [List.singleton_append, decode_cons, step_snd_of_ne s 123 (by decide),
      decode_snd_of_not_mem b _ h2]
    rfl
  have hm : (decode s ([123] ++ b)).1.matchleft ≠ (decode s ([123] ++ b)).1.matchright + 1 := by
    rw [e0]
    simp only []
    rw [k1, k2, f1, f2]
    omega
  obtain ⟨c1, c2, c3⟩ := stalled_close _ hm
  refine ⟨fun hc => hm ((completes_iff _).1 hc), ?_, ?_, ?_⟩
  · rw [decode_append, e0]
    simp only [decode_cons, decode_nil, List.nil_append, List.append_nil]
    rw [e0] at c1
    exact c1
  · rw [decode_append]
    simp only [decode_cons, decode_nil]
    rw [c2, e0]
    simp only []
    rw [k1, f2]
  · rw [decode_append]
    simp only [decode_cons, decode_nil]
    rw [c3, e0]
    simp only []
    rw [k2, f1]

/-- A sequence of messages with brace-free bodies, read while the close-count
is one ahead of the open-count. -/
theorem stalled_messages (bs : List (List Nat)) :
    ∀ s : State, s.matchright = s.matchleft + 1 → (∀ b ∈ bs, 123 ∉ b ∧ 125 ∉ b) →
      (decode s (messages bs)).2 = [] ∧
      (decode s (messages bs)).1.matchleft = s.matchleft + bs.length ∧
      (decode s (messages bs)).1.matchright = s.matchright + bs.length := by
  induction bs with
  | nil => intro s _ _; exact ⟨rfl, rfl, rfl⟩
  | cons b bs ih =>
    intro s h hb
    obtain ⟨-, a2, a3, a4⟩ := stalled_message s b h (hb b (List.mem_cons_self _ _)).1
      (hb b (List.mem_cons_self _ _)).2
    obtain ⟨i1, i2, i3⟩ := ih (decode s ([123] ++ b ++ [125])).1 (by rw [a3, a4, h])
      (fun x hx => hb x (List.mem_cons_of_mem _ hx))
    have hm : messages (b :: bs) = ([123] ++ b ++ [125]) ++ messages bs := rfl
    rw [hm, decode_append]
    simp only []
    refine ⟨by rw [a2, i1]; rfl, ?_, ?_⟩
    · rw [i2, a3, List.length_cons]; omega
    · rw [i3, a4, List.length_cons]; omega

/-! ## The button latch at a closing brace -/

theorem batteryLatch_button (s : State) (v : Nat) :
    batteryLatch { s with button := v } 125 = { batteryLatch s 125 with button := v } := by
  unfold batteryLatch
  split <;> simp_all

theorem batteryStore_button (s : State) (v : Nat) :
    batteryStore { s with button := v } 125 = { batteryStore s 125 with button := v } := by
  unfold batteryStore
  split <;> simp_all

theorem batteryOpen_button (s : State) (v : Nat) :
    batteryOpen { s with button := v } 125 = { batteryOpen s 125 with button := v } := by
  unfold batteryOpen
  split <;> simp_all

theorem batteryClose_button (s : State) (v : Nat) :
    batteryClose { s with button := v } 125 = { batteryClose s 125 with button := v } := by
  unfold batteryClose
  split <;> simp_all

theorem buttonLatch_button (s : State) (v : Nat) :
    buttonLatch { s with button := v } 125 = { buttonLatch s 125 with button := v } := by
  unfold buttonLatch
  split <;> simp_all

theorem doorLatch_button (s : State) (v : Nat) :
    doorLatch { s with button := v } 125 = { doorLatch s 125 with button := v } := by
  unfold doorLatch
  split <;> simp_all

theorem doorOne_button (s : State) (v : Nat) :
    doorOne { s with button := v } 125 = { doorOne s 125 with button := v } := by
  unfold doorOne
  split <;> simp_all

theorem doorZero_button (s : State) (v : Nat) :
    doorZero { s with button := v } 125 = { doorZero s 125 with button := v } := by
  unfold doorZero
  split <;> simp_all

theorem buttonOne_button (s : State) (v : Nat) :
    buttonOne { s with button := v } 125 = { buttonOne s 125 with button := v } := by
  unfold buttonOne
  split <;> simp_all

theorem buttonZero_button (s : State) (v : Nat) :
    buttonZero { s with button := v } 125 = { buttonZero s 125 with button := v } := by
  unfold buttonZero
  split <;> simp_all

theorem nameMiss_button (s : State) (v : Nat) :
    nameMiss { s with button := v } 125 = { nameMiss s 125 with button := v } := by
  unfold nameMiss
  split <;> simp_all

theorem nameLatch_button (s : State) (v : Nat) :
    nameLatch { s with button := v } 125 = { nameLatch s 125 with button := v } := by
  unfold nameLatch
  split <;> simp_all

theorem nameCommit_button (s : State) (v : Nat) :
    nameCommit { s with button := v } = { nameCommit s with button := v } := by
  unfold nameCommit
  split <;> simp_all

theorem nameStore_button (s : State) (v : Nat) :
    nameStore { s with button := v } 125 = { nameStore s 125 with button := v } := by
  unfold nameStore
  split <;> simp_all

theorem nameOpen_button (s : State) (v : Nat) :
    nameOpen { s with button := v } 125 = { nameOpen s 125 with button := v } := by
  unfold nameOpen
  split <;> simp_all

theorem valueMiss_button (s : State) (v : Nat) :
    valueMiss { s with button := v } 125 = { valueMiss s 125 with button := v } := by
  unfold valueMiss
  split <;> simp_all

theorem valueLatch_button (s : State) (v : Nat) :
    valueLatch { s with button := v } 125 = { valueLatch s 125 with button := v } := by
  unfold valueLatch
  split <;> simp_all

theorem valueCommit_button (s : State) (v : Nat) :
    valueCommit { s with button := v } 125 = { valueCommit s 125 with button := v } := by
  unfold valueCommit
  split <;> simp_all

theorem valueStore_button (s : State) (v : Nat) :
    valueStore { s with button := v } 125 = { valueStore s 125 with button := v } := by
  unfold valueStore
  split <;> simp_all

theorem commaTwo_button (s : State) (v : Nat) :
    commaTwo { s with button := v } 125 = { commaTwo s 125 with button := v } := by
  unfold commaTwo
  split <;> simp_all

theorem commaOne_button (s : State) (v : Nat) :
    commaOne { s with button := v } 125 = { commaOne s 125 with button := v } := by
  unfold commaOne
  split <;> simp_all

theorem evalue1Store_button (s : State) (v : Nat) :
    evalue1Store { s with button := v } 125 = { evalue1Store s 125 with button := v } := by
  unfold evalue1Store
  split <;> simp_all

theorem evalue2Store_button (s : State) (v : Nat) :
    evalue2Store { s with button := v } 125 = { evalue2Store s 125 with button := v } := by
  unfold evalue2Store
  split <;> simp_all

theorem evalue3Store_button (s : State) (v : Nat) :
    evalue3Store { s with button := v } 125 = { evalue3Store s 125 with button := v } := by
  unfold evalue3Store
  split <;> simp_all

theorem valueOpen_button (s : State) (v : Nat) :
    valueOpen { s with button := v } 125 = { valueOpen s 125 with button := v } := by
  unfold valueOpen
  split <;> simp_all

/-- The statements before the `switch` neither read nor write the button latch
when the byte is `'}'`. -/
theorem latch_button_frame (s : State) (v : Nat) :
    latch { s with button := v } 125 = { latch s 125 with button := v } := by
  simp only [latch, batteryPart, buttonPart, namePart, valuePart,
    batteryLatch_button, batteryStore_button, batteryOpen_button, batteryClose_button,
    buttonLatch_button, doorLatch_button, doorOne_button, doorZero_button, buttonOne_button,
    buttonZero_button, nameMiss_button, nameLatch_button, nameCommit_button, nameStore_button,
    nameOpen_button, valueMiss_button, valueLatch_button, valueCommit_button,
    valueStore_button, commaTwo_button, commaOne_button, evalue1Store_button,
    evalue2Store_button, evalue3Store_button, valueOpen_button]

theorem atClose_button (s : State) (v : Nat) :
    atClose { s with button := v } = { atClose s with button := v } := by
  unfold atClose
  rw [latch_button_frame]
  generalize latch s 125 = t
  simp only [closeBrace]

theorem snd_ite {α β : Type} (c : Prop) [Decidable c] (x y : α) (a : β) (r t : α × β)
    (h : r.2 = t.2) : (if c then (x, a) else r).2 = (if c then (y, a) else t).2 := by
  split
  · rfl
  · exact h

/-- The calls of the dispatch chain depend on the fields it reads only. -/
theorem dispatch_snd_congr (s t : State)
    (h : s.name2 = t.name2 ∧ s.value2 = t.value2 ∧ s.door = t.door ∧ s.battery = t.battery ∧
      s.buttondata = t.buttondata ∧ s.batteryvalue = t.batteryvalue ∧
      s.evalue1 = t.evalue1 ∧ s.evalue2 = t.evalue2 ∧ s.evalue3 = t.evalue3) :
    (dispatch s).2 = (dispatch t).2 := by
  obtain ⟨h1, h2, h3, h4, h5, h6, h7, h8, h9⟩ := h
  unfold dispatch
  rw [h1, h2, h3, h4, h5, h6, h7, h8, h9]
  apply snd_ite
  apply snd_ite
  apply snd_ite
  apply snd_ite
  apply snd_ite
  apply snd_ite
  apply snd_ite
  apply snd_ite
  apply snd_ite
  apply snd_ite
  rfl

/-- The dispatch chain does not read the button latch. -/
theorem dispatch_button (s : State) (v : Nat) :
    (dispatch { s with button := v }).2 = (dispatch s).2 :=
  dispatch_snd_congr _ _ ⟨rfl, rfl, rfl, rfl, rfl, rfl, rfl, rfl, rfl⟩

theorem completes_button (s : State) (v : Nat) :
    completes { s with button := v } ↔ completes s := by
  rw [completes_iff, completes_iff]

theorem step_button (s : State) (v : Nat) :
    (step { s with button := v } 125).2 = (step s 125).2 := by
  by_cases hc : completes s
  · have hc' := (completes_button s v).2 hc
    rw [step_close_actions _ hc', step_close_actions _ hc, atClose_button]
    exact dispatch_button _ v
  · have hc' := fun h => hc ((completes_button s v).1 h)
    rw [step_close_of_not_completes _ hc', step_close_of_not_completes _ hc]

/-! ## The claims -/

/-- C1. Round trip of a class-`'4'` message: from the initial state, for all
digits `i1`, `i2`, `i3` and all digit strings `v1`, `v2` of 1 to 2 digits and
`v3` of 1 to 3 digits with `v1` not starting with `'0'`, the bytes of
`{D05 i1 i2 i3 4,eV[ v1 , v2 , v3 ]}` make exactly the three calls
`SendRoomTemperature(v1)`, `SendRoomHumidity(v2)`, `SendRoomPressure(v3)`, in
that order, and no other call. -/
theorem C1_room_roundtrip (i1 i2 i3 : Nat) (v1 v2 v3 : List Nat)
    (hi1 : isDigit i1) (hi2 : isDigit i2) (hi3 : isDigit i3)
    (hv1 : ∀ c ∈ v1, isDigit c) (hv2 : ∀ c ∈ v2, isDigit c) (hv3 : ∀ c ∈ v3, isDigit c)
    (hl1 : 1 ≤ v1.length ∧ v1.length ≤ 2) (hl2 : 1 ≤ v2.length ∧ v2.length ≤ 2)
    (hl3 : 1 ≤ v3.length ∧ v3.length ≤ 3) (h0 : v1.head? ≠ some 48) :
    (decode init (bytes "\x7bD05" ++ [i1, i2, i3] ++ bytes "4,eV[" ++ v1 ++ bytes "," ++
      v2 ++ bytes "," ++ v3 ++ bytes "]\x7d")).2 =
    [Action.SendRoomTemperature v1, Action.SendRoomHumidity v2,
     Action.SendRoomPressure v3] := by
  have hne : v1 ≠ [] := by
    intro h
    rw [h] at hl1
    exact absurd hl1.1 (by decide)
  obtain ⟨a, t, hat⟩ := List.exists_cons_of_ne_nil hne
  have ha : a ≠ 48 := by
    intro h
    apply h0
    rw [hat, h]
    rfl
  have nz : ∀ v : List Nat, (∀ c ∈ v, isDigit c) → ∀ c ∈ v, c ≠ 0 := by
    intro v hv c hc
    have hd := hv c hc
    unfold isDigit at hd
    omega
  have hl : bytes "\x7bD05" ++ [i1, i2, i3] ++ bytes "4,eV[" ++ v1 ++ bytes "," ++
      v2 ++ bytes "," ++ v3 ++ bytes "]\x7d" =
      ([123, 68, 48, 53] ++ [i1, i2, i3, 52, 44] ++ [101, 86, 91] ++
        (v1 ++ [44] ++ v2 ++ [44] ++ v3 ++ [93])) ++ [125] := by
    have e1 : bytes "\x7bD05" = [123, 68, 48, 53] := by decide
    have e2 : bytes "4,eV[" = [52, 44, 101, 86, 91] := by decide
    have e3 : bytes "," = [44] := by decide
    have e4 : bytes "]\x7d" = [93, 125] := by decide
    rw [e1, e2, e3, e4]
    simp only [List.append_assoc, List.cons_append, List.nil_append]
  rw [hat] at hv1
  obtain ⟨p1, p2, p3, p4, p5, p6, p7, p8⟩ :=
    room_before_close i1 i2 i3 a t v2 v3 hi1 hi2 hi3 hv1 hv2 hv3
  rw [← hat] at hv1 p1 p2 p3 p4 p5 p6 p7 p8
  rw [hl, decode_append, p1]
  simp only [decode_cons, decode_nil, List.nil_append, List.append_nil]
  rw [step_close_actions _ p2]
  rw [fill_two_short v1 hl1.2] at p6
  rw [fill_two_short v2 hl2.2] at p7
  rw [fill_three_short v3 hl3.2] at p8
  unfold dispatch
  rw [if_neg (fun h => absurd (p3 ▸ h.1) (by decide)),
    if_neg (fun h => absurd (p3 ▸ h.1) (by decide)),
    if_neg (fun h => absurd (p3 ▸ h) (by decide)),
    if_pos ⟨p3, p4 ▸ ha, p5⟩, p6, p7, p8,
    cstr_append_zeros v1 _ (nz v1 hv1), cstr_append_zeros v2 _ (nz v2 hv2),
    cstr_append_zeros v3 _ (nz v3 hv3)]

/-- Witness of C1: `{D051234,eV[12,45,990]}` publishes the room temperature
`12`, humidity `45` and pressure `990`. -/
theorem C1_room_roundtrip_witness :
    (decode init (bytes "\x7bD05" ++ [49, 50, 51] ++ bytes "4,eV[" ++ bytes "12" ++
      bytes "," ++ bytes "45" ++ bytes "," ++ bytes "990" ++ bytes "]\x7d")).2 =
      [Action.SendRoomTemperature (bytes "12"), Action.SendRoomHumidity (bytes "45"),
       Action.SendRoomPressure (bytes "990")] ∧
    bytes "\x7bD05" ++ [49, 50, 51] ++ bytes "4,eV[" ++ bytes "12" ++
      bytes "," ++ bytes "45" ++ bytes "," ++ bytes "990" ++ bytes "]\x7d" = roomMessage :=
  ⟨C1_room_roundtrip 49 50 51 (bytes "12") (bytes "45") (bytes "990") (by decide)
      (by decide) (by decide) (by decide) (by decide) (by decide) (by decide) (by decide)
      (by decide) (by decide),
    by decide⟩

/-- C2. Chunk-boundary independence: for every decoder state `s` and all byte
sequences `xs` and `ys` (either may be empty), decoding `xs` from `s` and then
`ys` from the state reached makes the same calls, in the same order, and ends
in the same state as decoding `xs ++ ys` from `s` in one pass. -/
theorem C2_chunk_boundary_independence (s : State) (xs ys : List Nat) :
    (decode s (xs ++ ys)).2 = (decode s xs).2 ++ (decode (decode s xs).1 ys).2 ∧
    (decode s (xs ++ ys)).1 = (decode (decode s xs).1 ys).1 := by
  rw [decode_append]
  exact ⟨rfl, rfl⟩

/-- C3 (the code at the failing input). Decoded alone from the initial state,
`{D051234,eV[5,6,7]}` publishes the sub-values `5`, `6`, `7`; decoded right
after `{D051234,eV[12,45,990]}` it publishes `52`, `65`, `790`: the bytes the
first message left in `evalue1`, `evalue2`, `evalue3` are still there, because
the reset of lines 533-554 clears the three cursors but not the three buffers. -/
theorem C3_subvalues_leak :
    (decode init shortMessage).2 =
      [Action.SendRoomTemperature (bytes "5"), Action.SendRoomHumidity (bytes "6"),
       Action.SendRoomPressure (bytes "7")] ∧
    (decode (decode init roomMessage).1 shortMessage).2 =
      [Action.SendRoomTemperature (bytes "52"), Action.SendRoomHumidity (bytes "65"),
       Action.SendRoomPressure (bytes "790")] ∧
    (decode init (roomMessage ++ shortMessage)).2 =
      [Action.SendRoomTemperature (bytes "12"), Action.SendRoomHumidity (bytes "45"),
       Action.SendRoomPressure (bytes "990"),
       Action.SendRoomTemperature (bytes "52"), Action.SendRoomHumidity (bytes "65"),
       Action.SendRoomPressure (bytes "790")] := by
  decide!

/-- C4. Gate: whenever a `'}'` completes a message and the first character of
the captured bracket value, `value2[0]`, is `'0'`, no call is made, whatever
the node-class character, the battery flag and the door flag are. -/
theorem C4_gate_blocks_publish (s : State) (hc : completes s)
    (h0 : (atClose s).value2.getD 0 0 = 48) :
    (step s 125).2 = [] := by
  rw [step_close_actions s hc]
  simp only [dispatch, ne_eq, h0]
  simp
  split <;> rfl

/-- Witness of C4: `{D051234,eV[02,45,990]}` decoded from the initial state;
its closing brace completes the message, `value2[0]` is `'0'`, and nothing is
published, neither by that byte nor by the whole message. -/
theorem C4_gate_blocks_publish_witness :
    completes gateState ∧ (atClose gateState).value2.getD 0 0 = 48 ∧
    (step gateState 125).2 = [] ∧
    (decode init (bytes "\x7bD051234,eV[02,45,990]\x7d")).2 = [] :=
  ⟨by decide!, by decide!, C4_gate_blocks_publish gateState (by decide!) (by decide!),
    by decide!⟩

/-- C5. Door before battery: whenever a `'}'` completes a message whose
node-class character `name2[3]` is `'8'`, whose gate passes
(`value2[0] != '0'`) and in which both the door latch and the battery flag are
set, exactly one call is made, `SendDoorState` with the door/button value
`buttondata`; `SendDoorBattery` is not called. -/
theorem C5_door_before_battery (s : State) (hc : completes s)
    (hn : (atClose s).name2.getD 3 0 = 56)
    (hg : (atClose s).value2.getD 0 0 ≠ 48)
    (hd : (atClose s).door = 1) (_hb : (atClose s).battery = 1) :
    (step s 125).2 = [Action.SendDoorState (cstr (atClose s).buttondata)] := by
  rw [step_close_actions s hc]
  simp only [dispatch, ne_eq, hn, hg, hd]
  simp

/-- Witness of C5: the state reached by `{D051238,eV[1]St1ba:9` from the
initial state has both latches set; the closing brace publishes the door state
`"1"` only. -/
theorem C5_door_before_battery_witness :
    completes doorBatteryState ∧
    (atClose doorBatteryState).name2.getD 3 0 = 56 ∧
    (atClose doorBatteryState).value2.getD 0 0 ≠ 48 ∧
    (atClose doorBatteryState).door = 1 ∧ (atClose doorBatteryState).battery = 1 ∧
    (step doorBatteryState 125).2 =
      [Action.SendDoorState (cstr (atClose doorBatteryState).buttondata)] ∧
    cstr (atClose doorBatteryState).buttondata = bytes "1" :=
  ⟨by decide!, by decide!, by decide!, by decide!, by decide!,
    C5_door_before_battery doorBatteryState (by decide!) (by decide!) (by decide!)
      (by decide!) (by decide!),
    by decide!⟩

/-- C6, as amended. Truncation of over-long sub-values: starting from an empty
sub-value buffer with its cursor at `0` and bracket capture active, for every
byte string `w` free of commas, brackets and `'}'` fed as the first segment,
`evalue1` holds exactly the first `min |w| 2` bytes of `w` (the rest of the
5-byte buffer is still zero) and its cursor equals `|w|`; likewise the second
segment is kept to its first 2 bytes in `evalue2` and the third to its first 3
bytes in `evalue3`. -/
theorem C6_truncation (s : State) (w : List Nat) (hr : s.recordstart = true)
    (hw : ∀ c ∈ w, c ≠ 44 ∧ c ≠ 91 ∧ c ≠ 93 ∧ c ≠ 125) :
    (s.got1 = 0 → s.got2 = 0 → s.evalue1 = List.replicate 5 0 → s.evalue1start = 0 →
      (decode s w).1.evalue1 = w.take 2 ++ List.replicate (5 - min w.length 2) 0 ∧
      (decode s w).1.evalue1start = w.length) ∧
    (s.got1 = 1 → s.got2 = 0 → s.evalue2 = List.replicate 5 0 → s.evalue2start = 0 →
      (decode s w).1.evalue2 = w.take 2 ++ List.replicate (5 - min w.length 2) 0 ∧
      (decode s w).1.evalue2start = w.length) ∧
    (s.got1 = 1 → s.got2 = 1 → s.evalue3 = List.replicate 5 0 → s.evalue3start = 0 →
      (decode s w).1.evalue3 = w.take 3 ++ List.replicate (5 - min w.length 3) 0 ∧
      (decode s w).1.evalue3start = w.length) := by
  have h := subValues_decode w s hr (fun c hc => ⟨(hw c hc).1, (hw c hc).2.2.1, (hw c hc).2.2.2⟩)
  refine ⟨fun g1 g2 hb hk => ?_, fun g1 g2 hb hk => ?_, fun g1 g2 hb hk => ?_⟩
  · rw [if_pos ⟨g1, g2⟩] at h
    have a := congrArg SubValues.evalue1 h
    have b := congrArg SubValues.evalue1start h
    simp only [subValues] at a b
    rw [a, b, hb, hk, fill_two, Nat.zero_add]
    exact ⟨rfl, rfl⟩
  · rw [if_neg (by omega), if_pos ⟨g1, g2⟩] at h
    have a := congrArg SubValues.evalue2 h
    have b := congrArg SubValues.evalue2start h
    simp only [subValues] at a b
    rw [a, b, hb, hk, fill_two, Nat.zero_add]
    exact ⟨rfl, rfl⟩
  · rw [if_neg (by omega), if_neg (by omega), if_pos ⟨g1, g2⟩] at h
    have a := congrArg SubValues.evalue3 h
    have b := congrArg SubValues.evalue3start h
    simp only [subValues] at a b
    rw [a, b, hb, hk, fill_three, Nat.zero_add]
    exact ⟨rfl, rfl⟩

/-- Witness of C6: after `{D051234,eV[` the first sub-value `12345` is stored as
`12` with the cursor at `5`; after `{D051234,eV[1,` the second sub-value `678`
is stored as `67`; after `{D051234,eV[1,2,` the third sub-value `98765` is
stored as `987`. -/
theorem C6_truncation_witness :
    ((decode bracketOpenState (bytes "12345")).1.evalue1 =
        (bytes "12345").take 2 ++ List.replicate (5 - min (bytes "12345").length 2) 0 ∧
      (decode bracketOpenState (bytes "12345")).1.evalue1start = (bytes "12345").length) ∧
    cstr (decode bracketOpenState (bytes "12345")).1.evalue1 = bytes "12" ∧
    ((decode (decode bracketOpenState (bytes "1,")).1 (bytes "678")).1.evalue2 =
        (bytes "678").take 2 ++ List.replicate (5 - min (bytes "678").length 2) 0 ∧
      (decode (decode bracketOpenState (bytes "1,")).1 (bytes "678")).1.evalue2start =
        (bytes "678").length) ∧
    ((decode (decode bracketOpenState (bytes "1,2,")).1 (bytes "98765")).1.evalue3 =
        (bytes "98765").take 3 ++ List.replicate (5 - min (bytes "98765").length 3) 0 ∧
      (decode (decode bracketOpenState (bytes "1,2,")).1 (bytes "98765")).1.evalue3start =
        (bytes "98765").length) :=
  ⟨(C6_truncation bracketOpenState (bytes "12345") (by decide!) (by decide!)).1
      (by decide!) (by decide!) (by decide!) (by decide!),
    by decide!,
    (C6_truncation (decode bracketOpenState (bytes "1,")).1 (bytes "678") (by decide!)
      (by decide!)).2.1 (by decide!) (by decide!) (by decide!) (by decide!),
    (C6_truncation (decode bracketOpenState (bytes "1,2,")).1 (bytes "98765") (by decide!)
      (by decide!)).2.2 (by decide!) (by decide!) (by decide!) (by decide!)⟩

/-- Counterexample to C6 as stated: after `{D051234,eV[` the sub-value buffers
are empty, the cursors are `0` and bracket capture is active; the byte string
`12}` has no comma and no bracket, yet after it the cursor of the first
sub-value is `0`, not `3`: the `'}'` completes the message and the cursors are
reset. -/
theorem C6_counterexample :
    bracketOpenState.recordstart = true ∧
    bracketOpenState.got1 = 0 ∧ bracketOpenState.got2 = 0 ∧
    bracketOpenState.evalue1 = List.replicate 5 0 ∧
    bracketOpenState.evalue2 = List.replicate 5 0 ∧
    bracketOpenState.evalue3 = List.replicate 5 0 ∧
    bracketOpenState.evalue1start = 0 ∧ bracketOpenState.evalue2start = 0 ∧
    bracketOpenState.evalue3start = 0 ∧
    (∀ c ∈ bytes "12\x7d", c ≠ 44 ∧ c ≠ 91 ∧ c ≠ 93) ∧
    ¬ ((decode bracketOpenState (bytes "12\x7d")).1.evalue1 =
          (bytes "12\x7d").take 2 ++
            List.replicate (5 - min (bytes "12\x7d").length 2) 0 ∧
        (decode bracketOpenState (bytes "12\x7d")).1.evalue1start =
          (bytes "12\x7d").length) := by
  decide!

/-- C7. Telemetry rows: whenever a `'}'` completes a message with the gate
passing (`value2[0] != '0'`) and the battery flag `0`, node class `'4'` makes
exactly the calls `SendRoomTemperature(evalue1)`, `SendRoomHumidity(evalue2)`,
`SendRoomPressure(evalue3)` in that order, node class `'3'` the three
`SendServer...` calls and node class `'6'` the three `SendOutside...` calls
with the same three sub-values, and nothing else. -/
theorem C7_telemetry_rows (s : State) (hc : completes s)
    (hg : (atClose s).value2.getD 0 0 ≠ 48) (hb : (atClose s).battery = 0) :
    ((atClose s).name2.getD 3 0 = 52 →
      (step s 125).2 =
        [Action.SendRoomTemperature (cstr (atClose s).evalue1),
         Action.SendRoomHumidity (cstr (atClose s).evalue2),
         Action.SendRoomPressure (cstr (atClose s).evalue3)]) ∧
    ((atClose s).name2.getD 3 0 = 51 →
      (step s 125).2 =
        [Action.SendServerTemperature (cstr (atClose s).evalue1),
         Action.SendServerHumidity (cstr (atClose s).evalue2),
         Action.SendServerPressure (cstr (atClose s).evalue3)]) ∧
    ((atClose s).name2.getD 3 0 = 54 →
      (step s 125).2 =
        [Action.SendOutsideTemperature (cstr (atClose s).evalue1),
         Action.SendOutsideHumidity (cstr (atClose s).evalue2),
         Action.SendOutsidePressure (cstr (atClose s).evalue3)]) := by
  rw [step_close_actions s hc]
  refine ⟨fun hn => ?_, fun hn => ?_, fun hn => ?_⟩ <;>
    (simp only [dispatch, ne_eq, hn, hg, hb]; simp)

/-- Witness of C7: the messages `{D05123c,eV[12,45,990]}` for `c` = `'4'`,
`'3'`, `'6'`, each up to its closing brace. -/
theorem C7_telemetry_rows_witness :
    (completes (telemetryState 52) ∧ (atClose (telemetryState 52)).value2.getD 0 0 ≠ 48 ∧
      (atClose (telemetryState 52)).battery = 0 ∧
      (atClose (telemetryState 52)).name2.getD 3 0 = 52 ∧
      (step (telemetryState 52) 125).2 =
        [Action.SendRoomTemperature (cstr (atClose (telemetryState 52)).evalue1),
         Action.SendRoomHumidity (cstr (atClose (telemetryState 52)).evalue2),
         Action.SendRoomPressure (cstr (atClose (telemetryState 52)).evalue3)]) ∧
    (completes (telemetryState 51) ∧ (atClose (telemetryState 51)).value2.getD 0 0 ≠ 48 ∧
      (atClose (telemetryState 51)).battery = 0 ∧
      (atClose (telemetryState 51)).name2.getD 3 0 = 51 ∧
      (step (telemetryState 51) 125).2 =
        [Action.SendServerTemperature (cstr (atClose (telemetryState 51)).evalue1),
         Action.SendServerHumidity (cstr (atClose (telemetryState 51)).evalue2),
         Action.SendServerPressure (cstr (atClose (telemetryState 51)).evalue3)]) ∧
    (completes (telemetryState 54) ∧ (atClose (telemetryState 54)).value2.getD 0 0 ≠ 48 ∧
      (atClose (telemetryState 54)).battery = 0 ∧
      (atClose (telemetryState 54)).name2.getD 3 0 = 54 ∧
      (step (telemetryState 54) 125).2 =
        [Action.SendOutsideTemperature (cstr (atClose (telemetryState 54)).evalue1),
         Action.SendOutsideHumidity (cstr (atClose (telemetryState 54)).evalue2),
         Action.SendOutsidePressure (cstr (atClose (telemetryState 54)).evalue3)]) :=
  ⟨⟨by decide!, by decide!, by decide!, by decide!,
      (C7_telemetry_rows (telemetryState 52) (by decide!) (by decide!) (by decide!)).1
        (by decide!)⟩,
    ⟨by decide!, by decide!, by decide!, by decide!,
      (C7_telemetry_rows (telemetryState 51) (by decide!) (by decide!) (by decide!)).2.1
        (by decide!)⟩,
    ⟨by decide!, by decide!, by decide!, by decide!,
      (C7_telemetry_rows (telemetryState 54) (by decide!) (by decide!) (by decide!)).2.2
        (by decide!)⟩⟩

/-- C8. Battery rows: whenever a `'}'` completes a message with the gate
passing and the battery flag set, node class `'6'` makes exactly the call
`SendOutsideBattery(batteryvalue)`, `'3'` exactly `SendServerBattery`, `'4'`
exactly `SendRoomBattery`, `'8'` with the door latch not set exactly
`SendDoorBattery`, and `'2'` exactly `SendTrackerBattery(batteryvalue)`
followed by `SendInOffice(evalue1)`; no temperature, humidity or pressure call
is made in any of these cases. -/
theorem C8_battery_rows (s : State) (hc : completes s)
    (hg : (atClose s).value2.getD 0 0 ≠ 48) (hb : (atClose s).battery = 1) :
    ((atClose s).name2.getD 3 0 = 54 →
      (step s 125).2 = [Action.SendOutsideBattery (cstr (atClose s).batteryvalue)]) ∧
    ((atClose s).name2.getD 3 0 = 51 →
      (step s 125).2 = [Action.SendServerBattery (cstr (atClose s).batteryvalue)]) ∧
    ((atClose s).name2.getD 3 0 = 52 →
      (step s 125).2 = [Action.SendRoomBattery (cstr (atClose s).batteryvalue)]) ∧
    ((atClose s).name2.getD 3 0 = 56 → (atClose s).door ≠ 1 →
      (step s 125).2 = [Action.SendDoorBattery (cstr (atClose s).batteryvalue)]) ∧
    ((atClose s).name2.getD 3 0 = 50 →
      (step s 125).2 =
        [Action.SendTrackerBattery (cstr (atClose s).batteryvalue),
         Action.SendInOffice (cstr (atClose s).evalue1)]) := by
  rw [step_close_actions s hc]
  refine ⟨fun hn => ?_, fun hn => ?_, fun hn => ?_, fun hn hd => ?_, fun hn => ?_⟩ <;>
    (simp only [dispatch, ne_eq, hn, hg, hb]; simp [*])

/-- Witness of C8: the battery messages `{D05123c,eV[1]ba:3.1}` for `c` =
`'6'`, `'3'`, `'4'`, `'8'`, `'2'`, each up to its closing brace; the battery
value is `3.1`. -/
theorem C8_battery_rows_witness :
    (∀ c ∈ [54, 51, 52, 56, 50],
      completes (batteryState c) ∧ (atClose (batteryState c)).value2.getD 0 0 ≠ 48 ∧
      (atClose (batteryState c)).battery = 1 ∧ (atClose (batteryState c)).name2.getD 3 0 = c ∧
      (atClose (batteryState c)).door ≠ 1 ∧
      cstr (atClose (batteryState c)).batteryvalue = bytes "3.1") ∧
    (step (batteryState 54) 125).2 =
      [Action.SendOutsideBattery (cstr (atClose (batteryState 54)).batteryvalue)] ∧
    (step (batteryState 51) 125).2 =
      [Action.SendServerBattery (cstr (atClose (batteryState 51)).batteryvalue)] ∧
    (step (batteryState 52) 125).2 =
      [Action.SendRoomBattery (cstr (atClose (batteryState 52)).batteryvalue)] ∧
    (step (batteryState 56) 125).2 =
      [Action.SendDoorBattery (cstr (atClose (batteryState 56)).batteryvalue)] ∧
    (step (batteryState 50) 125).2 =
      [Action.SendTrackerBattery (cstr (atClose (batteryState 50)).batteryvalue),
       Action.SendInOffice (cstr (atClose (batteryState 50)).evalue1)] :=
  ⟨by decide!,
    (C8_battery_rows (batteryState 54) (by decide!) (by decide!) (by decide!)).1
      (by decide!),
    (C8_battery_rows (batteryState 51) (by decide!) (by decide!) (by decide!)).2.1
      (by decide!),
    (C8_battery_rows (batteryState 52) (by decide!) (by decide!) (by decide!)).2.2.1
      (by decide!),
    (C8_battery_rows (batteryState 56) (by decide!) (by decide!) (by decide!)).2.2.2.1
      (by decide!) (by decide!),
    (C8_battery_rows (batteryState 50) (by decide!) (by decide!) (by decide!)).2.2.2.2
      (by decide!)⟩

/-- C9. No-publish rows: whenever a `'}'` completes a message, no call is made
when (a) the node-class character is `'8'` and either the gate fails or neither
the door latch nor the battery flag is set, (b) the node-class character is
`'2'` and the battery flag is not set, or (c) the node-class character is none
of `'2'`, `'3'`, `'4'`, `'6'`, `'8'`. -/
theorem C9_no_publish_rows (s : State) (hc : completes s) :
    ((atClose s).name2.getD 3 0 = 56 →
      ((atClose s).value2.getD 0 0 = 48 ∨
        ((atClose s).door ≠ 1 ∧ (atClose s).battery ≠ 1)) →
      (step s 125).2 = []) ∧
    ((atClose s).name2.getD 3 0 = 50 → (atClose s).battery ≠ 1 →
      (step s 125).2 = []) ∧
    ((atClose s).name2.getD 3 0 ≠ 50 → (atClose s).name2.getD 3 0 ≠ 51 →
      (atClose s).name2.getD 3 0 ≠ 52 → (atClose s).name2.getD 3 0 ≠ 54 →
      (atClose s).name2.getD 3 0 ≠ 56 →
      (step s 125).2 = []) := by
  rw [step_close_actions s hc]
  refine ⟨fun hn h => ?_, fun hn hb => ?_, fun h2 h3 h4 h6 h8 => ?_⟩
  · rcases h with h | ⟨hd, hb⟩
    · simp only [dispatch, ne_eq, hn, h]; simp
    · simp only [dispatch, ne_eq, hn, hd, hb]; simp
  · simp only [dispatch, ne_eq, hn, hb]; simp
  · simp only [dispatch, ne_eq, h2, h3, h4, h6, h8]; simp

/-- Witness of C9: (a) a class-`'8'` message whose value starts with `'0'` and
one with no latch set, (b) a class-`'2'` telemetry message, (c) a class-`'7'`
telemetry message; none publishes anything. -/
theorem C9_no_publish_rows_witness :
    (step (decode init (bytes "\x7bD051238,eV[0]St1")).1 125).2 = [] ∧
    (step (telemetryState 56) 125).2 = [] ∧
    (step (telemetryState 50) 125).2 = [] ∧
    (step (telemetryState 55) 125).2 = [] :=
  ⟨(C9_no_publish_rows (decode init (bytes "\x7bD051238,eV[0]St1")).1 (by decide!)).1
      (by decide!) (Or.inl (by decide!)),
    (C9_no_publish_rows (telemetryState 56) (by decide!)).1
      (by decide!) (Or.inr (by decide!)),
    (C9_no_publish_rows (telemetryState 50) (by decide!)).2.1 (by decide!) (by decide!),
    (C9_no_publish_rows (telemetryState 55) (by decide!)).2.2 (by decide!) (by decide!)
      (by decide!) (by decide!) (by decide!)⟩

/-- C10, as amended. Reset on completion: for every decoder state and every
`'}'` byte that makes the open-count equal to the close-count, after that byte
the latches and flags `e`, `D`, `S`, `battery`, `door`, `button` and
`recordbatteryvalue`, the battery buffer, the node-identifier buffer `name2`,
the raw message buffer and the open and close counters are at their initial
values. -/
theorem C10_reset_on_completion (s : State) (hc : completes s) :
    (step s 125).1.e = init.e ∧ (step s 125).1.D = init.D ∧
    (step s 125).1.S = init.S ∧ (step s 125).1.battery = init.battery ∧
    (step s 125).1.door = init.door ∧ (step s 125).1.button = init.button ∧
    (step s 125).1.recordbatteryvalue = init.recordbatteryvalue ∧
    (step s 125).1.batteryvalue = init.batteryvalue ∧
    (step s 125).1.name2 = init.name2 ∧
    (step s 125).1.message = init.message ∧
    (step s 125).1.matchleft = init.matchleft ∧
    (step s 125).1.matchright = init.matchright := by
  rw [step_close_state s hc]
  simp only [resetMessage, init]
  refine ⟨?_, ?_, trivial, trivial, trivial, trivial, trivial, trivial, trivial, trivial,
    trivial, trivial⟩
  · rw [(dispatch_e_D _).1, (atClose_e_D s).1]
    exact latch_e s 125
  · rw [(dispatch_e_D _).2, (atClose_e_D s).2]
    exact latch_D s 125

/-- Witness of C10: the closing brace of `{D051238,eV[1]St1ba:9}`, a message
that sets the door latch, the battery flag and the battery buffer. -/
theorem C10_reset_on_completion_witness :
    completes doorBatteryState ∧
    doorBatteryState.door = 1 ∧ doorBatteryState.battery = 1 ∧
    doorBatteryState.batteryvalue ≠ init.batteryvalue ∧
    (step doorBatteryState 125).1.e = init.e ∧ (step doorBatteryState 125).1.D = init.D ∧
    (step doorBatteryState 125).1.S = init.S ∧
    (step doorBatteryState 125).1.battery = init.battery ∧
    (step doorBatteryState 125).1.door = init.door ∧
    (step doorBatteryState 125).1.button = init.button ∧
    (step doorBatteryState 125).1.recordbatteryvalue = init.recordbatteryvalue ∧
    (step doorBatteryState 125).1.batteryvalue = init.batteryvalue ∧
    (step doorBatteryState 125).1.name2 = init.name2 ∧
    (step doorBatteryState 125).1.message = init.message ∧
    (step doorBatteryState 125).1.matchleft = init.matchleft ∧
    (step doorBatteryState 125).1.matchright = init.matchright :=
  ⟨by decide!, by decide!, by decide!, by decide!,
    C10_reset_on_completion doorBatteryState (by decide!)⟩

/-- Counterexample to C10 as stated: the closing brace of each message below
makes the open-count equal to the close-count, and afterwards `b` (after
`{b}`), `gotobracket` (after `{eV}`), `gotoname` (after `{D0}`), `recordstart`
(after `{eV[}`), `recordnamestart` (after `{D05}`) and the three sub-value
buffers (after `{D051234,eV[12,45,990]}`) are not at their initial values. -/
theorem C10_counterexample :
    (completes (decode init (bytes "\x7bb")).1 ∧
      (decode init (bytes "\x7bb\x7d")).1.b ≠ init.b) ∧
    (completes (decode init (bytes "\x7beV")).1 ∧
      (decode init (bytes "\x7beV\x7d")).1.gotobracket ≠ init.gotobracket) ∧
    (completes (decode init (bytes "\x7bD0")).1 ∧
      (decode init (bytes "\x7bD0\x7d")).1.gotoname ≠ init.gotoname) ∧
    (completes (decode init (bytes "\x7beV[")).1 ∧
      (decode init (bytes "\x7beV[\x7d")).1.recordstart ≠ init.recordstart) ∧
    (completes (decode init (bytes "\x7bD05")).1 ∧
      (decode init (bytes "\x7bD05\x7d")).1.recordnamestart ≠ init.recordnamestart) ∧
    (completes (decode init (bytes "\x7bD051234,eV[12,45,990]")).1 ∧
      (decode init roomMessage).1.evalue1 ≠ init.evalue1 ∧
      (decode init roomMessage).1.evalue2 ≠ init.evalue2 ∧
      (decode init roomMessage).1.evalue3 ≠ init.evalue3) := by
  decide!

/-- C11, as amended. Positional sub-value segmentation: starting from empty
sub-value buffers, cleared comma counters and cursors and bracket capture
active, for all byte strings `x`, `y` of at most 2 bytes and `z` of at most 3
bytes that contain no comma, no `']'` and no `'}'`, feeding `x , y , z` leaves
`evalue1 = x`, `evalue2 = y`, `evalue3 = z` (zero-padded to the 5 bytes of each
buffer); for every state and every input no comma is ever stored in `evalue1`,
`evalue2` or `evalue3`; and once both commas have been seen a further comma
changes none of the sub-value fields, so the bytes after it go on filling
`evalue3`. -/
theorem C11_subvalue_segmentation (s : State) (x y z : List Nat)
    (hr : s.recordstart = true) (g1 : s.got1 = 0) (g2 : s.got2 = 0)
    (hb : s.evalue1 = List.replicate 5 0 ∧ s.evalue2 = List.replicate 5 0 ∧
      s.evalue3 = List.replicate 5 0)
    (hk : s.evalue1start = 0 ∧ s.evalue2start = 0 ∧ s.evalue3start = 0)
    (hx : ∀ c ∈ x, c ≠ 44 ∧ c ≠ 93 ∧ c ≠ 125) (hy : ∀ c ∈ y, c ≠ 44 ∧ c ≠ 93 ∧ c ≠ 125)
    (hz : ∀ c ∈ z, c ≠ 44 ∧ c ≠ 93 ∧ c ≠ 125)
    (lx : x.length ≤ 2) (ly : y.length ≤ 2) (lz : z.length ≤ 3) :
    ((decode s (x ++ [44] ++ y ++ [44] ++ z)).1.evalue1 = x ++ List.replicate (5 - x.length) 0 ∧
      (decode s (x ++ [44] ++ y ++ [44] ++ z)).1.evalue2 =
        y ++ List.replicate (5 - y.length) 0 ∧
      (decode s (x ++ [44] ++ y ++ [44] ++ z)).1.evalue3 =
        z ++ List.replicate (5 - z.length) 0) ∧
    (∀ (t : State) (w : List Nat), 44 ∉ t.evalue1 ∧ 44 ∉ t.evalue2 ∧ 44 ∉ t.evalue3 →
      44 ∉ (decode t w).1.evalue1 ∧ 44 ∉ (decode t w).1.evalue2 ∧
        44 ∉ (decode t w).1.evalue3) ∧
    (∀ t : State, t.recordstart = true → t.got1 = 1 → t.got2 = 1 →
      subValues (step t 44).1 = subValues t) := by
  refine ⟨?_, fun t w h => no_comma_decode w t h, ?_⟩
  · have h := subValues_segments s x y z hr g1 g2 hx hy hz
    have a := congrArg SubValues.evalue1 h
    have b := congrArg SubValues.evalue2 h
    have d := congrArg SubValues.evalue3 h
    simp only [subValues] at a b d
    rw [a, b, d, hb.1, hb.2.1, hb.2.2, hk.1, hk.2.1, hk.2.2, fill_two_short x lx,
      fill_two_short y ly, fill_three_short z lz]
    exact ⟨rfl, rfl, rfl⟩
  · intro t hr1 h1 h2
    rw [subValues_step_comma t hr1, h1, h2]
    simp only [Nat.one_ne_zero, if_false, if_true]
    simp only [subValues, h1, h2]

/-- Witness of C11: after `{D051234,eV[` the bytes `12,45,990` leave `12`,
`45` and `990` in the three sub-value buffers. -/
theorem C11_subvalue_segmentation_witness :
    (decode bracketOpenState (bytes "12" ++ [44] ++ bytes "45" ++ [44] ++
        bytes "990")).1.evalue1 = bytes "12" ++ List.replicate (5 - (bytes "12").length) 0 ∧
    (decode bracketOpenState (bytes "12" ++ [44] ++ bytes "45" ++ [44] ++
        bytes "990")).1.evalue2 = bytes "45" ++ List.replicate (5 - (bytes "45").length) 0 ∧
    (decode bracketOpenState (bytes "12" ++ [44] ++ bytes "45" ++ [44] ++
        bytes "990")).1.evalue3 = bytes "990" ++ List.replicate (5 - (bytes "990").length) 0 :=
  (C11_subvalue_segmentation bracketOpenState (bytes "12") (bytes "45") (bytes "990")
    (by decide!) (by decide!) (by decide!) (by decide!) (by decide!) (by decide) (by decide)
    (by decide) (by decide) (by decide) (by decide)).1

/-- Counterexample to C11 as stated: after `{D051234,eV[` the sub-value buffers
are empty, the comma counters are clear and the bracket capture is active;
`x = 1`, `y = }`, `z = 3` have no comma and no `']'` and are short enough, yet
after `1,},3` the third sub-value buffer is still empty and the second holds
`3`: the `'}'` completed the message and cleared the comma counters. -/
theorem C11_counterexample :
    bracketOpenState.recordstart = true ∧
    bracketOpenState.got1 = 0 ∧ bracketOpenState.got2 = 0 ∧
    bracketOpenState.evalue1 = List.replicate 5 0 ∧
    bracketOpenState.evalue2 = List.replicate 5 0 ∧
    bracketOpenState.evalue3 = List.replicate 5 0 ∧
    bracketOpenState.evalue1start = 0 ∧ bracketOpenState.evalue2start = 0 ∧
    bracketOpenState.evalue3start = 0 ∧
    (∀ c ∈ bytes "1" ++ bytes "\x7d" ++ bytes "3", c ≠ 44 ∧ c ≠ 93) ∧
    (decode bracketOpenState (bytes "1" ++ [44] ++ bytes "\x7d" ++ [44] ++
      bytes "3")).1.evalue2 = bytes "3" ++ List.replicate 4 0 ∧
    (decode bracketOpenState (bytes "1" ++ [44] ++ bytes "\x7d" ++ [44] ++
      bytes "3")).1.evalue3 = List.replicate 5 0 := by
  decide!

/-- C12. Node-identifier capture: from the initial state, for every byte string
`w` without a `'5'` and all bytes `c1`, `c2`, `c3`, `c4` and `c5` with `c5`
not `'}'`, after `D0`, `w`, `5`, `c1 c2 c3 c4 c5` the buffer `name2` used for
routing holds exactly `c1 c2 c3 c4` (so `name2[3]` is `c4`); the `'5'` is not
captured and the capture stops after four bytes. -/
theorem C12_identifier_capture (w : List Nat) (c1 c2 c3 c4 c5 : Nat)
    (hw : 53 ∉ w) (h5 : c5 ≠ 125) :
    (decode init (bytes "D0" ++ w ++ [53] ++ [c1, c2, c3, c4, c5])).1.name2 =
      [c1, c2, c3, c4] ++ List.replicate 16 0 ∧
    (decode init (bytes "D0" ++ w ++ [53] ++ [c1, c2, c3, c4, c5])).1.name2.getD 3 0 = c4 := by
  have h0 : (decode init (bytes "D0")).1.gotoname = true ∧
      (decode init (bytes "D0")).1.recordnamestart = false ∧
      (decode init (bytes "D0")).1.namestart = 0 ∧
      (decode init (bytes "D0")).1.name = List.replicate 100 0 ∧
      (decode init (bytes "D0")).1.name2 = List.replicate 20 0 := by decide!
  have hA := armed_decode w _ hw h0
  obtain ⟨a1, a2, a3, a4⟩ := capture_open _ hA
  obtain ⟨b1, b2, b3, b4⟩ := capture_store _ c1 a1 (by omega) a4
  obtain ⟨d1, d2, d3, d4⟩ := capture_store _ c2 b1 (by omega) b4
  obtain ⟨e1, e2, e3, e4⟩ := capture_store _ c3 d1 (by omega) d4
  obtain ⟨f1, f2, f3, f4⟩ := capture_store _ c4 e1 (by omega) e4
  have hk : (step (step (step (step (step (decode (decode init (bytes "D0")).1 w).1 53).1
      c1).1 c2).1 c3).1 c4).1.namestart = 4 := by
    rw [f2, e2, d2, b2, a2]
  have hn := capture_commit _ c5 h5 hk
  rw [f4, f3, e3, d3, b3, a3, e2, d2, b2, a2] at hn
  have key : (decode init (bytes "D0" ++ w ++ [53] ++ [c1, c2, c3, c4, c5])).1.name2 =
      [c1, c2, c3, c4] ++ List.replicate 16 0 := by
    rw [List.append_assoc, List.append_assoc, decode_append, decode_append]
    simp only [List.singleton_append, List.cons_append, List.nil_append, decode_cons,
      decode_nil]
    rw [hn]
    exact copyBytes_identifier c1 c2 c3 c4
  exact ⟨key, by rw [key]; rfl⟩

/-- Witness of C12: `D0`, then `x{`, then `5`, then `}abcZ`. -/
theorem C12_identifier_capture_witness :
    (decode init (bytes "D0" ++ bytes "x\x7b" ++ [53] ++ [125, 97, 98, 99, 90])).1.name2 =
      [125, 97, 98, 99] ++ List.replicate 16 0 ∧
    (decode init (bytes "D0" ++ bytes "x\x7b" ++ [53] ++
      [125, 97, 98, 99, 90])).1.name2.getD 3 0 = 99 :=
  C12_identifier_capture (bytes "x\x7b") 125 97 98 99 90 (by decide) (by decide)

/-- C13. Battery-value capture: for every decoder state in which the battery
flag is set, the battery capture is idle (`recordbatteryvalue = 0`, cursor
`0`) and the battery buffer is empty, and every byte string `t` of at most 4
bytes without a `'}'`, after `':'` and `t` the battery value the dispatch
chain finds when the following `'}'` is processed is exactly `t` (neither the
`':'` nor the `'}'` is part of it). -/
theorem C13_battery_capture (s : State) (t : List Nat) (hb : s.battery > 0)
    (h0 : s.recordbatteryvalue = 0) (hk : s.batterystart = 0)
    (hv : s.batteryvalue = List.replicate 5 0) (hl : t.length ≤ 4) (ht : 125 ∉ t) :
    (atClose (decode s ([58] ++ t)).1).batteryvalue = t ++ List.replicate (5 - t.length) 0 := by
  obtain ⟨a1, a2, a3⟩ := battery_open s hb h0
  obtain ⟨b1, b2, b3⟩ := battery_store_decode t (step s 58).1 ht a1
  rw [List.singleton_append, decode_cons]
  simp only []
  rw [(atClose_fields _).2.2.2.2.2.1, latch_batteryvalue]
  simp only [ne_eq, not_true_eq_false, and_false, if_false]
  rw [b2, a2, a3, hv, hk]
  exact storeAll_short t hl

/-- Witness of C13: after `{ba` the battery value `:3.14` is captured as
`3.14`. -/
theorem C13_battery_capture_witness :
    (atClose (decode batteryFlagState ([58] ++ bytes "3.14")).1).batteryvalue =
      bytes "3.14" ++ List.replicate (5 - (bytes "3.14").length) 0 ∧
    cstr (atClose (decode batteryFlagState ([58] ++ bytes "3.14")).1).batteryvalue =
      bytes "3.14" :=
  ⟨C13_battery_capture batteryFlagState (bytes "3.14") (by decide!) (by decide!)
      (by decide!) (by decide!) (by decide) (by decide),
    by decide!⟩

/-- C14 (the code at the failing input). The `b` latch is not reset on a
mismatch: from the initial state, after `b` and a byte `x` that is neither
`'a'` nor `'u'` the counter `b` is still `1`, so `bxa` sets the battery flag and
`bxu` sets the button flag. The latches of the three sibling triggers are
reset by the same mismatch: `Sxt` leaves the door flag at `0`, `exV` leaves the
value-open trigger unarmed and `Dx0` leaves the identifier trigger unarmed. -/
theorem C14_b_latch_survives_mismatch :
    (decode init (bytes "bx")).1.b = 1 ∧
    (decode init (bytes "bxa")).1.battery = 1 ∧
    (decode init (bytes "bxu")).1.button = 1 ∧
    (decode init (bytes "Sxt")).1.door = 0 ∧
    (decode init (bytes "exV")).1.gotobracket = false ∧
    (decode init (bytes "Dx0")).1.gotoname = false := by
  decide!

/-- C15, as amended. Value field opening: in every decoder state the bracket
capture (`recordstart`) goes from inactive to active only at a `'['` byte
processed while the bracket trigger is armed; the trigger is armed by the
`'V'` of the value-open trigger (a `'V'` while `e > 0`) and stays armed over
every byte other than `'['`, so the next `'['` after that `'V'` starts the
bracket capture whether it follows immediately or after other bytes. -/
theorem C15_value_field_opening (s : State) (w : List Nat) (he : s.e > 0) (hw : 91 ∉ w) :
    (decode s ([86] ++ w ++ [91])).1.recordstart = true ∧
    (∀ (t : State) (c : Nat), t.recordstart = false → (step t c).1.recordstart = true →
      t.gotobracket = true ∧ c = 91) := by
  refine ⟨?_, ?_⟩
  · rw [List.append_assoc, List.singleton_append, decode_cons]
    simp only []
    rw [decode_append]
    simp only [decode_cons, decode_nil]
    exact recordstart_open _ (gotobracket_decode w _ hw (gotobracket_arm s he))
  · intro t c h0 h1
    rw [(step_untouched t c).2.2.2.2.1, latch_recordstart, h0] at h1
    by_cases hg : t.gotobracket = true ∧ c = 91
    · exact hg
    · rw [if_neg hg] at h1
      split_ifs at h1

/-- Witness of C15: after `e` from the initial state, `V` then `xx` then `[`
starts the bracket capture. -/
theorem C15_value_field_opening_witness :
    (decode init (bytes "e")).1.e > 0 ∧
    (decode (decode init (bytes "e")).1 ([86] ++ bytes "xx" ++ [91])).1.recordstart = true :=
  ⟨by decide!,
    (C15_value_field_opening (decode init (bytes "e")).1 (bytes "xx") (by decide!)
      (by decide)).1⟩

/-- Counterexample to C15 as stated: from the initial state (bracket capture
inactive) the bytes `eVxx[` start the bracket capture, although two bytes other
than `'['` come between the `'V'` and the `'['`. -/
theorem C15_counterexample :
    init.recordstart = false ∧
    (decode init (bytes "eV")).1.recordstart = false ∧
    (∀ c ∈ bytes "xx", c ≠ 91) ∧
    (decode init (bytes "eVxx")).1.recordstart = false ∧
    (decode init (bytes "eVxx[")).1.recordstart = true := by
  decide!

/-- C16, as amended. Unclosed bracket: from the initial state, for every
message `{ body }` whose body has no brace and no `']'` and opens a value
field with `eV[`, the closing `'}'` completes the message all the same: it
makes the open-count equal to the close-count and both counters are reset to
`0`, while the bracket capture, never closed, is still active after the
message. -/
theorem C16_unclosed_bracket (pre post : List Nat)
    (h1 : 123 ∉ pre ++ bytes "eV[" ++ post) (h2 : 125 ∉ pre ++ bytes "eV[" ++ post)
    (h3 : 93 ∉ pre ++ bytes "eV[" ++ post) :
    completes (decode init ([123] ++ (pre ++ bytes "eV[" ++ post))).1 ∧
    (decode init ([123] ++ (pre ++ bytes "eV[" ++ post) ++ [125])).1.matchleft = 0 ∧
    (decode init ([123] ++ (pre ++ bytes "eV[" ++ post) ++ [125])).1.matchright = 0 ∧
    (decode init ([123] ++ (pre ++ bytes "eV[" ++ post) ++ [125])).1.recordstart = true := by
  have hs : (step init 123).1.matchleft = 1 ∧ (step init 123).1.matchright = 0 := by decide!
  obtain ⟨k1, k2⟩ := counters_decode _ (step init 123).1 h1 h2
  have hr : (decode (step init 123).1 (pre ++ bytes "eV[" ++ post)).1.recordstart = true := by
    rw [decode_append, decode_append]
    simp only []
    exact recordstart_decode post _
      (fun hc => h3 (List.mem_append_right _ hc)) (recordstart_after_trigger _)
  have hc : completes (decode (step init 123).1 (pre ++ bytes "eV[" ++ post)).1 := by
    unfold completes
    rw [(atClose_fields _).2.2.2.2.2.2.2.2.2.1, (atClose_fields _).2.2.2.2.2.2.2.2.2.2, k1, k2,
      hs.1, hs.2]
  have hd : decode init ([123] ++ (pre ++ bytes "eV[" ++ post)) =
      decode (step init 123).1 (pre ++ bytes "eV[" ++ post) := by
    rw [List.singleton_append, decode_cons]
    rw [step_snd_of_ne init 123 (by decide)]
    rfl
  rw [hd]
  refine ⟨hc, ?_⟩
  have hf : (decode init ([123] ++ (pre ++ bytes "eV[" ++ post) ++ [125])).1 =
      (step (decode (step init 123).1 (pre ++ bytes "eV[" ++ post)).1 125).1 := by
    rw [decode_append, hd]
    simp only [decode_cons, decode_nil]
  rw [hf]
  refine ⟨?_, ?_, ?_⟩
  · rw [step_close_state _ hc]
    simp only [resetMessage]
  · rw [step_close_state _ hc]
    simp only [resetMessage]
  · exact recordstart_step _ 125 (by decide) hr

/-- Witness of C16: `{D051234,eV[12}`: the closing brace completes the message,
the counters are back to `0`, the bracket capture is still active, and the
room values are published with what was captured so far. -/
theorem C16_unclosed_bracket_witness :
    (completes (decode init ([123] ++ (bytes "D051234," ++ bytes "eV[" ++ bytes "12"))).1 ∧
      (decode init ([123] ++ (bytes "D051234," ++ bytes "eV[" ++ bytes "12") ++
        [125])).1.matchleft = 0 ∧
      (decode init ([123] ++ (bytes "D051234," ++ bytes "eV[" ++ bytes "12") ++
        [125])).1.matchright = 0 ∧
      (decode init ([123] ++ (bytes "D051234," ++ bytes "eV[" ++ bytes "12") ++
        [125])).1.recordstart = true) ∧
    (decode init (bytes "\x7bD051234,eV[12\x7d")).2 =
      [Action.SendRoomTemperature (bytes "12"), Action.SendRoomHumidity [],
       Action.SendRoomPressure []] :=
  ⟨C16_unclosed_bracket (bytes "D051234,") (bytes "12") (by decide) (by decide) (by decide),
    by decide!⟩

/-- Counterexample to C16 as stated: the body of `{eV[}` opens a value field
and has no `']'`, yet the closing `'}'` completes the message and the counters
are reset: after `{eV[` the open-count is `1`, after the `'}'` it is `0`; and
the closing `'}'` of `{D051234,eV[12}` publishes. -/
theorem C16_counterexample :
    (decode init (bytes "\x7beV[")).1.matchleft = 1 ∧
    completes (decode init (bytes "\x7beV[")).1 ∧
    (decode init (bytes "\x7beV[\x7d")).1.matchleft = 0 ∧
    (decode init (bytes "\x7beV[\x7d")).1.matchright = 0 ∧
    (decode init (bytes "\x7bD051234,eV[12\x7d")).2 ≠ [] := by
  decide!

/-- C17. Fall-through cascade: in every decoder state, after one byte `c` has
been processed `e` is `1` if `c` is `'b'` or `'e'` and `0` otherwise, `D` is
`1` if `c` is `'b'`, `'e'` or `'D'` and `0` otherwise, `S` is `1` if `c` is
`'b'`, `'e'`, `'D'` or `'S'` and `0` otherwise, and `b` is incremented by one
exactly when `c` is `'b'` (otherwise it does not grow); in particular a `'t'`
that immediately follows any of `'b'`, `'e'`, `'D'`, `'S'` sets the door
latch. -/
theorem C17_fallthrough_cascade (s : State) (c : Nat) :
    (step s c).1.e = (if c = 98 ∨ c = 101 then 1 else 0) ∧
    (step s c).1.D = (if c = 98 ∨ c = 101 ∨ c = 68 then 1 else 0) ∧
    (step s c).1.S = (if c = 98 ∨ c = 101 ∨ c = 68 ∨ c = 83 then 1 else 0) ∧
    (c = 98 → (step s c).1.b = s.b + 1) ∧
    (c ≠ 98 → (step s c).1.b ≤ s.b) ∧
    (c = 98 ∨ c = 101 ∨ c = 68 ∨ c = 83 → (step (step s c).1 116).1.door = 1) := by
  by_cases h : c = 125
  · subst h
    have hl : (atClose s).e = 0 ∧ (atClose s).D = 0 ∧ (atClose s).S = 0 ∧
        (atClose s).b ≤ s.b := by
      simp only [atClose, closeBrace, latch_e, latch_D, latch_S, latch_b]
      refine ⟨trivial, trivial, trivial, ?_⟩
      split_ifs <;> omega
    by_cases hc : completes s
    · rw [step_close_state s hc]
      simp only [resetMessage]
      rcases dispatch_fst (atClose s) with hd | hd <;> rw [hd] <;>
        simp [clearSubValues, hl.1, hl.2.1, hl.2.2.2]
    · rw [step_close_of_not_completes s hc]
      simp [hl.1, hl.2.1, hl.2.2.1, hl.2.2.2]
  · have hs := step_fst_of_ne s c h
    refine ⟨?_, ?_, ?_, ?_, ?_, ?_⟩
    · rw [hs]
    · rw [hs]
    · rw [hs]
    · intro hb; rw [hs]; simp only [hb, latch_b]; simp
    · intro hb; rw [hs]; simp only [hb, latch_b, if_false]; split_ifs <;> omega
    · intro hc
      have hS : (step s c).1.S = 1 := by rw [hs]; simp [hc]
      rw [step_fst_of_ne _ 116 (by decide)]
      simp only [latch_door, hS]
      simp

/-- C19, as amended. Wire format: for every publish action other than
`InOffice` and every value text `v` short enough for the payload to fit in 99
characters, the payload handed to the cloud transport is the single-field JSON
text `{ "key": "v"}` with the action's key and the given value as quoted text;
the payload of `InOffice` is `{ "inOffice": "1"}` whatever value is given. -/
theorem C19_wire_format (a : Action) (h : a.key.length + a.value.length + 9 ≤ 99) :
    ((∀ v, a ≠ Action.SendInOffice v) → payload a = jsonField a.key a.value) ∧
    (∀ v, a = Action.SendInOffice v → payload a = jsonField (bytes "inOffice") (bytes "1")) := by
  cases a with
  | SendInOffice v => exact ⟨fun hn => absurd rfl (hn v), fun _ _ => payload_inOffice v⟩
  | SendDoorState v =>
    exact ⟨fun _ => snprintf_template (bytes "DoorState") v h, fun w hw => Action.noConfusion hw⟩
  | SendDoorBattery v =>
    exact ⟨fun _ => snprintf_template (bytes "DoorBat") v h, fun w hw => Action.noConfusion hw⟩
  | SendTrackerBattery v =>
    exact ⟨fun _ => snprintf_template (bytes "TrackerBat") v h,
      fun w hw => Action.noConfusion hw⟩
  | SendOutsideBattery v =>
    exact ⟨fun _ => snprintf_template (bytes "OutsideBat") v h,
      fun w hw => Action.noConfusion hw⟩
  | SendServerBattery v =>
    exact ⟨fun _ => snprintf_template (bytes "ServerBat") v h, fun w hw => Action.noConfusion hw⟩
  | SendRoomBattery v =>
    exact ⟨fun _ => snprintf_template (bytes "RoomBat") v h, fun w hw => Action.noConfusion hw⟩
  | SendOutsidePressure v =>
    exact ⟨fun _ => snprintf_template (bytes "OutsidePres") v h,
      fun w hw => Action.noConfusion hw⟩
  | SendServerPressure v =>
    exact ⟨fun _ => snprintf_template (bytes "ServerPres") v h,
      fun w hw => Action.noConfusion hw⟩
  | SendRoomPressure v =>
    exact ⟨fun _ => snprintf_template (bytes "RoomPres") v h, fun w hw => Action.noConfusion hw⟩
  | SendOutsideHumidity v =>
    exact ⟨fun _ => snprintf_template (bytes "OutsideHumi") v h,
      fun w hw => Action.noConfusion hw⟩
  | SendServerHumidity v =>
    exact ⟨fun _ => snprintf_template (bytes "ServerHumi") v h,
      fun w hw => Action.noConfusion hw⟩
  | SendRoomHumidity v =>
    exact ⟨fun _ => snprintf_template (bytes "RoomHumi") v h, fun w hw => Action.noConfusion hw⟩
  | SendOutsideTemperature v =>
    exact ⟨fun _ => snprintf_template (bytes "OutsideTemp") v h,
      fun w hw => Action.noConfusion hw⟩
  | SendServerTemperature v =>
    exact ⟨fun _ => snprintf_template (bytes "ServerTemp") v h,
      fun w hw => Action.noConfusion hw⟩
  | SendRoomTemperature v =>
    exact ⟨fun _ => snprintf_template (bytes "RoomTemp") v h, fun w hw => Action.noConfusion hw⟩

/-- Witness of C19: `SendRoomTemperature("21")` hands over `{ "RoomTemp": "21"}`. -/
theorem C19_wire_format_witness :
    (Action.SendRoomTemperature (bytes "21")).key.length +
        (Action.SendRoomTemperature (bytes "21")).value.length + 9 ≤ 99 ∧
    payload (Action.SendRoomTemperature (bytes "21")) = bytes "\x7b \"RoomTemp\": \"21\"\x7d" :=
  ⟨by decide,
    ((C19_wire_format (Action.SendRoomTemperature (bytes "21")) (by decide)).1
      (fun _ hw => Action.noConfusion hw)).trans (by decide)⟩

/-- Counterexample to C19 as stated: `SendInOffice("0")` fits in 99 characters,
yet its payload is not `{ "inOffice": "0"}`: it is `{ "inOffice": "1"}`, the
same text as for `SendInOffice("1")`, and the given value `"0"` does not appear
in it as quoted text. -/
theorem C19_counterexample :
    (Action.SendInOffice (bytes "0")).key.length +
        (Action.SendInOffice (bytes "0")).value.length + 9 ≤ 99 ∧
    payload (Action.SendInOffice (bytes "0")) ≠
      jsonField (Action.SendInOffice (bytes "0")).key (Action.SendInOffice (bytes "0")).value ∧
    payload (Action.SendInOffice (bytes "0")) = bytes "\x7b \"inOffice\": \"1\"\x7d" ∧
    payload (Action.SendInOffice (bytes "0")) = payload (Action.SendInOffice (bytes "1")) ∧
    ¬ (bytes "\"0\"" <:+: payload (Action.SendInOffice (bytes "0"))) := by
  decide

/-- C20 (the code at the failing input). After `{ba:12345` the 5-byte battery
buffer is full and the battery cursor is `5`; for the next byte `'6'` the
condition of the store of lines 351-354 holds (capture active, byte not `'}'`)
and the store is made at index `5`, the capacity of the buffer, with no check
of the cursor: the cursor then is `6`. The stores into the three sub-value
buffers are guarded by their cursors (lines 445, 451, 457); this one is not. -/
theorem C20_battery_store_unguarded :
    batteryFullState.batteryvalue.length = 5 ∧
    (batteryLatch batteryFullState 54).recordbatteryvalue > 0 ∧ (54 : Nat) ≠ 125 ∧
    (batteryLatch batteryFullState 54).batterystart = 5 ∧
    batteryStore (batteryLatch batteryFullState 54) 54 =
      { batteryLatch batteryFullState 54 with
        batteryvalue := (batteryLatch batteryFullState 54).batteryvalue.set 5 54,
        batterystart := 6 } ∧
    (decode init (bytes "\x7bba:123456")).1.batterystart = 6 := by
  decide!

/-- C21. Reconnect back-off: starting from the default poll period of 5
seconds, after `n ≥ 1` consecutive calls of `SetupAzureClient` whose
provisioning fails the poll period is `min (60 * 2^(n-1)) 600` seconds (so it
is 60 after the first, is at least 60 and never exceeds 600), and the client is
still not authenticated; a call whose provisioning succeeds sets the period
back to 5, from every state. -/
theorem C21_reconnect_backoff (n : Nat) (hn : 1 ≤ n) :
    (failedAttempts n azureStart).azureIoTPollPeriodSeconds = min (60 * 2 ^ (n - 1)) 600 ∧
    60 ≤ (failedAttempts n azureStart).azureIoTPollPeriodSeconds ∧
    (failedAttempts n azureStart).azureIoTPollPeriodSeconds ≤ 600 ∧
    (failedAttempts n azureStart).iothubAuthenticated = false ∧
    (∀ s : AzureClient, (SetupAzureClient true s).azureIoTPollPeriodSeconds = 5) ∧
    (SetupAzureClient true (failedAttempts n azureStart)).azureIoTPollPeriodSeconds = 5 := by
  obtain ⟨k, rfl⟩ : ∃ k, n = k + 1 := ⟨n - 1, by omega⟩
  have h := failedAttempts_succ k
  have hp : (1 : Int) ≤ 2 ^ k := by exact_mod_cast Nat.one_le_two_pow
  rw [Nat.add_sub_cancel]
  refine ⟨h, ?_, ?_, failedAttempts_authenticated (k + 1), fun _ => rfl, rfl⟩
  · rw [h]; omega
  · rw [h]; omega

/-- Witness of C21: the periods after 1, 2, 3, 4, 5 and 6 failed attempts are
60, 120, 240, 480, 600 and 600 seconds. -/
theorem C21_reconnect_backoff_witness :
    (failedAttempts 5 azureStart).azureIoTPollPeriodSeconds = min (60 * 2 ^ (5 - 1)) 600 ∧
    (List.range 7).map (fun n => (failedAttempts n azureStart).azureIoTPollPeriodSeconds) =
      [5, 60, 120, 240, 480, 600, 600] :=
  ⟨(C21_reconnect_backoff 5 (by decide)).1, by decide⟩

/-- C22. Stray closing brace: if a `'}'` is processed while the open-count and
the close-count are both `0`, then for every following sequence of messages
`{ body }` with brace-free bodies no call is made, after the messages the
open-count is the number of messages and the close-count is one more (the
counters were never reset), and the closing brace of a further such message
does not complete it either. -/
theorem C22_stray_close_desynchronises (s : State) (bs : List (List Nat))
    (h0 : s.matchleft = 0 ∧ s.matchright = 0) (hb : ∀ b ∈ bs, 123 ∉ b ∧ 125 ∉ b) :
    (decode s ([125] ++ messages bs)).2 = [] ∧
    (decode s ([125] ++ messages bs)).1.matchleft = bs.length ∧
    (decode s ([125] ++ messages bs)).1.matchright = bs.length + 1 ∧
    (∀ b : List Nat, 123 ∉ b → 125 ∉ b →
      ¬ completes (decode s ([125] ++ messages bs ++ ([123] ++ b))).1) := by
  obtain ⟨a1, a2, a3⟩ := stalled_close s (by rw [h0.1, h0.2]; decide)
  have hs : (step s 125).1.matchright = (step s 125).1.matchleft + 1 := by
    rw [a2, a3, h0.1, h0.2]
  obtain ⟨i1, i2, i3⟩ := stalled_messages bs (step s 125).1 hs hb
  have e : decode s ([125] ++ messages bs) =
      ((decode (step s 125).1 (messages bs)).1, []) := by
    rw [List.singleton_append, decode_cons, a1, i1]
    rfl
  refine ⟨by rw [e], ?_, ?_, ?_⟩
  · rw [e]
    simp only []
    rw [i2, a2, h0.1, Nat.zero_add]
  · rw [e]
    simp only []
    rw [i3, a3, h0.2]
    omega
  · intro b h1 h2
    rw [decode_append_fst, e]
    simp only []
    exact (stalled_message _ b (by rw [i2, i3, hs]; omega) h1 h2).1

/-- Witness of C22: from the initial state, `}` followed by
`{D051234,eV[12,45,990]}` makes no call, while the message alone makes the
three room calls. -/
theorem C22_stray_close_desynchronises_witness :
    (decode init ([125] ++ messages [bytes "D051234,eV[12,45,990]"])).2 = [] ∧
    [125] ++ messages [bytes "D051234,eV[12,45,990]"] =
      bytes "\x7d\x7bD051234,eV[12,45,990]\x7d" ∧
    (decode init (bytes "\x7bD051234,eV[12,45,990]\x7d")).2 ≠ [] :=
  ⟨(C22_stray_close_desynchronises init [bytes "D051234,eV[12,45,990]"] (by decide)
      (by decide)).1,
    by decide, by decide!⟩

/-- C23. Gate with no captured value: whenever a `'}'` completes a message and
the bracket-value buffer is empty (`value2[0]` is the NUL byte), the gate
condition `value2[0] != '0'` holds, and a class-`'4'` message with the battery
flag `0` makes exactly the calls `SendRoomTemperature`, `SendRoomHumidity`,
`SendRoomPressure` with what the three sub-value buffers hold. -/
theorem C23_gate_passes_without_value (s : State) (hc : completes s)
    (h0 : (atClose s).value2.getD 0 0 = 0) :
    (atClose s).value2.getD 0 0 ≠ 48 ∧
    ((atClose s).name2.getD 3 0 = 52 → (atClose s).battery = 0 →
      (step s 125).2 =
        [Action.SendRoomTemperature (cstr (atClose s).evalue1),
         Action.SendRoomHumidity (cstr (atClose s).evalue2),
         Action.SendRoomPressure (cstr (atClose s).evalue3)]) := by
  have hg : (atClose s).value2.getD 0 0 ≠ 48 := by rw [h0]; decide
  refine ⟨hg, fun hn hb => ?_⟩
  rw [step_close_actions s hc]
  unfold dispatch
  rw [if_neg (fun h => absurd (hn ▸ h.1) (by decide)),
    if_neg (fun h => absurd (hn ▸ h.1) (by decide)),
    if_neg (fun h => absurd (hn ▸ h) (by decide)),
    if_pos ⟨hn, hg, hb⟩]

/-- Witness of C23: `{D051234,}` from the initial state makes the three room
calls with empty values. -/
theorem C23_gate_passes_without_value_witness :
    completes noValueState ∧ (atClose noValueState).value2.getD 0 0 = 0 ∧
    (step noValueState 125).2 =
      [Action.SendRoomTemperature (cstr (atClose noValueState).evalue1),
       Action.SendRoomHumidity (cstr (atClose noValueState).evalue2),
       Action.SendRoomPressure (cstr (atClose noValueState).evalue3)] ∧
    (decode init (bytes "\x7bD051234,\x7d")).2 =
      [Action.SendRoomTemperature [], Action.SendRoomHumidity [],
       Action.SendRoomPressure []] :=
  ⟨by decide!, by decide!,
    (C23_gate_passes_without_value noValueState (by decide!) (by decide!)).2 (by decide!)
      (by decide!),
    by decide!⟩

/-- C24. The dispatch ignores the button latch: for every decoder state `s`
and every value `v` of the button latch, the closing brace makes the same
calls from `s` as from the state that differs from `s` only in the button
latch, and so does the dispatch chain itself; in particular a class-`'8'`
message that completes with the door latch and the battery flag not set makes
no call, whatever the button latch is. -/
theorem C24_button_latch_ignored (s : State) (v : Nat) :
    (step { s with button := v } 125).2 = (step s 125).2 ∧
    (dispatch { s with button := v }).2 = (dispatch s).2 ∧
    (completes s → (atClose s).name2.getD 3 0 = 56 → (atClose s).door ≠ 1 →
      (atClose s).battery ≠ 1 → (step s 125).2 = []) := by
  refine ⟨step_button s v, dispatch_button s v, fun hc hn hd hb => ?_⟩
  rw [step_close_actions s hc]
  unfold dispatch
  rw [if_neg (fun h => hd h.2.2), if_neg (fun h => hb h.2.2), if_pos hn]

/-- Witness of C24: in `{D051238,eV[1]bu}` the gate passes and only the button
trigger fired; the closing brace makes no call, and it makes none either when
the button latch is put back to `0`. -/
theorem C24_button_latch_ignored_witness :
    buttonOnlyState.button = 1 ∧ (atClose buttonOnlyState).value2.getD 0 0 ≠ 48 ∧
    (step buttonOnlyState 125).2 = [] ∧
    (step { buttonOnlyState with button := 0 } 125).2 = (step buttonOnlyState 125).2 :=
  ⟨by decide!, by decide!,
    (C24_button_latch_ignored buttonOnlyState 0).2.2 (by decide!) (by decide!) (by decide!)
      (by decide!),
    (C24_button_latch_ignored buttonOnlyState 0).1⟩

/-- C25. What completion resets: for every decoder state and every `'}'` byte
that makes the open-count equal to the close-count, after that byte the
open-count, the close-count and the raw-message cursor are `0`, the door,
battery, button and `S` latches and the battery-capture flag and cursor are
`0`, both comma counters and the three sub-value cursors are `0`, and the
battery buffer, `value2`, `name2` and the raw message buffer hold zero bytes
only. -/
theorem C25_completion_resets (s : State) (hc : completes s) :
    ((step s 125).1.matchleft = 0 ∧ (step s 125).1.matchright = 0 ∧
      (step s 125).1.messagestart = 0) ∧
    ((step s 125).1.door = 0 ∧ (step s 125).1.battery = 0 ∧ (step s 125).1.button = 0 ∧
      (step s 125).1.S = 0 ∧ (step s 125).1.recordbatteryvalue = 0 ∧
      (step s 125).1.batterystart = 0) ∧
    ((step s 125).1.got1 = 0 ∧ (step s 125).1.got2 = 0 ∧ (step s 125).1.evalue1start = 0 ∧
      (step s 125).1.evalue2start = 0 ∧ (step s 125).1.evalue3start = 0) ∧
    ((step s 125).1.batteryvalue = List.replicate 5 0 ∧
      (step s 125).1.value2 = List.replicate 20 0 ∧
      (step s 125).1.name2 = List.replicate 20 0 ∧
      (step s 125).1.message = List.replicate 100 0) := by
  rw [step_close_state s hc]
  simp only [resetMessage, and_self]

/-- Witness of C25: the closing brace of `{D051234,eV[12,45,990]}`, before
which both comma counters are `1`, the third cursor is `3` and `value2` and
`name2` are not empty. -/
theorem C25_completion_resets_witness :
    (completes (telemetryState 52) ∧ (telemetryState 52).got1 = 1 ∧
      (telemetryState 52).got2 = 1 ∧ (telemetryState 52).evalue3start = 3 ∧
      (telemetryState 52).value2 ≠ List.replicate 20 0 ∧
      (telemetryState 52).name2 ≠ List.replicate 20 0) ∧
    (step (telemetryState 52) 125).1.got1 = 0 ∧
    (step (telemetryState 52) 125).1.evalue3start = 0 ∧
    (step (telemetryState 52) 125).1.value2 = List.replicate 20 0 ∧
    (step (telemetryState 52) 125).1.name2 = List.replicate 20 0 ∧
    (step (telemetryState 52) 125).1.message = List.replicate 100 0 :=
  ⟨by decide!,
    (C25_completion_resets (telemetryState 52) (by decide!)).2.2.1.1,
    (C25_completion_resets (telemetryState 52) (by decide!)).2.2.1.2.2.2.2,
    (C25_completion_resets (telemetryState 52) (by decide!)).2.2.2.2.1,
    (C25_completion_resets (telemetryState 52) (by decide!)).2.2.2.2.2.1,
    (C25_completion_resets (telemetryState 52) (by decide!)).2.2.2.2.2.2⟩

end KoliadaSphere
